import Mathlib

/-!
# Rad-5GC GW : RADIUS / EAP-AKA' to N12 gateway

A shallow embedding of the gateway's Go sources (`rad5gcGW.go`, `n12client.go`,
`eapIdManagement.go`, `configGetFromYaml.go`) together with the properties of the
specification that were checked against it.

Conventions of the embedding

* A Go `byte` is a natural number below 256; a Go `[]byte` and a Go `string`
  are both lists of bytes (a Go string is an immutable byte sequence, so
  `string(b)` and `[]byte(s)` are the identity).
* A Go function returning `(v, err)` returns the same tuple here, with
  `Option GoError` for the error (`none` is Go's `nil`).
* A Go run-time panic (index out of range, nil dereference) is the `panic`
  result of `Run`.
* Log output is not modelled: it has no effect on any returned value.
-/

namespace Rad5GC

/-! ## Go values -/

/-- A Go `byte`: a natural number, kept below 256 by the operations that build it. -/
abbrev Byte := Nat

/-- A Go `[]byte`. -/
abbrev Bytes := List Nat

/-- A Go `string`, as its byte sequence. -/
abbrev GoString := List Nat

/-- The byte sequence of an ASCII string literal of the source. -/
def ascii (s : String) : GoString := s.toList.map Char.toNat

/-- Go `error` values that occur in the gateway. Distinct Go errors are distinct
constructors, so that `==` on Go errors is equality here. -/
inductive GoError where
  /-- The Go error `errors.New(s)` created in the gateway's own code. -/
  | msg (s : String)
  /-- The Go error `base64.CorruptInputError(offset)`. -/
  | corruptInput (offset : Nat)
  /-- The Go error `hex.InvalidByteError(b)`. -/
  | invalidByte (b : Nat)
  /-- The Go error `hex.ErrLength`. -/
  | errLength
  /-- The Go error `radius.ErrNoAttribute`. -/
  | noAttribute
  /-- The error of `radius.AttributesEncodedLen` for an attribute value over 253 bytes. -/
  | attributeTooLarge
  /-- The error of `Packet.MarshalBinary` for a packet over 4095 bytes. -/
  | packetTooLarge
  /-- The error of `radius.NewString` for a string over 253 bytes. -/
  | stringTooLong
  /-- An error of `layers.EAP.DecodeFromBytes`. -/
  | eapDecode (s : String)
  /-- An error reported by a library the embedding takes as a parameter
  (JSON decoding, HTTP transport, key encryption, socket write). -/
  | lib (s : String)
  deriving DecidableEq, Repr

/-- Outcome of running Go code: it returns, it panics, or (for the one unbounded
loop of the gateway, in `generateEAPId`) it is still looping after the number of
iterations the model was given. -/
inductive Run (α : Type) where
  | ret (a : α)
  | panic (reason : String)
  | spin
  deriving DecidableEq, Repr

/-- Sequencing of Go statements: a panic aborts what follows. -/
def Run.bind {α β : Type} : Run α → (α → Run β) → Run β
  | .ret a, f => f a
  | .panic r, _ => .panic r
  | .spin, _ => .spin

instance : Monad Run where
  pure := Run.ret
  bind := Run.bind

/-- The Go index expression `xs[i]`: panics when `i` is out of range. -/
def index (xs : Bytes) (i : Nat) : Run Byte :=
  match xs[i]? with
  | some b => .ret b
  | none => .panic "index out of range"

/-- The Go slice expression `xs[lo:hi]`: panics unless `lo ≤ hi ≤ len(xs)`. -/
def slice (xs : Bytes) (lo hi : Nat) : Run Bytes :=
  if lo ≤ hi ∧ hi ≤ xs.length then .ret ((xs.take hi).drop lo)
  else .panic "slice bounds out of range"

/-- The Go slice expression `xs[lo:]`: panics unless `lo ≤ len(xs)`. -/
def sliceFrom (xs : Bytes) (lo : Nat) : Run Bytes :=
  if lo ≤ xs.length then .ret (xs.drop lo)
  else .panic "slice bounds out of range"

/-! ## Go standard library: `strings` -/

/-- Go `strings.HasPrefix`. -/
def HasPrefix (s p : GoString) : Bool := p.isPrefixOf s

/-- Go `strings.HasSuffix`. -/
def HasSuffix (s p : GoString) : Bool := p.isSuffixOf s

/-- Go `strings.CutPrefix`: `s` without the leading `p` and `true`, or `s` and `false`. -/
def CutPrefix (s p : GoString) : GoString × Bool :=
  if HasPrefix s p then (s.drop p.length, true) else (s, false)

/-- Index of the first occurrence of `sep` in `s` (Go `strings.Index`), if any. -/
def Index (s sep : GoString) : Option Nat :=
  if sep.isPrefixOf s then some 0
  else match s with
    | [] => none
    | _ :: t => (Index t sep).map (· + 1)

/-- Go `strings.Contains`. -/
def Contains (s sub : GoString) : Bool := (Index s sub).isSome

/-- Go `strings.Cut`: the text before and after the first `sep`, and whether
`sep` occurs; `(s, "", false)` when it does not. -/
def Cut (s sep : GoString) : GoString × GoString × Bool :=
  match Index s sep with
  | some i => (s.take i, s.drop (i + sep.length), true)
  | none => (s, [], false)

/-! ## Go standard library: `encoding/hex` -/

/-- The lower-case hex digit of a value below 16 (`hextable`). -/
def hexDigit (v : Nat) : Byte := if v < 10 then 48 + v else 87 + v

/-- Go `hex.EncodeToString`. -/
def hexEncodeToString : Bytes → GoString
  | [] => []
  | b :: rest => hexDigit (b / 16) :: hexDigit (b % 16) :: hexEncodeToString rest

/-- Value of a hex digit (`reverseHexTable`); `none` for the table's `0xff`. -/
def fromHexChar (c : Byte) : Option Nat :=
  if 48 ≤ c ∧ c ≤ 57 then some (c - 48)
  else if 97 ≤ c ∧ c ≤ 102 then some (c - 87)
  else if 65 ≤ c ∧ c ≤ 70 then some (c - 55)
  else none

/-- Go `hex.Decode(dst, src)` with `dst` of `hex.DecodedLen(len(src))` bytes:
the bytes written, or the error. Pairs are decoded left to right; the first bad
character is reported; an odd trailing character is reported as bad when it is
no hex digit and as `ErrLength` otherwise. -/
def hexDecode : Bytes → Except GoError Bytes
  | [] => .ok []
  | [p] => match fromHexChar p with
    | none => .error (.invalidByte p)
    | some _ => .error .errLength
  | p :: q :: rest =>
    match fromHexChar p with
    | none => .error (.invalidByte p)
    | some a =>
      match fromHexChar q with
      | none => .error (.invalidByte q)
      | some b =>
        match hexDecode rest with
        | .error e => .error e
        | .ok out => .ok ((a * 16 + b) :: out)

/-! ## Go standard library: `encoding/base64`, `StdEncoding` -/

/-- The character of a 6-bit value in the standard alphabet. -/
def b64Char (v : Nat) : Byte :=
  if v < 26 then 65 + v
  else if v < 52 then 71 + v
  else if v < 62 then v - 4
  else if v = 62 then 43
  else 47

/-- The 6-bit value of a character of the standard alphabet (`decodeMap`);
`none` for the table's `0xff`. -/
def b64Value (c : Byte) : Option Nat :=
  if 65 ≤ c ∧ c ≤ 90 then some (c - 65)
  else if 97 ≤ c ∧ c ≤ 122 then some (c - 71)
  else if 48 ≤ c ∧ c ≤ 57 then some (c + 4)
  else if c = 43 then some 62
  else if c = 47 then some 63
  else none

/-- Go `base64.StdEncoding.EncodedLen`. -/
def base64EncodedLen (n : Nat) : Nat := (n + 2) / 3 * 4

/-- Go `base64.StdEncoding.DecodedLen`: the size of the destination buffer,
an upper bound of the decoded size when the input is padded. -/
def base64DecodedLen (n : Nat) : Nat := n / 4 * 3

/-- Go `base64.StdEncoding.Encode`: three bytes give four characters, the last
group is padded with `=`. -/
def base64Encode : Bytes → Bytes
  | [] => []
  | [a] =>
    let val := a * 65536
    [b64Char (val / 262144 % 64), b64Char (val / 4096 % 64), 61, 61]
  | [a, b] =>
    let val := a * 65536 + b * 256
    [b64Char (val / 262144 % 64), b64Char (val / 4096 % 64), b64Char (val / 64 % 64), 61]
  | a :: b :: c :: rest =>
    let val := a * 65536 + b * 256 + c
    b64Char (val / 262144 % 64) :: b64Char (val / 4096 % 64) :: b64Char (val / 64 % 64)
      :: b64Char (val % 64) :: base64Encode rest

/-- Whether a character is `\n` or `\r`, which the decoder skips. -/
def isNewline (c : Byte) : Bool := c == 10 || c == 13

/-- The bytes a quantum of `dlen` collected 6-bit values yields: `dlen - 1` bytes. -/
def quantumBytes (dbuf : List Nat) : Bytes :=
  let val := dbuf.getD 0 0 * 262144 + dbuf.getD 1 0 * 4096 + dbuf.getD 2 0 * 64 + dbuf.getD 3 0
  ([val / 65536 % 256, val / 256 % 256, val % 256]).take (dbuf.length - 1)

/-- Go `base64.StdEncoding.Decode`, as the run of its `decodeQuantum` calls over
the remaining input: `si` is the number of characters consumed, `dbuf` the 6-bit
values of the current quantum, `out` the bytes written so far. The result is the
bytes written (Go's `n` of them), or the `CorruptInputError`. The 8- and
4-character fast paths of `Decode` compute the same bytes and are not separate
here. -/
def base64DecodeFrom : Bytes → Nat → List Nat → Bytes → Except GoError Bytes
  | [], si, dbuf, out =>
    if dbuf.length = 0 then .ok out else .error (.corruptInput (si - dbuf.length))
  | c :: rest, si, dbuf, out =>
    match b64Value c with
    | some v =>
      if dbuf.length = 3 then base64DecodeFrom rest (si + 1) [] (out ++ quantumBytes (dbuf ++ [v]))
      else base64DecodeFrom rest (si + 1) (dbuf ++ [v]) out
    | none =>
      if isNewline c then base64DecodeFrom rest (si + 1) dbuf out
      else if c ≠ 61 then .error (.corruptInput si)
      else if dbuf.length < 2 then .error (.corruptInput si)
      else if dbuf.length = 2 then
        -- "==" is expected, the first "=" is consumed
        let skipped := rest.takeWhile isNewline
        match rest.dropWhile isNewline with
        | [] => .error (.corruptInput (si + 1 + rest.length))
        | c2 :: rest2 =>
          if c2 ≠ 61 then .error (.corruptInput (si + skipped.length))
          else
            let skipped2 := rest2.takeWhile isNewline
            match rest2.dropWhile isNewline with
            | [] => .ok (out ++ quantumBytes dbuf)
            | _ :: _ => .error (.corruptInput (si + 1 + skipped.length + 1 + skipped2.length))
      else
        let skipped := rest.takeWhile isNewline
        match rest.dropWhile isNewline with
        | [] => .ok (out ++ quantumBytes dbuf)
        | _ :: _ => .error (.corruptInput (si + 1 + skipped.length))

/-- Go `base64.StdEncoding.Decode(dst, src)`: the bytes written, or the error. -/
def base64Decode (src : Bytes) : Except GoError Bytes := base64DecodeFrom src 0 [] []

/-- The destination buffer after `dst := make([]byte, DecodedLen(len(src)))` and a
successful `Decode(dst, src)`: the decoded bytes followed by the zero bytes of
`make` that were never overwritten, or the decode error. The number of bytes
written, which Go returns, is what the gateway discards with `_`. -/
def base64DecodeBuffer (src : Bytes) : Except GoError Bytes :=
  match base64Decode src with
  | .error e => .error e
  | .ok written =>
    .ok (written ++ List.replicate (base64DecodedLen src.length - written.length) 0)

/-! ## `n12client.go`: payload codec -/

/-- The `eapPayload` string `authReqExchange` puts on N12 (lines 105-108):
`hex.EncodeToString`, then `base64.StdEncoding.Encode` into a buffer of
`EncodedLen` bytes. -/
def encodeEapPayload (eapContents : Bytes) : GoString :=
  base64Encode (hexEncodeToString eapContents)

/-- The gateway's function `base64AndHexDecode` of `n12client.go`; the status code
argument is only logged. -/
def base64AndHexDecode (str : GoString) : Run (Bytes × Byte × Option GoError) :=
  match base64DecodeBuffer str with
  | .error sixFourDecodeErr => .ret ([], 0, some sixFourDecodeErr)
  | .ok sixFourDecodedbytes =>
    match hexDecode sixFourDecodedbytes with
    | .error hexToByteErr => .ret ([], 0, some hexToByteErr)
    | .ok hexDecodedBytes => do
      let eapId ← index hexDecodedBytes 1
      return (hexDecodedBytes, eapId, none)

/-! ## `layeh.com/radius`: packets and attributes -/

/-- An attribute-value pair `radius.AVP`. -/
structure AVP where
  /-- The field `Type` of the library: the attribute type, 0..255 on the wire. -/
  AttrType : Nat
  /-- The attribute value. -/
  Attribute : Bytes
  deriving DecidableEq, Repr

/-- The part of `radius.Packet` the gateway touches. -/
structure Packet where
  Code : Nat
  Identifier : Nat
  Authenticator : Bytes
  Secret : Bytes
  Attributes : List AVP
  deriving DecidableEq, Repr

/-- The constant `radius.CodeAccessAccept`. -/
def CodeAccessAccept : Nat := 2
/-- The constant `radius.CodeAccessReject`. -/
def CodeAccessReject : Nat := 3
/-- The constant `radius.CodeAccessChallenge`. -/
def CodeAccessChallenge : Nat := 11

/-- The library's `Attributes.Lookup`: the value of the first attribute of type `key`. -/
def AttributesLookup (a : List AVP) (key : Nat) : Option Bytes :=
  (a.find? (fun avp => avp.AttrType == key)).map (fun avp => avp.Attribute)

/-- The library's `Attributes.Add`: append one attribute. -/
def AttributesAdd (a : List AVP) (key : Nat) (value : Bytes) : List AVP :=
  a ++ [⟨key, value⟩]

/-- The loop of `Attributes.Set`: the first attribute of type `key` is replaced in
place, every later one is removed; `foundKey` says whether one was seen. -/
def AttributesSetLoop (key : Nat) (value : Bytes) : List AVP → Bool → List AVP × Bool
  | [], foundKey => ([], foundKey)
  | avp :: rest, foundKey =>
    if avp.AttrType = key then
      if foundKey then AttributesSetLoop key value rest true
      else
        let r := AttributesSetLoop key value rest true
        (⟨key, value⟩ :: r.1, r.2)
    else
      let r := AttributesSetLoop key value rest foundKey
      (avp :: r.1, r.2)

/-- The library's `Attributes.Set`: replace the first attribute of type `key`, remove the other
ones, and append the attribute when there was none. -/
def AttributesSet (a : List AVP) (key : Nat) (value : Bytes) : List AVP :=
  let r := AttributesSetLoop key value a false
  if r.2 then r.1 else AttributesAdd r.1 key value

/-- The library's `radius.AttributesEncodedLen`: two bytes of header per attribute plus its
value; an error for a value over 253 bytes. -/
def AttributesEncodedLen : List AVP → Except GoError Nat
  | [] => .ok 0
  | avp :: rest =>
    if avp.Attribute.length > 253 then .error .attributeTooLarge
    else match AttributesEncodedLen rest with
      | .error e => .error e
      | .ok n => .ok (2 + avp.Attribute.length + n)

/-- The wire form of the attributes (`Attributes.encodeTo`): type, length, value. -/
def encodeAttributes : List AVP → Bytes
  | [] => []
  | avp :: rest =>
    (avp.AttrType % 256) :: ((2 + avp.Attribute.length) % 256) :: avp.Attribute ++ encodeAttributes rest

/-- The library's `Packet.MarshalBinary`: code, identifier, 16-bit length, the packet's
`Authenticator` field as it stands, and the attributes; an error when an attribute
is too large or the packet exceeds `MaxPacketLength` (4095). -/
def MarshalBinary (p : Packet) : Except GoError Bytes :=
  match AttributesEncodedLen p.Attributes with
  | .error e => .error e
  | .ok attributesLen =>
    let size := 20 + attributesLen
    if size > 4095 then .error .packetTooLarge
    else .ok ((p.Code % 256) :: (p.Identifier % 256) :: (size / 256) :: (size % 256)
      :: ((p.Authenticator ++ List.replicate 16 0).take 16) ++ encodeAttributes p.Attributes)

/-- The library's `Packet.Response(code)`: a packet with the request's identifier, secret and
authenticator, and no attribute. -/
def Response (p : Packet) (code : Nat) : Packet :=
  { Code := code, Identifier := p.Identifier, Authenticator := p.Authenticator,
    Secret := p.Secret, Attributes := [] }

/-- The library's `rfc2869.MessageAuthenticator_Lookup`: a copy of the value of the first
attribute 80, or `radius.ErrNoAttribute`. -/
def MessageAuthenticator_Lookup (p : Packet) : Bytes × Option GoError :=
  match AttributesLookup p.Attributes 80 with
  | some a => (a, none)
  | none => ([], some .noAttribute)

/-- The library's `rfc2865.ReplyMessage_AddString`: `radius.NewString` refuses more than 253
bytes, otherwise attribute 18 is appended. -/
def ReplyMessage_AddString (p : Packet) (value : GoString) : Packet × Option GoError :=
  if value.length > 253 then (p, some .stringTooLong)
  else ({ p with Attributes := AttributesAdd p.Attributes 18 value }, none)

/-! ## `github.com/google/gopacket/layers`: EAP -/

/-- The fields of `layers.EAP` the gateway reads; `Contents` is `BaseLayer.Contents`. -/
structure EAP where
  Code : Nat
  Id : Nat
  Length : Nat
  /-- The field `Type` of the library. -/
  EapType : Nat
  TypeData : Bytes
  Contents : Bytes
  deriving DecidableEq, Repr

/-- The value of `new(layers.EAP)`. -/
def EAP.zero : EAP := ⟨0, 0, 0, 0, [], []⟩

/-- The library's `EAP.DecodeFromBytes(data, df)` as the gateway calls it, with `df` the nil
interface value of `var df gopacket.DecodeFeedback`: on data shorter than four
bytes or shorter than its length field the decoder calls `df.SetTruncated()`,
which is a nil dereference. -/
def EAPDecodeFromBytes (data : Bytes) : Run (EAP × Option GoError) :=
  if data.length < 4 then .panic "nil pointer dereference"
  else
    let code := data.getD 0 0
    let id := data.getD 1 0
    let length := data.getD 2 0 * 256 + data.getD 3 0
    if data.length < length then .panic "nil pointer dereference"
    else if length > 4 then
      .ret (⟨code, id, length, data.getD 4 0, data.drop 5, data.take length⟩, none)
    else if length = 4 then
      .ret (⟨code, id, length, 0, [], data.take length⟩, none)
    else
      .ret (⟨code, id, length, 0, [], []⟩, some (.eapDecode "invalid EAP length"))

/-! ## Configuration and environment -/

/-- The package-level variables `init` sets from the configuration file. -/
structure Config where
  sharedSecret : GoString
  radiusAttributesLogOutputFlag : Bool
  allowedClientAddr : GoString
  n12AUSFaddress : GoString
  overwriteLinkString : Bool

/-- The decoded `eapSuccessJson`. -/
structure eapSuccessJson where
  EapPayload : GoString
  KSeaf : GoString
  deriving DecidableEq, Repr

/-- The decoded `eapFailureJson`. -/
structure eapFailureJson where
  EapPayload : GoString
  AuthResult : GoString
  deriving DecidableEq, Repr

/-- The decoded `n12EapExchange`; `Href` is `Links.Href`. -/
structure n12EapExchange where
  EapPayload : GoString
  Href : GoString
  deriving DecidableEq, Repr

/-- The decoded `authRespFirst`; `Href` is `Links.EapSession.Href`. -/
structure authRespFirst where
  AuthType : GoString
  FiveGAuthData : GoString
  Href : GoString
  ServingNetworkName : GoString
  deriving DecidableEq, Repr

/-- One HTTP POST on N12. -/
structure N12Request where
  url : GoString
  body : GoString
  deriving DecidableEq, Repr

/-- What `client.Do` and `io.ReadAll` give for one POST. -/
inductive HttpResult where
  /-- The library's `client.Do` failed (transport error, 5 s timeout). -/
  | sendErr (e : GoError)
  /-- The response arrived, reading its body failed. -/
  | readErr (e : GoError)
  /-- Status code and body. -/
  | response (status : Nat) (body : GoString)
  deriving DecidableEq, Repr

/-- Everything the gateway code takes from outside itself: library functions
whose code is not part of the repository, and what the outside world answers
while one request is handled. -/
structure Env where
  /-- The library's `hmac.New(md5.New, key)`, `Write(message)`, `Sum(nil)`. -/
  hmacMD5 : Bytes → Bytes → Bytes
  /-- The library's `json.Decoder.Decode` into `eapSuccessJson`. -/
  jsonEapSuccess : GoString → Except GoError eapSuccessJson
  /-- The library's `json.Decoder.Decode` into `eapFailureJson`. -/
  jsonEapFailure : GoString → Except GoError eapFailureJson
  /-- The library's `json.Decoder.Decode` into `n12EapExchange`. -/
  jsonEapExchange : GoString → Except GoError n12EapExchange
  /-- The library's `json.Decoder.Decode` into `authRespFirst`. -/
  jsonAuthRespFirst : GoString → Except GoError authRespFirst
  /-- The library's `json.Marshal` of `authenticationInfo` (supiOrSuci, servingNetworkName);
  it cannot fail on a struct of two strings. -/
  jsonAuthenticationInfo : GoString → GoString → GoString
  /-- The error of `http.NewRequestWithContext` for a URL, if any. -/
  newRequestErr : GoString → Option GoError
  /-- The AUSF side of a POST. -/
  ausf : N12Request → HttpResult
  /-- The value `microsoft.MSMPPESendKey_Set` (vendor type 16) or
  `MSMPPERecvKey_Set` (vendor type 17) appends as a Vendor-Specific attribute,
  for a key, secret and request authenticator (it draws a random salt), or its
  error. -/
  mppeKey : Nat → Bytes → Bytes → Bytes → Except GoError Bytes
  /-- The successive results of `rand.New(rand.NewSource(seed)).Intn(255)`. -/
  randIntn : Nat → Nat
  /-- The order in which Go ranges over the map of Proxy-State values, which the
  language leaves unspecified: a code of the permutation, see `mapRange`. -/
  mapSeed : Nat
  /-- The error of `w.Write` for an encodable packet, if any. -/
  writeErr : Packet → Option GoError
  /-- The capacity beyond its length of the slice a conversion `[]byte(s)` makes,
  which the language leaves to the implementation: for the conversion number
  (0 is the first of the handler) and the length of `s`. The spare bytes are zero. -/
  byteSliceSpare : Nat → Nat → Nat

/-- The steps of `mapRange`: `n` entries are still to come. -/
def mapRangeAux {α : Type} : Nat → Nat → List α → List α
  | 0, _, _ => []
  | n + 1, seed, m =>
    match m with
    | [] => []
    | x :: _ =>
      let i := seed % m.length
      m.getD i x :: mapRangeAux n (seed / m.length) (m.eraseIdx i)

/-- The order of a Go `range` over a map with the entries `m`: Go leaves it
unspecified, and here `seed` picks it. At each step entry number `seed % len` of
what is left comes next, and the choice continues with `seed / len`. Every seed
gives a permutation of the entries, and seed 0 gives the order of `m`. -/
def mapRange {α : Type} (seed : Nat) (m : List α) : List α := mapRangeAux m.length seed m

/-- Go `fmt` of an unsigned integer with the verb `%v`: its decimal digits. -/
def decimal (n : Nat) : GoString := ascii (toString n)

/-- Go `string(b)` for a `byte` b: the UTF-8 encoding of the code point b, which
is the byte itself below 0x80 and two bytes from 0x80 on. -/
def stringOfByte (b : Byte) : GoString :=
  if b < 128 then [b] else [192 + b / 64, 128 + b % 64]

/-! ## `eapIdManagement.go` -/

/-- The contents of the package-level `eapIdTable` (a `sync.Map`): the bindings
from EAP-Id to URI, at most the first binding of a key counts. -/
abbrev Table := List (Nat × GoString)

/-- A Go value of type `any` passed to `eapIdTableStore`. -/
inductive GoAny where
  | str (s : GoString)
  | other
  deriving DecidableEq, Repr

/-- The library's `sync.Map.Load`. -/
def Table.Load (t : Table) (key : Nat) : Option GoString :=
  (t.find? (fun kv => kv.1 == key)).map (fun kv => kv.2)

/-- The library's `sync.Map.LoadAndDelete` (the map after it). -/
def Table.Delete (t : Table) (key : Nat) : Table :=
  t.filter (fun kv => kv.1 != key)

/-- The library's `sync.Map.Store`. -/
def Table.Store (t : Table) (key : Nat) (value : GoString) : Table :=
  (key, value) :: t.Delete key

/-- The gateway's function `eapIdTableLoad`. -/
def eapIdTableLoad (t : Table) (eapid : Nat) : GoString × Bool :=
  match t.Load eapid with
  | some value => (value, true)
  | none => ([], false)

/-- The gateway's function `eapIdTableStore`: the table after the call and the
returned error. -/
def eapIdTableStore (cfg : Config) (t : Table) (eapid : Nat) (uristr : GoAny) :
    Table × Option GoError :=
  match uristr with
  | .str typeAssertion =>
    let linkStringResult :=
      if cfg.overwriteLinkString then
        let afterStr := (CutPrefix typeAssertion (ascii "http://")).1
        let afterStrSecond := (Cut afterStr (ascii "/")).2.1
        ascii "http://" ++ cfg.n12AUSFaddress ++ ascii "/" ++ afterStrSecond
      else typeAssertion
    (t.Store eapid linkStringResult, none)
  | .other => (t, some (.msg "invalid argument 2 / unknown type\n"))

/-- The gateway's function `eapIdTableDelete`. -/
def eapIdTableDelete (t : Table) (eapid : Nat) : Table := t.Delete eapid

/-! ## `n12client.go` -/

/-- The gateway's function `authReqFirst`: status code, body and error, and the
POSTs handed to `client.Do`. -/
def authReqFirst (env : Env) (cfg : Config) (imsi nwName : GoString) :
    (Nat × GoString × Option GoError) × List N12Request :=
  let n12apiFirstReqUrl :=
    ascii "http://" ++ cfg.n12AUSFaddress ++ ascii "/nausf-auth/v1/ue-authentications"
  let marshalizedAuthenticationInfo := env.jsonAuthenticationInfo imsi nwName
  match env.newRequestErr n12apiFirstReqUrl with
  | some firstRequestGenerateErr => ((0, [], some firstRequestGenerateErr), [])
  | none =>
    let firstReq : N12Request := ⟨n12apiFirstReqUrl, marshalizedAuthenticationInfo⟩
    match env.ausf firstReq with
    | .sendErr sendRequestErr => ((0, [], some sendRequestErr), [firstReq])
    | .readErr readingBodyErr => ((0, [], some readingBodyErr), [firstReq])
    | .response respStCode respBodyStrings => ((respStCode, respBodyStrings, none), [firstReq])

/-- The gateway's function `authReqExchange`: status code, body and error, and the
POSTs handed to `client.Do`. -/
def authReqExchange (env : Env) (t : Table) (eapContents : Bytes) :
    Run ((Nat × GoString × Option GoError) × List N12Request) := do
  let eapId ← index eapContents 1
  let reqExchangeBodyString :=
    ascii "\x7b\"eapPayload\":\"" ++ encodeEapPayload eapContents ++ ascii "\"\x7d"
  let (n12apiExchangeUrl, idExistCheck) := eapIdTableLoad t eapId
  let processFailFlag := !idExistCheck
  let authReqExchangeErr : Option GoError :=
    if !idExistCheck then some (.msg "eap id not found") else none
  match env.newRequestErr n12apiExchangeUrl with
  | some reqExchangeErr => return ((0, [], some reqExchangeErr), [])
  | none =>
    if !processFailFlag then
      let reqExchange : N12Request := ⟨n12apiExchangeUrl, reqExchangeBodyString⟩
      match env.ausf reqExchange with
      | .sendErr sendRequestErr => return ((0, [], some sendRequestErr), [reqExchange])
      | .readErr readingBodyErr => return ((0, [], some readingBodyErr), [reqExchange])
      | .response respStCode respBodyStrings =>
        return ((respStCode, respBodyStrings, authReqExchangeErr), [reqExchange])
    else return ((0, [], authReqExchangeErr), [])

/-- The three status-200 branches of `authRespBodyDecode` after the JSON decoding:
`base64AndHexDecode` of the `eapPayload` field, and the branch's result string. -/
def decodeExchangeFields (eapPayloadField resultField : GoString) :
    Run (Bytes × Byte × GoString × Option GoError) := do
  let (bhDecodedData, pickedEapId, bhDecodingErr) ← base64AndHexDecode eapPayloadField
  match bhDecodingErr with
  | some e => return ([], 0, [], some e)
  | none => return (bhDecodedData, pickedEapId, resultField, none)

/-- The gateway's function `authRespBodyDecode`, returning
`(eapPayload, eapId, resultStr, authRespDecodeErr)`. -/
def authRespBodyDecode (env : Env) (stCode : Nat) (respBodyStr : GoString) :
    Run (Bytes × Byte × GoString × Option GoError) :=
  if stCode = 200 then
    if Contains respBodyStr (ascii "kSeaf") then
      match env.jsonEapSuccess respBodyStr with
      | .error jsonDecodeErr => .ret ([], 0, [], some jsonDecodeErr)
      | .ok decodedArg => decodeExchangeFields decodedArg.EapPayload decodedArg.KSeaf
    else if Contains respBodyStr (ascii "authResult") then
      match env.jsonEapFailure respBodyStr with
      | .error jsonDecodeErr => .ret ([], 0, [], some jsonDecodeErr)
      | .ok decodedArg => decodeExchangeFields decodedArg.EapPayload decodedArg.AuthResult
    else if Contains respBodyStr (ascii "_links") then
      match env.jsonEapExchange respBodyStr with
      | .error jsonDecodeErr => .ret ([], 0, [], some jsonDecodeErr)
      | .ok decodedArg => decodeExchangeFields decodedArg.EapPayload decodedArg.Href
    else .ret ([], 0, [], some (.msg "unknown response body"))
  else if stCode = 201 then
    match env.jsonAuthRespFirst respBodyStr with
    | .error jsonDecodeErr => .ret ([], 0, [], some jsonDecodeErr)
    | .ok decodedArg =>
      match base64DecodeBuffer decodedArg.FiveGAuthData with
      | .error sixFourDecodeErr => .ret ([], 0, [], some sixFourDecodeErr)
      | .ok sixFourDecodedFiveGAuthData => do
        let eapId ← index sixFourDecodedFiveGAuthData 1
        return (sixFourDecodedFiveGAuthData, eapId, decodedArg.Href, none)
  else .ret ([], 0, respBodyStr, none)

/-! ## `rad5gcGW.go`: helper functions -/

/-- The handler's processing flags `processingStatus`. -/
structure processingStatus where
  discardFlag : Bool
  errReason : GoString
  errString : Option GoError
  deriving DecidableEq, Repr

/-- The zero value of `processingStatus`. -/
def processingStatus.zero : processingStatus := ⟨false, [], none⟩

/-- The identity split `eapIdentiySet`. -/
structure eapIdentiySet where
  identityPrefix : GoString
  imsi : GoString
  networkName : GoString
  deriving DecidableEq, Repr

/-- A `radius.Request`: `RemoteAddr` is the text `r.RemoteAddr.String()` gives. -/
structure Request where
  RemoteAddr : GoString
  Packet : Packet
  deriving DecidableEq, Repr

/-- The sixteen zero bytes `msgAuthOverwriteZero`. -/
def msgAuthOverwriteZero : Bytes := List.replicate 16 0

/-- The loop of `multiAttrGet`: `num` is the next key, `attrSet` the map so far
(its entries in the order they were stored). -/
def multiAttrGetLoop (t : Nat) : List AVP → Nat → List (Nat × Bytes) → List (Nat × Bytes)
  | [], _, attrSet => attrSet
  | avp :: rest, num, attrSet =>
    if avp.AttrType = t then multiAttrGetLoop t rest (num + 1) (attrSet ++ [(num, avp.Attribute)])
    else multiAttrGetLoop t rest num attrSet

/-- The gateway's function `multiAttrGet`: the map from 0, 1, ... to the values of
the attributes of type `t`, and whether it has an entry. -/
def multiAttrGet (rp : Packet) (t : Nat) : List (Nat × Bytes) × Bool :=
  let attrSet := multiAttrGetLoop t rp.Attributes 0 []
  (attrSet, decide (attrSet.length > 0))

/-- The gateway's function `messageAuthenticatorCalc`: `(expectedMAC, result, ps)`
and the packet `rp` points to after the call (`chPkt` is the same pointer, so
`Set` changes `rp`). -/
def messageAuthenticatorCalc (env : Env) (rp : Packet) (sharedSecret : Bytes) :
    (Bytes × Bool × processingStatus) × Packet :=
  let (messageAuthenticator, msgAuthNotFoundErr) := MessageAuthenticator_Lookup rp
  let resultErrStrings0 : Option GoError :=
    if msgAuthNotFoundErr ≠ none then msgAuthNotFoundErr else none
  let chPkt : Packet := { rp with Attributes := AttributesSet rp.Attributes 80 msgAuthOverwriteZero }
  let (chBytes, chBytesErr) : Bytes × Option GoError :=
    match MarshalBinary chPkt with
    | .ok b => (b, none)
    | .error e => ([], some e)
  let resultErrStrings : Option GoError :=
    if chBytesErr ≠ none then chBytesErr else resultErrStrings0
  let expectedMAC := env.hmacMD5 sharedSecret chBytes
  let result := decide (expectedMAC = messageAuthenticator)
  let ps : processingStatus :=
    if resultErrStrings = msgAuthNotFoundErr then
      ⟨true, ascii "AVP Message-Authenticator not found.", msgAuthNotFoundErr⟩
    else if resultErrStrings = chBytesErr then
      ⟨true, ascii "Packet marshaling error.", chBytesErr⟩
    else if !result then
      ⟨true, ascii "Message-Authenticator not matched.",
        some (.msg "invalid message authenticator")⟩
    else processingStatus.zero
  ((expectedMAC, result, ps), chPkt)

/-- The gateway's function `isEAPMessageIncluded`: `(ps, eapPacketSource,
ps.errString)` and the request packet after the call. `Lookup` gives nil for an
attribute 79 that is absent or has an empty value (a parsed attribute without
value bytes keeps a nil value). -/
def isEAPMessageIncluded (env : Env) (cfg : Config) (r : Request) :
    Run ((processingStatus × EAP × Option GoError) × Packet) :=
  let returnAttr79 := (AttributesLookup r.Packet.Attributes 79).getD []
  if returnAttr79 ≠ [] then
    let ((_, msgAuthCheckResult, msgAuthCheckPs), pkt) :=
      messageAuthenticatorCalc env r.Packet cfg.sharedSecret
    if msgAuthCheckResult then do
      let (eapPacketSource, err) ← EAPDecodeFromBytes returnAttr79
      match err with
      | some e =>
        return ((⟨true, ascii "EAP Packet decoding failure", some e⟩, eapPacketSource, some e), pkt)
      | none => return ((⟨false, [], none⟩, eapPacketSource, none), pkt)
    else
      .ret ((⟨msgAuthCheckPs.discardFlag, msgAuthCheckPs.errReason, msgAuthCheckPs.errString⟩,
        EAP.zero, msgAuthCheckPs.errString), pkt)
  else
    let e : GoError := .msg "no EAP-Message <nil>"
    .ret ((⟨true, ascii "EAP-Message not found.", some e⟩, EAP.zero, some e), r.Packet)

/-- The gateway's function `eapIdentityByteToString`. -/
def eapIdentityByteToString (p : EAP) : eapIdentiySet :=
  if p.TypeData.length = 51 then
    { identityPrefix := stringOfByte (p.TypeData.getD 0 0)
      imsi := (p.TypeData.take 16).drop 1
      networkName := p.TypeData.drop 16 }
  else
    { identityPrefix := p.TypeData, imsi := [], networkName := [] }

/-- The loop of `generateEAPId`: attempt number `k` samples `Intn(255)` and
returns the sample when the table has no binding for it; `spin` when the given
number of attempts is used up. -/
def generateEAPIdLoop (env : Env) (t : Table) : Nat → Nat → Run Byte
  | 0, _ => .spin
  | fuel + 1, k =>
    let zeroToFFInt := env.randIntn k % 255
    if (eapIdTableLoad t zeroToFFInt).2 then generateEAPIdLoop env t fuel (k + 1)
    else .ret zeroToFFInt

/-- The gateway's function `generateEAPId`, run for at most `fuel` attempts. -/
def generateEAPId (env : Env) (t : Table) (fuel : Nat) : Run Byte :=
  generateEAPIdLoop env t fuel 0

/-- The gateway's function `toNWNameForN12`: `(modifiedStr, nwNameErr)`. -/
def toNWNameForN12 (str : GoString) : GoString × Option GoError :=
  if HasPrefix str (ascii "@wlan.") && HasSuffix str (ascii ".3gppnetwork.org") then
    let cutStr := (CutPrefix str (ascii "@wlan.")).1
    (ascii "5G:" ++ cutStr, none)
  else ([], some (.msg "invalid network name"))

/-! ## `rad5gcGW.go`: the request handler -/

/-- The Go expression `[]byte(s)[lo:hi]`: a slice expression on a slice is in
range up to the capacity, and reads the zero bytes beyond the length. -/
def sliceOfConversion (env : Env) (conv : Nat) (s : GoString) (lo hi : Nat) : Run Bytes :=
  let spare := env.byteSliceSpare conv s.length
  if lo ≤ hi ∧ hi ≤ s.length + spare then
    .ret (((s ++ List.replicate spare 0).take hi).drop lo)
  else .panic "slice bounds out of range"

/-- The local variables of the handler closure, the package-level table, and the
POSTs the handler made. -/
structure HandlerState where
  responsePacket : Option Packet
  eapSessionInfoId : Nat
  eapSessionInfoURI : GoString
  eapPacket : EAP
  reqReceivedStatus : processingStatus
  attr33 : List (Nat × Bytes)
  attr33Exist : Bool
  /-- The packet `r.Packet` points to. -/
  packet : Packet
  /-- The contents of `eapIdTable`. -/
  table : Table
  /-- The POSTs handed to `client.Do`, in order. -/
  n12 : List N12Request
  deriving DecidableEq, Repr

/-- The state when the handler returns, and what it wrote to the RADIUS client. -/
structure HandlerResult extends HandlerState where
  /-- The packet `w.Write` was called with, if it was called. -/
  written : Option Packet
  /-- Whether `w.Write` was called and returned no error. -/
  sent : Bool
  deriving DecidableEq, Repr

/-- The state at the start of the handler. -/
def HandlerState.init (t : Table) (r : Request) : HandlerState :=
  { responsePacket := none, eapSessionInfoId := 0, eapSessionInfoURI := [],
    eapPacket := EAP.zero, reqReceivedStatus := ⟨false, [], none⟩,
    attr33 := [], attr33Exist := false, packet := r.Packet, table := t,
    n12 := [] }

/-- The three assignments that set `discardFlag`, `errReason` and `errString`. -/
def HandlerState.discard (h : HandlerState) (reason : String) (err : Option GoError) :
    HandlerState :=
  { h with reqReceivedStatus := ⟨true, ascii reason, err⟩ }

/-- Lines 91-97: the source address check. -/
def sourceCheck (cfg : Config) (r : Request) (h : HandlerState) : HandlerState :=
  if !h.reqReceivedStatus.discardFlag then
    let checkAddr := (Cut r.RemoteAddr (ascii ":")).1
    if checkAddr ≠ cfg.allowedClientAddr then
      { h with reqReceivedStatus :=
          { h.reqReceivedStatus with
            discardFlag := true
            errReason := ascii "[RADIUS] Client IP Address not Allowed : " ++ checkAddr } }
    else h
  else h

/-- Lines 100-106: the Proxy-State values are put aside. -/
def proxyStateCapture (h : HandlerState) : HandlerState :=
  if !h.reqReceivedStatus.discardFlag then
    let (attrSet, attrExist) := multiAttrGet h.packet 33
    { h with attr33 := attrSet, attr33Exist := attrExist }
  else h

/-- Lines 110-119: EAP-Message lookup, Message-Authenticator check, EAP decoding. -/
def eapExtract (env : Env) (cfg : Config) (r : Request) (h : HandlerState) : Run HandlerState :=
  if !h.reqReceivedStatus.discardFlag then do
    let ((psCheck, pkt, includedErr), packet) ←
      isEAPMessageIncluded env cfg { r with Packet := h.packet }
    match includedErr with
    | some _ => return { h with reqReceivedStatus := psCheck, packet := packet }
    | none => return { h with reqReceivedStatus := psCheck, eapPacket := pkt, packet := packet }
  else .ret h

/-- A reply of the given code that carries `payload` as EAP-Message (attribute 79):
`r.Response(code)` followed by `Attributes.Add(79, payload)`. -/
def eapReply (h : HandlerState) (code : Nat) (payload : Bytes) : Packet :=
  let p := Response h.packet code
  { p with Attributes := AttributesAdd p.Attributes 79 payload }

/-- Lines 126-172: EAP-Identity with the prefix "6". -/
def identityPermanent (env : Env) (cfg : Config) (idPrefixCheckSet : eapIdentiySet)
    (h : HandlerState) : Run HandlerState :=
  let (nwName, nwNameErr) := toNWNameForN12 idPrefixCheckSet.networkName
  match nwNameErr with
  | some e => .ret (h.discard "Failed to assemble Network name for N12." (some e))
  | none =>
    let supi := ascii "imsi-" ++ idPrefixCheckSet.imsi
    let ((authRespFirstStCode, authRespFirstBodyStr, authReqFirstErr), calls) :=
      authReqFirst env cfg supi nwName
    let h := { h with n12 := h.n12 ++ calls }
    match authReqFirstErr with
    | some e => .ret (h.discard "Failed to send N12 AuthenticationRequest." (some e))
    | none => do
      let (authRespFirstEapPayload, authRespFirstEapId, linkStr, respBodyDecodeErr) ←
        authRespBodyDecode env authRespFirstStCode authRespFirstBodyStr
      match respBodyDecodeErr with
      | some e =>
        return h.discard "Failed to decode response body(N12 AuthenticationResponse)" (some e)
      | none =>
        if authRespFirstStCode = 201 then
          return { h with
            responsePacket := some (eapReply h CodeAccessChallenge authRespFirstEapPayload)
            eapSessionInfoId := authRespFirstEapId
            eapSessionInfoURI := linkStr }
        else if authRespFirstStCode ∈ [400, 403, 404, 500, 501, 503] then
          return { h with responsePacket := some (Response h.packet CodeAccessReject) }
        else
          return { h with responsePacket := some (Response h.packet CodeAccessReject) }

/-- Lines 123-197: EAP Type 1 (Identity). -/
def dispatchIdentity (env : Env) (cfg : Config) (fuel : Nat) (h : HandlerState) :
    Run HandlerState :=
  let idPrefixCheckSet := eapIdentityByteToString h.eapPacket
  if idPrefixCheckSet.identityPrefix = ascii "6" then
    identityPermanent env cfg idPrefixCheckSet h
  else if idPrefixCheckSet.identityPrefix = ascii "7"
      ∨ idPrefixCheckSet.identityPrefix = ascii "8" then do
    let eapSessionId ← generateEAPId env h.table fuel
    let attributeAKAidentityReq : Bytes :=
      [0x01, eapSessionId, 0x00, 0x0c, 0x32, 0x05, 0x00, 0x00, 0x11, 0x01, 0x00, 0x00]
    return { h with
      responsePacket := some (eapReply h CodeAccessChallenge attributeAKAidentityReq) }
  else
    let rejectResponseUnknownId := Response h.packet CodeAccessReject
    let rejectResponseNotIdentifiedReplyString :=
      ascii "Unknown identity : " ++ idPrefixCheckSet.identityPrefix
    match ReplyMessage_AddString rejectResponseUnknownId rejectResponseNotIdentifiedReplyString with
    | (_, some err) => .ret (h.discard "Failed to add Reply-Message." (some err))
    | (p, none) => .ret { h with responsePacket := some p }

/-- The library's `microsoft.MSMPPESendKey_Set` (vendor type 16) and `MSMPPERecvKey_Set` (17) on
the reply under construction: on success one Vendor-Specific attribute (26) is
appended, on error the packet is unchanged. The reply holds no earlier
sub-attribute of the same vendor type, so the removal pass of the library's
`_Microsoft_SetVendor` leaves it as it is. -/
def MSMPPEKey_Set (env : Env) (vendorType : Nat) (p : Packet) (value : Bytes) :
    Packet × Option GoError :=
  match env.mppeKey vendorType value p.Secret p.Authenticator with
  | .error e => (p, some e)
  | .ok a => ({ p with Attributes := AttributesAdd p.Attributes 26 a }, none)

/-- Lines 202-262: AKA' subtype 1 (AKA-Challenge). -/
def akaChallenge (env : Env) (h : HandlerState) : Run HandlerState := do
  let ((authRespExchStCode, authRespExchBodyStr, authRespExchErr), calls) ←
    authReqExchange env h.table h.eapPacket.Contents
  let h := { h with n12 := h.n12 ++ calls }
  match authRespExchErr with
  | some e =>
    let h := { h with table := eapIdTableDelete h.table h.eapPacket.Id }
    return h.discard "N12 Authentication Response failure." (some e)
  | none =>
    let h := { h with table := eapIdTableDelete h.table h.eapPacket.Id }
    let (exchEapPayload, exchEapId, exchResultStr, exchErr) ←
      authRespBodyDecode env authRespExchStCode authRespExchBodyStr
    match exchErr with
    | some e => return h.discard "N12 Authentication Response body decoding failure." (some e)
    | none =>
      let compareEapMsg ← index exchEapPayload 0
      if compareEapMsg = 1 then
        return { h with
          responsePacket := some (eapReply h CodeAccessChallenge exchEapPayload)
          eapSessionInfoId := exchEapId
          eapSessionInfoURI := exchResultStr }
      else if compareEapMsg = 3 then
        let accessAcceptEAPSuccess := eapReply h CodeAccessAccept exchEapPayload
        let msMPPEsendKeySrc ← sliceOfConversion env 0 exchResultStr 0 32
        let msMPPErecvKeySrc ← sliceOfConversion env 1 exchResultStr 32 64
        let accessAcceptEAPSuccess :=
          (MSMPPEKey_Set env 16 accessAcceptEAPSuccess msMPPEsendKeySrc).1
        let accessAcceptEAPSuccess :=
          (MSMPPEKey_Set env 17 accessAcceptEAPSuccess msMPPErecvKeySrc).1
        return { h with responsePacket := some accessAcceptEAPSuccess }
      else if compareEapMsg = 4 then
        return { h with responsePacket := some (eapReply h CodeAccessReject exchEapPayload) }
      else
        return h.discard "invalid EAP-Message from AUSF" (some (.msg "invalid eap-message from ausf"))

/-- Lines 263-286: AKA' subtype 2 (AKA-Authentication-Reject). -/
def akaAuthenticationReject (env : Env) (h : HandlerState) : Run HandlerState := do
  let ((authRespExchStCode, authRespExchBodyStr, authRespExchErr), calls) ←
    authReqExchange env h.table h.eapPacket.Contents
  let h := { h with n12 := h.n12 ++ calls }
  match authRespExchErr with
  | some e =>
    let h := { h with table := eapIdTableDelete h.table h.eapPacket.Id }
    return h.discard "N12 Authentication Response failure." (some e)
  | none =>
    let h := { h with table := eapIdTableDelete h.table h.eapPacket.Id }
    let (exchEapPayload, _, _, exchErr) ←
      authRespBodyDecode env authRespExchStCode authRespExchBodyStr
    match exchErr with
    | some e => return h.discard "N12 Authentication Response body decoding failure." (some e)
    | none =>
      return { h with responsePacket := some (eapReply h CodeAccessReject exchEapPayload) }

/-- Lines 287-327: AKA' subtype 4 (AKA-Synchronization-Failure). -/
def akaSynchronizationFailure (env : Env) (h : HandlerState) : Run HandlerState := do
  let ((authRespExchStCode, authRespExchBodyStr, authRespExchErr), calls) ←
    authReqExchange env h.table h.eapPacket.Contents
  let h := { h with n12 := h.n12 ++ calls }
  match authRespExchErr with
  | some e =>
    let h := { h with table := eapIdTableDelete h.table h.eapPacket.Id }
    return h.discard "N12 Authentication Response failure." (some e)
  | none =>
    let h := { h with table := eapIdTableDelete h.table h.eapPacket.Id }
    let (exchEapPayload, exchEapId, exchResultStr, exchErr) ←
      authRespBodyDecode env authRespExchStCode authRespExchBodyStr
    match exchErr with
    | some e => return h.discard "N12 Authentication Response body decoding failure." (some e)
    | none =>
      let compareEapMsg ← index exchEapPayload 0
      if compareEapMsg = 1 then
        return { h with
          responsePacket := some (eapReply h CodeAccessChallenge exchEapPayload)
          eapSessionInfoId := exchEapId
          eapSessionInfoURI := exchResultStr }
      else if compareEapMsg = 4 then
        return { h with responsePacket := some (eapReply h CodeAccessReject exchEapPayload) }
      else
        return h.discard "invalid EAP-Message from AUSF" (some (.msg "invalid eap-message from ausf"))

/-- Lines 328-363: AKA' subtype 5 (AKA-Identity). The slice `TypeData[8:23]` is in
range up to the capacity of `TypeData`, but `TypeData[23:]` right after it is in
range only up to the length, so the three reads together panic exactly when
`TypeData` has fewer than 23 bytes. -/
def akaIdentity (env : Env) (cfg : Config) (h : HandlerState) : Run HandlerState := do
  let prefixByte ← index h.eapPacket.TypeData 7
  let imsi ← slice h.eapPacket.TypeData 8 23
  let networkName ← sliceFrom h.eapPacket.TypeData 23
  let eapRespAKAidentitySet : eapIdentiySet :=
    { identityPrefix := stringOfByte prefixByte, imsi := imsi, networkName := networkName }
  let (nwName, nwNameErr) := toNWNameForN12 eapRespAKAidentitySet.networkName
  match nwNameErr with
  | some e => return h.discard "Failed to assemble Network name for N12." (some e)
  | none =>
    let ((authRespFirstStCode, authRespFirstBodyStr, authReqFirstErr), calls) :=
      authReqFirst env cfg eapRespAKAidentitySet.imsi nwName
    let h := { h with n12 := h.n12 ++ calls }
    match authReqFirstErr with
    | some _ => return h.discard "Failed to send N12 AuthenticationRequest." nwNameErr
    | none =>
      let (authRespFirstEapPayload, authRespFirstEapId, linkStr, respBodyDecodeErr) ←
        authRespBodyDecode env authRespFirstStCode authRespFirstBodyStr
      match respBodyDecodeErr with
      | some e =>
        return h.discard "Failed to decode response body(N12 AuthenticationResponse)" (some e)
      | none =>
        return { h with
          responsePacket := some (eapReply h CodeAccessChallenge authRespFirstEapPayload)
          eapSessionInfoId := authRespFirstEapId
          eapSessionInfoURI := linkStr }

/-- Lines 198-380: EAP Type 50 (AKA'), by the subtype `TypeData[0]`. -/
def dispatchAka (env : Env) (cfg : Config) (h : HandlerState) : Run HandlerState := do
  let compareEapSubType ← index h.eapPacket.TypeData 0
  if compareEapSubType = 1 then akaChallenge env h
  else if compareEapSubType = 2 then akaAuthenticationReject env h
  else if compareEapSubType = 4 then akaSynchronizationFailure env h
  else if compareEapSubType = 5 then akaIdentity env cfg h
  else
    let rejectResponseEapTypeUnsupEAPsub := Response h.packet CodeAccessReject
    let rejectResponseEapSubTypeUnsupReplyString :=
      ascii "EAP AttributeType (0x" ++ decimal compareEapSubType ++ ascii ") is not supported."
    match ReplyMessage_AddString rejectResponseEapTypeUnsupEAPsub
        rejectResponseEapSubTypeUnsupReplyString with
    | (_, some err) =>
      let h := h.discard "Failed to add Reply-Message." (some err)
      return { h with table := eapIdTableDelete h.table h.eapPacket.Id }
    | (p, none) =>
      return { h with
        responsePacket := some p
        table := eapIdTableDelete h.table h.eapPacket.Id }

/-- Lines 122-395: the dispatch on the EAP Type. -/
def dispatch (env : Env) (cfg : Config) (fuel : Nat) (h : HandlerState) : Run HandlerState :=
  if !h.reqReceivedStatus.discardFlag then
    if h.eapPacket.EapType = 1 then dispatchIdentity env cfg fuel h
    else if h.eapPacket.EapType = 50 then dispatchAka env cfg h
    else
      let rejectResponseEapTypeUnsupEAP := Response h.packet CodeAccessReject
      let rejectResponseEapTypeUnsupReplyString :=
        ascii "EAP SubType (" ++ decimal h.eapPacket.EapType ++ ascii ") is not supported."
      match ReplyMessage_AddString rejectResponseEapTypeUnsupEAP
          rejectResponseEapTypeUnsupReplyString with
      | (_, some err) => .ret (h.discard "Failed to add Reply-Message." (some err))
      | (p, none) => .ret { h with responsePacket := some p }
  else .ret h

/-- Lines 399-404: every Proxy-State value put aside is appended to the reply in
the order of the `range` over the map, then a Message-Authenticator of sixteen
zero bytes. -/
def appendProxyStateAndZeroMAC (env : Env) (h : HandlerState) (responsePacket : Packet) :
    Packet :=
  let withProxyState : List AVP :=
    if h.attr33Exist then
      (mapRange env.mapSeed h.attr33).foldl (fun a kv => AttributesAdd a 33 kv.2)
        responsePacket.Attributes
    else responsePacket.Attributes
  { responsePacket with Attributes := AttributesAdd withProxyState 80 msgAuthOverwriteZero }

/-- Lines 398-411: the Proxy-State values and the Message-Authenticator are put
on the reply, when there is one. -/
def finalizeReply (env : Env) (cfg : Config) (h : HandlerState) : HandlerState :=
  match h.responsePacket with
  | none => h
  | some responsePacket =>
    let responsePacket := appendProxyStateAndZeroMAC env h responsePacket
    let ((calculatedMAC, _, psCalcMAC), responsePacket) :=
      messageAuthenticatorCalc env responsePacket cfg.sharedSecret
    if psCalcMAC.errString ≠ none then
      { h with reqReceivedStatus := psCalcMAC, responsePacket := some responsePacket }
    else
      let signed : Packet :=
        { responsePacket with
          Attributes := AttributesSet responsePacket.Attributes 80 calculatedMAC }
      { h with responsePacket := some signed }

/-- Lines 413-427: the reply is written, and after a write without error the
binding `(eapSessionInfoId, eapSessionInfoURI)` is stored when the URI is not
empty. `w.Write(nil)` dereferences the nil packet. -/
def writeAndCommit (env : Env) (cfg : Config) (h : HandlerState) : Run HandlerResult :=
  if !h.reqReceivedStatus.discardFlag then
    match h.responsePacket with
    | none => .panic "nil pointer dereference"
    | some responsePacket =>
      match env.writeErr responsePacket with
      | some _ => .ret { h with written := some responsePacket, sent := false }
      | none =>
        if h.eapSessionInfoURI ≠ [] then
          let (table, _) := eapIdTableStore cfg h.table h.eapSessionInfoId (.str h.eapSessionInfoURI)
          .ret { h with table := table, written := some responsePacket, sent := true }
        else .ret { h with written := some responsePacket, sent := true }
  else .ret { h with written := none, sent := false }

/-- The handler closure of `main`, for one request `r` arriving when the session
table holds `t`; `fuel` bounds the attempts of `generateEAPId`. -/
def handler (env : Env) (cfg : Config) (fuel : Nat) (t : Table) (r : Request) :
    Run HandlerResult := do
  let h := HandlerState.init t r
  let h := sourceCheck cfg r h
  let h := proxyStateCapture h
  let h ← eapExtract env cfg r h
  let h ← dispatch env cfg fuel h
  let h := finalizeReply env cfg h
  writeAndCommit env cfg h

/-! ## `configGetFromYaml.go` -/

/-- The struct `rad5gcConfig` the configuration file is decoded into. -/
structure rad5gcConfig where
  ConfFilename : GoString
  ConfMaxSize : Int
  ConfMaxBackups : Int
  ConfMaxAge : Int
  ConfLocalTime : Bool
  ConfCompress : Bool
  ConfSharedSecret : GoString
  ConfAllowedClientAddress : GoString
  ConfAttributesLogging : Bool
  ConfAUSFaddress : GoString
  ConfOverwriteLinkString : Bool
  deriving DecidableEq, Repr

/-- What `getRad5gcConfig` takes from outside the repository. -/
structure ConfigEnv where
  /-- The library's `os.ReadFile("confrad5gcgw.yaml")`: the bytes read and the error. -/
  readFile : Bytes × Option GoError
  /-- The library's `yaml.Unmarshal(rf, &configSet)` on the zero struct: the struct after the
  call and the error. -/
  yamlUnmarshal : Bytes → rad5gcConfig × Option GoError
  /-- Whether the library's `net.ParseIP(s)` is not nil. -/
  ParseIP : GoString → Bool

/-- Go `strconv.Atoi` on a 64-bit platform: an optional sign and decimal digits.
On a syntax error the value is 0, on a range error it is the nearest `int`. -/
def Atoi (s : GoString) : Int × Option GoError :=
  let neg : Bool := s.head? = some 45
  let digits := if s.head? = some 45 ∨ s.head? = some 43 then s.drop 1 else s
  if digits = [] then (0, some (.lib "strconv.Atoi: invalid syntax"))
  else if digits.all (fun c => decide (48 ≤ c ∧ c ≤ 57)) then
    let n : Nat := digits.foldl (fun acc c => acc * 10 + (c - 48)) 0
    if neg then
      if n > 2 ^ 63 then (-(2 ^ 63 : Int), some (.lib "strconv.Atoi: value out of range"))
      else (-(n : Int), none)
    else if n ≥ 2 ^ 63 then ((2 ^ 63 - 1 : Int), some (.lib "strconv.Atoi: value out of range"))
    else ((n : Int), none)
  else (0, some (.lib "strconv.Atoi: invalid syntax"))

/-- The gateway's function `getRad5gcConfig`: `(configSet, getConfigFileErr)`. Each
check that fails assigns `getConfigFileErr`, and nothing resets it. -/
def getRad5gcConfig (cenv : ConfigEnv) : rad5gcConfig × Option GoError :=
  let rf := cenv.readFile.1
  let filereadErr := cenv.readFile.2
  let getConfigFileErr : Option GoError := if filereadErr ≠ none then filereadErr else none
  let configSet := (cenv.yamlUnmarshal rf).1
  let unmarshalErr := (cenv.yamlUnmarshal rf).2
  let getConfigFileErr := if unmarshalErr ≠ none then unmarshalErr else getConfigFileErr
  let getConfigFileErr :=
    if configSet.ConfSharedSecret.length > 258 ∨ configSet.ConfSharedSecret.length < 1 then
      some (GoError.msg "shared secret is too short or long")
    else getConfigFileErr
  let getConfigFileErr :=
    if cenv.ParseIP configSet.ConfAllowedClientAddress = false then
      some (GoError.msg "invalid client Address")
    else getConfigFileErr
  let ausfAddrCheck := (Cut configSet.ConfAUSFaddress (ascii ":")).1
  let ausfPort := (Cut configSet.ConfAUSFaddress (ascii ":")).2.1
  let sepCheck := (Cut configSet.ConfAUSFaddress (ascii ":")).2.2
  let ausfPortCheck := (Atoi ausfPort).1
  let getConfigFileErr :=
    if cenv.ParseIP ausfAddrCheck = false ∨ ausfPortCheck > 65535 ∨ ausfPortCheck < 0
        ∨ sepCheck = false then
      some (GoError.msg "invalid AUSF address or Port number")
    else getConfigFileErr
  (configSet, getConfigFileErr)

/-! ## Notions used by the statements -/

deriving instance DecidableEq for Except

/-- Partial correctness of a run: when it returns, the value satisfies `P`. -/
@[irreducible]
def Run.Sat {α : Type} (P : α → Prop) (x : Run α) : Prop := ∀ a, x = .ret a → P a

/-- The Proxy-State values of a packet, in the order of its attributes. -/
def proxyStateValues (p : Packet) : List Bytes :=
  (p.Attributes.filter (fun avp => avp.AttrType == 33)).map (fun avp => avp.Attribute)

/-- What no step between the Proxy-State capture and the reply finalization
changes: `h'` has the Proxy-State map and the request packet fields of `h`, and a
reply under construction carries no Proxy-State yet. -/
def Kept (h h' : HandlerState) : Prop :=
  h'.attr33 = h.attr33 ∧ h'.attr33Exist = h.attr33Exist ∧
  ∀ p, h'.responsePacket = some p → proxyStateValues p = []

/-- The request `r`, arriving when the table holds `t`, is verified and decoded:
the source check, the lookup of the EAP-Message, the Message-Authenticator check
and the EAP decoding all pass, and `h` is the state of the handler after them
(lines 91-119), its `eapPacket` the decoded EAP-Message. -/
def Verified (env : Env) (cfg : Config) (t : Table) (r : Request) (h : HandlerState) : Prop :=
  eapExtract env cfg r (proxyStateCapture (sourceCheck cfg r (HandlerState.init t r))) = .ret h
    ∧ h.reqReceivedStatus.discardFlag = false

instance (env : Env) (cfg : Config) (t : Table) (r : Request) (h : HandlerState) :
    Decidable (Verified env cfg t r h) := by
  unfold Verified
  infer_instance

/-- The packet `p` with its Message-Authenticator zeroed has a wire form
(`MarshalBinary` returns no error): no attribute value is over 253 bytes and the
packet is at most 4095 bytes long. -/
def Serializes (p : Packet) : Prop :=
  ∃ chBytes,
    MarshalBinary { p with Attributes := AttributesSet p.Attributes 80 msgAuthOverwriteZero }
      = .ok chBytes

/-! ## Worked examples: an environment, a configuration and requests -/

/-- An environment for the worked examples: a keyed checksum of sixteen bytes in
the place of HMAC-MD5, an AUSF that answers 201 with the `5gAuthData` `AwEABA==`,
a `range` over the Proxy-State map that starts at its second entry, and a client
socket that accepts every write. -/
def exampleEnv : Env :=
  { hmacMD5 := fun k m =>
      ((k ++ m).foldl (fun acc b => (acc * 31 + b) % 256) 7) :: List.replicate 15 0
    jsonEapSuccess := fun _ => .error (.lib "json")
    jsonEapFailure := fun _ => .error (.lib "json")
    jsonEapExchange := fun _ => .error (.lib "json")
    jsonAuthRespFirst := fun _ => .ok ⟨ascii "EAP_AKA_PRIME", ascii "AwEABA==",
      ascii "http://1.2.3.4:9/nausf-auth/v1/ue-authentications/abc/eap-session", []⟩
    jsonAuthenticationInfo := fun a b => a ++ b
    newRequestErr := fun _ => none
    ausf := fun _ => .response 201 []
    mppeKey := fun _ _ _ _ => .error (.lib "key")
    randIntn := fun k => k
    mapSeed := 1
    writeErr := fun _ => none
    byteSliceSpare := fun _ _ => 0 }

/-- A configuration for the worked examples. -/
def exampleConfig : Config :=
  { sharedSecret := ascii "secret", radiusAttributesLogOutputFlag := false,
    allowedClientAddr := ascii "10.0.0.1", n12AUSFaddress := ascii "10.0.0.9:8080",
    overwriteLinkString := true }

/-- An Access-Request with the Proxy-State values "a" and "b", an EAP-Response
Identity "9" (EAP-Id 7), and the given Message-Authenticator value. -/
def examplePacket (mac : Bytes) : Packet :=
  { Code := 1, Identifier := 5, Authenticator := List.replicate 16 9, Secret := ascii "secret",
    Attributes := [⟨33, [97]⟩, ⟨79, [2, 7, 0, 6, 1, 57]⟩, ⟨33, [98]⟩, ⟨80, mac⟩] }

/-- The Message-Authenticator `exampleEnv` computes for `examplePacket`. -/
def exampleMAC : Bytes :=
  (messageAuthenticatorCalc exampleEnv (examplePacket []) (ascii "secret")).1.1

/-- The serialization of `examplePacket` with its Message-Authenticator zeroed. -/
def exampleBytes : Bytes :=
  match MarshalBinary (examplePacket msgAuthOverwriteZero) with
  | .ok b => b
  | .error _ => []

/-- The request of the worked examples, from the allowed client. -/
def exampleRequest : Request :=
  { RemoteAddr := ascii "10.0.0.1:50000", Packet := examplePacket exampleMAC }

/-- The same request from another source address. -/
def exampleRequestOtherSource : Request :=
  { RemoteAddr := ascii "10.0.0.2:50000", Packet := examplePacket exampleMAC }

/-- The state in which the handler returns for `exampleRequest` on an empty table. -/
def exampleResult : HandlerResult :=
  match handler exampleEnv exampleConfig 0 [] exampleRequest with
  | .ret res => res
  | _ => { HandlerState.init [] exampleRequest with written := none, sent := false }

/-- The reply the handler writes for `exampleRequest`. -/
def exampleReply : Packet :=
  match exampleResult.written with
  | some p => p
  | none => examplePacket []

/-- A 51-byte Identity whose first byte is 0xff. -/
def exampleIdentity : Bytes := 255 :: ascii "123456789012345@wlan.mnc012.mcc345.3gppnetwork.org"

/-- A configuration with the link rewrite on and the AUSF at 10.0.0.1:8080. -/
def exampleConfigRewrite : Config :=
  { sharedSecret := ascii "secret", radiusAttributesLogOutputFlag := false,
    allowedClientAddr := ascii "10.0.0.1", n12AUSFaddress := ascii "10.0.0.1:8080",
    overwriteLinkString := true }

/-- A configuration with the link rewrite off. -/
def exampleConfigVerbatim : Config :=
  { sharedSecret := ascii "secret", radiusAttributesLogOutputFlag := false,
    allowedClientAddr := ascii "10.0.0.1", n12AUSFaddress := ascii "10.0.0.1:8080",
    overwriteLinkString := false }

/-- A session table with a binding for the EAP-Ids 7 and 9. -/
def exampleTable : Table := [(7, ascii "http://old/7"), (9, ascii "http://old/9")]

/-- The environment of the worked examples with an AUSF whose status-200 bodies
decode: the payload is the N12 text of `01 09 00 06 32 01` in the three shapes. -/
def exampleEnvExchange : Env :=
  { exampleEnv with
    jsonEapSuccess := fun _ => .ok ⟨encodeEapPayload [1, 9, 0, 6, 50, 1], ascii "kseaf-value"⟩
    jsonEapFailure := fun _ =>
      .ok ⟨encodeEapPayload [1, 9, 0, 6, 50, 1], ascii "AUTHENTICATION_FAILURE"⟩
    jsonEapExchange := fun _ =>
      .ok ⟨encodeEapPayload [1, 9, 0, 6, 50, 1], ascii "http://1.2.3.4:9/next"⟩ }

/-- The environment of the worked examples with an AUSF whose bodies carry an
empty `eapPayload` and an empty `5gAuthData`. -/
def exampleEnvEmptyPayload : Env :=
  { exampleEnv with
    jsonEapSuccess := fun _ => .ok ⟨[], ascii "kseaf-value"⟩
    jsonAuthRespFirst := fun _ => .ok ⟨ascii "EAP_AKA_PRIME", [], ascii "http://1.2.3.4:9/x", []⟩ }

/-- The example request with sixteen bytes 0x01 as its Message-Authenticator. -/
def exampleRequestBadMAC : Request :=
  { RemoteAddr := ascii "10.0.0.1:50000", Packet := examplePacket (List.replicate 16 1) }

/-- An Access-Request like `examplePacket`, with the EAP-Message `eap`. -/
def examplePacketEap (eap mac : Bytes) : Packet :=
  { Code := 1, Identifier := 5, Authenticator := List.replicate 16 9, Secret := ascii "secret",
    Attributes := [⟨33, [97]⟩, ⟨79, eap⟩, ⟨33, [98]⟩, ⟨80, mac⟩] }

/-- The request from the allowed client that carries the EAP-Message `eap` and
the Message-Authenticator `exampleEnv` computes for it. -/
def exampleRequestEap (eap : Bytes) : Request :=
  { RemoteAddr := ascii "10.0.0.1:50000"
    Packet := examplePacketEap eap
      (messageAuthenticatorCalc exampleEnv (examplePacketEap eap []) (ascii "secret")).1.1 }

/-- The state of the handler after the checks and the decoding of
`exampleRequestEap eap`, when the table holds `t`. -/
def exampleVerified (t : Table) (eap : Bytes) : HandlerState :=
  match eapExtract exampleEnv exampleConfig (exampleRequestEap eap)
      (proxyStateCapture (sourceCheck exampleConfig (exampleRequestEap eap)
        (HandlerState.init t (exampleRequestEap eap)))) with
  | .ret h => h
  | _ => HandlerState.init t (exampleRequestEap eap)

/-- What the handler returns for `exampleRequestEap eap` in the environment `env`. -/
def exampleOutcome (env : Env) (t : Table) (eap : Bytes) : HandlerResult :=
  match handler env exampleConfig 300 t (exampleRequestEap eap) with
  | .ret res => res
  | _ => { HandlerState.init t (exampleRequestEap eap) with written := none, sent := false }

/-- An EAP-Response Identity (EAP-Id 7) with the given identity. -/
def eapIdentityResponse (identity : Bytes) : Bytes :=
  [2, 7, (5 + identity.length) / 256, (5 + identity.length) % 256, 1] ++ identity

/-- The permanent identity "6" ++ IMSI ++ NAI of 51 bytes. -/
def examplePermanentIdentity : Bytes :=
  ascii "6123456789012345@wlan.mnc012.mcc345.3gppnetwork.org"

/-- An EAP-Response AKA'-Challenge (Type 50, subtype 1) with EAP-Id 7. -/
def exampleAkaChallengeResponse : Bytes := [2, 7, 0, 8, 50, 1, 0, 0]

/-- A configuration read from a file whose `ausfAddress` is `10.0.0.1:abc`, and an
IP parser that accepts `10.0.0.1`. -/
def exampleConfigEnv : ConfigEnv :=
  { readFile := ([], none)
    yamlUnmarshal := fun _ =>
      ({ ConfFilename := ascii "rad5gc.log", ConfMaxSize := 10, ConfMaxBackups := 3,
         ConfMaxAge := 28, ConfLocalTime := true, ConfCompress := false,
         ConfSharedSecret := ascii "secret", ConfAllowedClientAddress := ascii "10.0.0.1",
         ConfAttributesLogging := false, ConfAUSFaddress := ascii "10.0.0.1:abc",
         ConfOverwriteLinkString := true }, none)
    ParseIP := fun s => s = ascii "10.0.0.1" }

/-- The state in which the dispatch of lines 122-395 returns for
`exampleRequestEap eap` in the environment `env`. -/
def exampleDispatched (env : Env) (t : Table) (eap : Bytes) : HandlerState :=
  match dispatch env exampleConfig 300 (exampleVerified t eap) with
  | .ret h => h
  | _ => HandlerState.init t (exampleRequestEap eap)

/-- An EAP-Response Identity whose identity is 235 bytes "9". -/
def exampleLongIdentity : Bytes := eapIdentityResponse (List.replicate 235 57)

/-- The environment of the worked examples with an AUSF that answers 200 with an
EAP-Success shape: the payload is the N12 text of `03 07 00 06 00 00` (EAP code 3,
Success), and `kSeaf` is the given string. -/
def exampleEnvSuccess (kSeaf : GoString) : Env :=
  { exampleEnv with
    ausf := fun _ =>
      .response 200 (ascii "\x7b\"eapPayload\":\"MDMwNzAwMDYwMDAw\",\"kSeaf\":\"" ++ kSeaf
        ++ ascii "\"\x7d")
    jsonEapSuccess := fun _ => .ok ⟨encodeEapPayload [3, 7, 0, 6, 0, 0], kSeaf⟩ }

/-- The environment of the worked examples with an AUSF that answers every POST
with the given status and a problem-details body. -/
def exampleEnvStatus (status : Nat) : Env :=
  { exampleEnv with
    ausf := fun _ => .response status (ascii "\x7b\"cause\":\"USER_NOT_FOUND\"\x7d") }

/-- An EAP-Response AKA'-Synchronization-Failure (Type 50, subtype 4) with EAP-Id 7. -/
def exampleAkaSyncFailureResponse : Bytes := [2, 7, 0, 8, 50, 4, 0, 0]

/-- An EAP-Response of Type 50 (AKA') with EAP-Id 7 and no TypeData: five bytes. -/
def exampleAkaNoTypeData : Bytes := [2, 7, 0, 5, 50]

/-- An EAP-Response AKA'-Identity (Type 50, subtype 5) with EAP-Id 7 and three
bytes of TypeData. -/
def exampleAkaIdentityShort : Bytes := [2, 7, 0, 8, 50, 5, 0, 0]

/-- The environment of the worked examples with a random source whose samples
are 7, 9, 11, ... -/
def exampleEnvRand : Env :=
  { exampleEnv with randIntn := fun k => 7 + 2 * k }

/-- The environment of the worked examples with an AUSF that answers 200 with a
continuation: the payload is the N12 text of `01 09 00 06 32 01` (an EAP-Request
with EAP-Id 9) and the link is `http://1.2.3.4:9/next`. -/
def exampleEnvContinuation : Env :=
  { exampleEnvExchange with
    ausf := fun _ =>
      .response 200 (ascii ("\x7b\"eapPayload\":\"MDEwOTAwMDYzMjAx\","
        ++ "\"_links\":\x7b\"href\":\"http://1.2.3.4:9/next\"\x7d\x7d")) }

/-- The environment of the worked examples with an AUSF that does not answer. -/
def exampleEnvDown : Env :=
  { exampleEnv with ausf := fun _ => .sendErr (.lib "context deadline exceeded") }

/-- The environment of the worked examples with an AUSF whose 201 body carries the
EAP-Request `01 02 00 06 32 01` as `5gAuthData` and no link. -/
def exampleEnvNoLink : Env :=
  { exampleEnv with
    jsonAuthRespFirst := fun _ =>
      .ok ⟨ascii "EAP_AKA_PRIME", base64Encode [1, 2, 0, 6, 50, 1], [], []⟩ }

/-- An EAP-Response AKA'-Identity (Type 50, subtype 5) with EAP-Id 7: two reserved
bytes, the header of AT_IDENTITY (type 14, length, identity length 51), and the
permanent identity, so that `TypeData[7]` is the prefix, `TypeData[8:23]` the IMSI
and `TypeData[23:]` the NAI. -/
def exampleAkaIdentityResponse : Bytes :=
  [2, 7, 0, 63, 50] ++ [5, 0, 0, 14, 14, 0, 51] ++ examplePermanentIdentity

/-- What the handler returns for `exampleRequestEap eap` in the environment `env`
under the configuration with the link rewrite off. -/
def exampleOutcomeVerbatim (env : Env) (t : Table) (eap : Bytes) : HandlerResult :=
  match handler env exampleConfigVerbatim 300 t (exampleRequestEap eap) with
  | .ret res => res
  | _ => { HandlerState.init t (exampleRequestEap eap) with written := none, sent := false }

/-! ## Go-level lemmas -/

set_option maxRecDepth 100000


theorem Run.bind_eq_ret {α β : Type} (x : Run α) (f : α → Run β) (b : β) :
    (x >>= f) = .ret b ↔ ∃ a, x = .ret a ∧ f a = .ret b := by
  cases x with
  | ret a => exact ⟨fun h => ⟨a, rfl, h⟩, fun ⟨a', ha, h⟩ => by cases ha; exact h⟩
  | panic r => exact ⟨fun h => (nomatch h), fun ⟨_, ha, _⟩ => (nomatch ha)⟩
  | spin => exact ⟨fun h => (nomatch h), fun ⟨_, ha, _⟩ => (nomatch ha)⟩

theorem Run.sat_iff {α : Type} (P : α → Prop) (x : Run α) :
    Run.Sat P x ↔ ∀ a, x = .ret a → P a := by
  unfold Run.Sat
  exact Iff.rfl

theorem Run.sat_ret {α : Type} {P : α → Prop} {a : α} (h : P a) : Run.Sat P (.ret a) := by
  rw [Run.sat_iff]
  intro b hb
  cases hb
  exact h

theorem Run.sat_pure {α : Type} {P : α → Prop} {a : α} (h : P a) :
    Run.Sat P (pure a : Run α) := Run.sat_ret h

theorem Run.sat_panic {α : Type} {P : α → Prop} {r : String} : Run.Sat P (.panic r : Run α) :=
  (Run.sat_iff _ _).mpr (fun _ hb => nomatch hb)

theorem Run.sat_spin {α : Type} {P : α → Prop} : Run.Sat P (.spin : Run α) :=
  (Run.sat_iff _ _).mpr (fun _ hb => nomatch hb)

theorem Run.sat_bind {α β : Type} {P : β → Prop} {x : Run α} {f : α → Run β}
    (h : ∀ a, x = .ret a → Run.Sat P (f a)) : Run.Sat P (x >>= f) := by
  rw [Run.sat_iff]
  intro b hb
  obtain ⟨a, ha, hf⟩ := (Run.bind_eq_ret x f b).mp hb
  exact (Run.sat_iff _ _).mp (h a ha) b hf

theorem HasPrefix_iff (s p : GoString) : HasPrefix s p = true ↔ p <+: s := by
  simp [HasPrefix]

theorem HasSuffix_iff (s p : GoString) : HasSuffix s p = true ↔ p <:+ s := by
  simp [HasSuffix]

theorem CutPrefix_append (p d : GoString) : CutPrefix (p ++ d) p = (d, true) := by
  simp [CutPrefix, HasPrefix]

/-! ## `AttributesSet` -/

theorem AttributesSetLoop_found (key : Nat) (value : Bytes) (a : List AVP) :
    AttributesSetLoop key value a true = (a.filter (fun avp => avp.AttrType != key), true) := by
  induction a with
  | nil => rfl
  | cons avp rest ih =>
    by_cases h : avp.AttrType = key
    · simp [AttributesSetLoop, h, ih]
    · simp [AttributesSetLoop, h, ih]

theorem AttributesSet_cons_eq (key : Nat) (value : Bytes) (avp : AVP) (rest : List AVP)
    (h : avp.AttrType = key) :
    AttributesSet (avp :: rest) key value
      = ⟨key, value⟩ :: rest.filter (fun avp => avp.AttrType != key) := by
  simp [AttributesSet, AttributesSetLoop, h, AttributesSetLoop_found]

theorem AttributesSet_cons_ne (key : Nat) (value : Bytes) (avp : AVP) (rest : List AVP)
    (h : avp.AttrType ≠ key) :
    AttributesSet (avp :: rest) key value = avp :: AttributesSet rest key value := by
  simp only [AttributesSet, AttributesSetLoop, h, if_false]
  split <;> simp [AttributesAdd]

theorem AttributesSet_nil (key : Nat) (value : Bytes) :
    AttributesSet [] key value = [⟨key, value⟩] := by
  simp [AttributesSet, AttributesSetLoop, AttributesAdd]

theorem AttributesLookup_Set (a : List AVP) (key : Nat) (value : Bytes) :
    AttributesLookup (AttributesSet a key value) key = some value := by
  induction a with
  | nil => simp [AttributesSet_nil, AttributesLookup]
  | cons avp rest ih =>
    by_cases h : avp.AttrType = key
    · simp [AttributesSet_cons_eq _ _ _ _ h, AttributesLookup]
    · rw [AttributesSet_cons_ne _ _ _ _ h]
      simp only [AttributesLookup, List.find?_cons] at ih ⊢
      have : (avp.AttrType == key) = false := by simp [h]
      rw [this]
      exact ih

theorem AttributesSet_Set (a : List AVP) (key : Nat) (w value : Bytes) :
    AttributesSet (AttributesSet a key w) key value = AttributesSet a key value := by
  induction a with
  | nil => simp [AttributesSet_nil, AttributesSet_cons_eq]
  | cons avp rest ih =>
    by_cases h : avp.AttrType = key
    · rw [AttributesSet_cons_eq _ _ _ _ h, AttributesSet_cons_eq _ _ _ _ h,
        AttributesSet_cons_eq _ _ _ _ rfl]
      simp
    · rw [AttributesSet_cons_ne _ _ _ _ h, AttributesSet_cons_ne _ _ _ _ h,
        AttributesSet_cons_ne _ _ _ _ h, ih]

theorem AttributesLookup_Add_self (a : List AVP) (key : Nat) (value : Bytes) :
    (AttributesLookup (AttributesAdd a key value) key).isSome = true := by
  simp [AttributesLookup, AttributesAdd]

theorem filter_AttributesSet (a : List AVP) (key t : Nat) (value : Bytes) (h : t ≠ key) :
    (AttributesSet a key value).filter (fun avp => avp.AttrType == t)
      = a.filter (fun avp => avp.AttrType == t) := by
  induction a with
  | nil => simp [AttributesSet_nil, Ne.symm h]
  | cons avp rest ih =>
    by_cases hk : avp.AttrType = key
    · rw [AttributesSet_cons_eq _ _ _ _ hk]
      have h1 : (key == t) = false := by simp [Ne.symm h]
      have h2 : (avp.AttrType == t) = false := by simp [hk, Ne.symm h]
      simp only [List.filter_cons, h1, h2, List.filter_filter]
      simp
      apply List.filter_congr
      intro x _
      by_cases hx : x.AttrType = t
      · simp [hx, h]
      · simp [hx]
    · rw [AttributesSet_cons_ne _ _ _ _ hk]
      simp only [List.filter_cons, ih]

/-! ## The order of a `range` over a map -/

theorem map_eraseIdx_comm {α β : Type} (f : α → β) (l : List α) (i : Nat) :
    (l.eraseIdx i).map f = (l.map f).eraseIdx i := by
  induction l generalizing i with
  | nil => rfl
  | cons x rest ih =>
    cases i with
    | zero => rfl
    | succ i => simp [List.eraseIdx, ih]

theorem mapRangeAux_map {α β : Type} (f : α → β) (n seed : Nat) (m : List α) :
    (mapRangeAux n seed m).map f = mapRangeAux n seed (m.map f) := by
  induction n generalizing seed m with
  | zero => rfl
  | succ n ih =>
    cases m with
    | nil => rfl
    | cons x rest =>
      simp only [mapRangeAux, List.map_cons, List.length_cons, List.length_map]
      rw [ih]
      congr 1
      · simp [List.getD_eq_getElem?_getD, ← List.map_cons]
      · rw [← List.map_cons, map_eraseIdx_comm]

theorem mapRange_map {α β : Type} (f : α → β) (seed : Nat) (m : List α) :
    (mapRange seed m).map f = mapRange seed (m.map f) := by
  simp [mapRange, mapRangeAux_map]

theorem getElem_cons_eraseIdx_perm {α : Type} (m : List α) (i : Nat) (hi : i < m.length) :
    (m[i] :: m.eraseIdx i).Perm m := by
  induction m generalizing i with
  | nil => simp at hi
  | cons x rest ih =>
    cases i with
    | zero => exact List.Perm.refl _
    | succ i =>
      simp only [List.getElem_cons_succ, List.eraseIdx_cons_succ]
      exact (List.Perm.swap _ _ _).trans (List.Perm.cons _ (ih i (by simpa using hi)))

theorem mapRangeAux_perm {α : Type} (n seed : Nat) (m : List α) (h : m.length = n) :
    (mapRangeAux n seed m).Perm m := by
  induction n generalizing seed m with
  | zero =>
    have : m = [] := List.length_eq_zero.mp h
    subst this
    exact List.Perm.refl _
  | succ n ih =>
    cases m with
    | nil => simp at h
    | cons x rest =>
      simp only [mapRangeAux]
      have hi : seed % (x :: rest).length < (x :: rest).length := Nat.mod_lt _ (by simp)
      generalize seed % (x :: rest).length = i at hi
      have hlen : ((x :: rest).eraseIdx i).length = n := by
        rw [List.length_eraseIdx]
        simp only [hi, if_true]
        simpa using h
      refine (List.Perm.cons _ (ih _ _ hlen)).trans ?_
      rw [List.getD_eq_getElem _ _ hi]
      exact getElem_cons_eraseIdx_perm _ _ hi

theorem mapRange_perm {α : Type} (seed : Nat) (m : List α) : (mapRange seed m).Perm m :=
  mapRangeAux_perm _ _ _ rfl

theorem mapRangeAux_zero {α : Type} (n : Nat) (m : List α) (h : m.length = n) :
    mapRangeAux n 0 m = m := by
  induction n generalizing m with
  | zero => exact (List.length_eq_zero.mp h).symm ▸ rfl
  | succ n ih =>
    cases m with
    | nil => simp at h
    | cons x rest =>
      simp only [mapRangeAux, Nat.zero_mod, Nat.zero_div, List.getD_cons_zero, List.eraseIdx_cons_zero]
      rw [ih rest (by simpa using h)]

theorem mapRange_zero {α : Type} (m : List α) : mapRange 0 m = m :=
  mapRangeAux_zero _ _ rfl

theorem multiAttrGetLoop_values (t : Nat) (a : List AVP) (num : Nat) (acc : List (Nat × Bytes)) :
    (multiAttrGetLoop t a num acc).map Prod.snd
      = acc.map Prod.snd
        ++ (a.filter (fun avp => avp.AttrType == t)).map (fun avp => avp.Attribute) := by
  induction a generalizing num acc with
  | nil => simp [multiAttrGetLoop]
  | cons avp rest ih =>
    by_cases h : avp.AttrType = t
    · simp [multiAttrGetLoop, h, ih]
    · simp [multiAttrGetLoop, h, ih]

theorem foldl_AttributesAdd (l : List (Nat × Bytes)) (a : List AVP) :
    l.foldl (fun a kv => AttributesAdd a 33 kv.2) a = a ++ l.map (fun kv => ⟨33, kv.2⟩) := by
  induction l generalizing a with
  | nil => simp
  | cons x rest ih =>
    simp only [List.foldl_cons, ih]
    simp [AttributesAdd]

/-! ## The handler: invariants of its steps -/

theorem proxyStateValues_eapReply (h : HandlerState) (code : Nat) (payload : Bytes) :
    proxyStateValues (eapReply h code payload) = [] := by
  simp [proxyStateValues, eapReply, Response, AttributesAdd]

theorem proxyStateValues_Response (p : Packet) (code : Nat) :
    proxyStateValues (Response p code) = [] := by
  simp [proxyStateValues, Response]

theorem proxyStateValues_MSMPPEKey_Set (env : Env) (t : Nat) (p : Packet) (v : Bytes) :
    proxyStateValues (MSMPPEKey_Set env t p v).1 = proxyStateValues p := by
  unfold MSMPPEKey_Set
  split <;> simp [proxyStateValues, AttributesAdd]

theorem proxyStateValues_ReplyMessage (p q : Packet) (v : GoString)
    (h : ReplyMessage_AddString p v = (q, none)) : proxyStateValues q = proxyStateValues p := by
  unfold ReplyMessage_AddString at h
  split at h
  · simp at h
  · simp only [Prod.mk.injEq, and_true] at h
    subst h
    simp [proxyStateValues, AttributesAdd]

theorem Kept.refl (h : HandlerState) (hn : h.responsePacket = none) : Kept h h :=
  ⟨rfl, rfl, fun p hp => by rw [hn] at hp; cases hp⟩

theorem akaChallenge_kept (env : Env) (h : HandlerState) (hn : h.responsePacket = none) :
    Run.Sat (Kept h) (akaChallenge env h) := by
  unfold akaChallenge
  repeat' (first
    | (apply Run.sat_pure; simp [Kept, HandlerState.discard, hn, proxyStateValues_eapReply,
        proxyStateValues_MSMPPEKey_Set])
    | (apply Run.sat_bind; intro _ _)
    | split)

theorem akaAuthenticationReject_kept (env : Env) (h : HandlerState) (hn : h.responsePacket = none) :
    Run.Sat (Kept h) (akaAuthenticationReject env h) := by
  unfold akaAuthenticationReject
  repeat' (first
    | (apply Run.sat_pure; simp [Kept, HandlerState.discard, hn, proxyStateValues_eapReply])
    | (apply Run.sat_bind; intro _ _)
    | split)

theorem akaSynchronizationFailure_kept (env : Env) (h : HandlerState)
    (hn : h.responsePacket = none) :
    Run.Sat (Kept h) (akaSynchronizationFailure env h) := by
  unfold akaSynchronizationFailure
  repeat' (first
    | (apply Run.sat_pure; simp [Kept, HandlerState.discard, hn, proxyStateValues_eapReply])
    | (apply Run.sat_bind; intro _ _)
    | split)

theorem akaIdentity_kept (env : Env) (cfg : Config) (h : HandlerState)
    (hn : h.responsePacket = none) :
    Run.Sat (Kept h) (akaIdentity env cfg h) := by
  unfold akaIdentity
  repeat' (first
    | (apply Run.sat_pure; simp [Kept, HandlerState.discard, hn, proxyStateValues_eapReply])
    | (apply Run.sat_bind; intro _ _)
    | split
    | dsimp only)

theorem dispatchAka_kept (env : Env) (cfg : Config) (h : HandlerState)
    (hn : h.responsePacket = none) :
    Run.Sat (Kept h) (dispatchAka env cfg h) := by
  unfold dispatchAka
  apply Run.sat_bind; intro _ _
  split
  · exact akaChallenge_kept env h hn
  split
  · exact akaAuthenticationReject_kept env h hn
  split
  · exact akaSynchronizationFailure_kept env h hn
  split
  · exact akaIdentity_kept env cfg h hn
  dsimp only
  split
  · apply Run.sat_pure; simp [Kept, HandlerState.discard, hn]
  · rename_i p hp
    apply Run.sat_pure
    simp [Kept, proxyStateValues_ReplyMessage _ _ _ hp, proxyStateValues_Response]

theorem identityPermanent_kept (env : Env) (cfg : Config) (s : eapIdentiySet) (h : HandlerState)
    (hn : h.responsePacket = none) :
    Run.Sat (Kept h) (identityPermanent env cfg s h) := by
  unfold identityPermanent
  repeat' (first
    | (apply Run.sat_pure; simp [Kept, HandlerState.discard, hn, proxyStateValues_eapReply,
        proxyStateValues_Response])
    | (apply Run.sat_bind; intro _ _)
    | split
    | dsimp only)

theorem dispatchIdentity_kept (env : Env) (cfg : Config) (fuel : Nat) (h : HandlerState)
    (hn : h.responsePacket = none) :
    Run.Sat (Kept h) (dispatchIdentity env cfg fuel h) := by
  unfold dispatchIdentity
  dsimp only
  split
  · exact identityPermanent_kept env cfg _ h hn
  split
  · apply Run.sat_bind; intro _ _
    apply Run.sat_pure
    simp [Kept, proxyStateValues_eapReply]
  split
  · apply Run.sat_ret; simp [Kept, HandlerState.discard, hn]
  · rename_i p hp
    apply Run.sat_ret
    simp [Kept, proxyStateValues_ReplyMessage _ _ _ hp, proxyStateValues_Response]

theorem dispatch_kept (env : Env) (cfg : Config) (fuel : Nat) (h : HandlerState)
    (hn : h.responsePacket = none) :
    Run.Sat (Kept h) (dispatch env cfg fuel h) := by
  unfold dispatch
  split
  · split
    · exact dispatchIdentity_kept env cfg fuel h hn
    split
    · exact dispatchAka_kept env cfg h hn
    dsimp only
    split
    · apply Run.sat_ret; simp [Kept, HandlerState.discard, hn]
    · rename_i p hp
      apply Run.sat_ret
      simp [Kept, proxyStateValues_ReplyMessage _ _ _ hp, proxyStateValues_Response]
  · exact Run.sat_ret (Kept.refl h hn)

theorem handler_eq (env : Env) (cfg : Config) (fuel : Nat) (t : Table) (r : Request) :
    handler env cfg fuel t r
      = (eapExtract env cfg r (proxyStateCapture (sourceCheck cfg r (HandlerState.init t r)))
          >>= fun h => dispatch env cfg fuel h
          >>= fun h => writeAndCommit env cfg (finalizeReply env cfg h)) := rfl

theorem mac_err_discard (env : Env) (rp : Packet) (s : Bytes)
    (h : (messageAuthenticatorCalc env rp s).1.2.2.errString ≠ none) :
    (messageAuthenticatorCalc env rp s).1.2.2.discardFlag = true := by
  revert h
  cases hm : MarshalBinary { rp with Attributes := AttributesSet rp.Attributes 80 msgAuthOverwriteZero }
    <;> cases hl : AttributesLookup rp.Attributes 80
    <;> simp only [messageAuthenticatorCalc, MessageAuthenticator_Lookup, hm, hl]
    <;> simp
  rename_i e
  by_cases he : e = GoError.noAttribute <;> simp [he]

theorem mac_ok (env : Env) (rp : Packet) (s stored : Bytes)
    (h80 : AttributesLookup rp.Attributes 80 = some stored)
    (h : (messageAuthenticatorCalc env rp s).1.2.2.errString = none) :
    ∃ chBytes,
      MarshalBinary { rp with Attributes := AttributesSet rp.Attributes 80 msgAuthOverwriteZero }
        = .ok chBytes ∧
      (messageAuthenticatorCalc env rp s).1.1 = env.hmacMD5 s chBytes := by
  cases hm : MarshalBinary
      { rp with Attributes := AttributesSet rp.Attributes 80 msgAuthOverwriteZero } with
  | error e =>
    simp [messageAuthenticatorCalc, MessageAuthenticator_Lookup, h80, hm] at h
  | ok b =>
    exact ⟨b, rfl, by simp [messageAuthenticatorCalc, MessageAuthenticator_Lookup, h80, hm]⟩

theorem mac_packet (env : Env) (rp : Packet) (s : Bytes) :
    (messageAuthenticatorCalc env rp s).2
      = { rp with Attributes := AttributesSet rp.Attributes 80 msgAuthOverwriteZero } := by
  simp [messageAuthenticatorCalc]

theorem finalize_signed (env : Env) (cfg : Config) (h : HandlerState) (p : Packet)
    (hd : (finalizeReply env cfg h).reqReceivedStatus.discardFlag = false)
    (hp : (finalizeReply env cfg h).responsePacket = some p) :
    ∃ chBytes,
      MarshalBinary { p with Attributes := AttributesSet p.Attributes 80 msgAuthOverwriteZero }
        = .ok chBytes ∧
      AttributesLookup p.Attributes 80 = some (env.hmacMD5 cfg.sharedSecret chBytes) := by
  unfold finalizeReply at hd hp
  cases hrp : h.responsePacket with
  | none => simp [hrp] at hp
  | some rp =>
    simp only [hrp] at hd hp
    generalize hq : appendProxyStateAndZeroMAC env h rp = q at hd hp
    have hq80 : ∃ stored, AttributesLookup q.Attributes 80 = some stored := by
      rw [← hq]
      exact Option.isSome_iff_exists.mp (AttributesLookup_Add_self _ _ _)
    obtain ⟨stored, hq80⟩ := hq80
    by_cases he : (messageAuthenticatorCalc env q cfg.sharedSecret).1.2.2.errString = none
    · simp only [he, ne_eq, not_true_eq_false, if_false] at hp
      obtain ⟨chBytes, hm, hmac⟩ := mac_ok env q cfg.sharedSecret stored hq80 he
      simp only [mac_packet] at hp
      have hp' := Option.some.inj hp
      subst hp'
      refine ⟨chBytes, ?_, ?_⟩
      · simp only [AttributesSet_Set]
        exact hm
      · simp only [AttributesLookup_Set, hmac]
    · have hdis := mac_err_discard env q cfg.sharedSecret he
      simp only [ne_eq, he, not_false_eq_true, if_true] at hd
      rw [hdis] at hd
      exact absurd hd (by simp)

theorem write_inv (env : Env) (cfg : Config) (h : HandlerState) (res : HandlerResult) (p : Packet)
    (hrun : writeAndCommit env cfg h = .ret res) (hw : res.written = some p) :
    h.reqReceivedStatus.discardFlag = false ∧ h.responsePacket = some p := by
  unfold writeAndCommit at hrun
  cases hd : h.reqReceivedStatus.discardFlag with
  | true =>
    simp [hd] at hrun
    subst hrun
    simp at hw
  | false =>
    refine ⟨rfl, ?_⟩
    simp only [hd, Bool.not_false, if_true] at hrun
    cases hrp : h.responsePacket with
    | none => simp [hrp] at hrun
    | some rp =>
      simp only [hrp] at hrun
      cases hwe : env.writeErr rp with
      | some e =>
        simp only [hwe] at hrun
        injection hrun with hrun
        subst hrun
        simpa using hw
      | none =>
        simp only [hwe] at hrun
        split at hrun <;> (injection hrun with hrun; subst hrun; simpa using hw)



theorem proxyStateValues_Set80 (p : Packet) (v : Bytes) :
    proxyStateValues { p with Attributes := AttributesSet p.Attributes 80 v }
      = proxyStateValues p := by
  simp only [proxyStateValues]
  rw [filter_AttributesSet _ 80 33 v (by decide)]

theorem proxyStateValues_append (env : Env) (h : HandlerState) (rp : Packet) :
    proxyStateValues (appendProxyStateAndZeroMAC env h rp)
      = proxyStateValues rp
        ++ (if h.attr33Exist then (mapRange env.mapSeed h.attr33).map Prod.snd else []) := by
  unfold appendProxyStateAndZeroMAC proxyStateValues
  by_cases he : h.attr33Exist = true
  · simp only [he, if_true]
    rw [foldl_AttributesAdd]
    simp [AttributesAdd, List.filter_map, Function.comp_def]
  · simp [he, AttributesAdd]

theorem finalize_proxyState (env : Env) (cfg : Config) (h : HandlerState) (p : Packet)
    (hd : (finalizeReply env cfg h).reqReceivedStatus.discardFlag = false)
    (hp : (finalizeReply env cfg h).responsePacket = some p) :
    ∃ rp, h.responsePacket = some rp ∧
      proxyStateValues p = proxyStateValues rp
        ++ (if h.attr33Exist then (mapRange env.mapSeed h.attr33).map Prod.snd else []) := by
  unfold finalizeReply at hd hp
  cases hrp : h.responsePacket with
  | none => simp [hrp] at hp
  | some rp =>
    refine ⟨rp, rfl, ?_⟩
    simp only [hrp] at hd hp
    rw [← proxyStateValues_append]
    generalize appendProxyStateAndZeroMAC env h rp = q at hd hp ⊢
    by_cases he : (messageAuthenticatorCalc env q cfg.sharedSecret).1.2.2.errString = none
    · simp only [he, ne_eq, not_true_eq_false, if_false] at hp
      simp only [mac_packet] at hp
      have hp' := Option.some.inj hp
      subst hp'
      simp only [proxyStateValues]
      rw [filter_AttributesSet _ 80 33 _ (by decide), filter_AttributesSet _ 80 33 _ (by decide)]
    · have hdis := mac_err_discard env q cfg.sharedSecret he
      simp only [ne_eq, he, not_false_eq_true, if_true] at hd
      rw [hdis] at hd
      exact absurd hd (by simp)

theorem eapExtract_kept (env : Env) (cfg : Config) (r : Request) (h : HandlerState) :
    Run.Sat (fun h' => h'.attr33 = h.attr33 ∧ h'.attr33Exist = h.attr33Exist
      ∧ h'.responsePacket = h.responsePacket
      ∧ (h.reqReceivedStatus.discardFlag = true → h' = h)) (eapExtract env cfg r h) := by
  unfold eapExtract
  split
  · rename_i hd
    apply Run.sat_bind; intro _ _
    split
    split <;> (apply Run.sat_pure; simp_all)
  · rename_i hd
    apply Run.sat_ret
    simp

theorem dispatch_discarded (env : Env) (cfg : Config) (fuel : Nat) (h : HandlerState)
    (hd : h.reqReceivedStatus.discardFlag = true) : dispatch env cfg fuel h = .ret h := by
  simp [dispatch, hd]

theorem multiAttrGet_values (p : Packet) :
    (multiAttrGet p 33).1.map Prod.snd = proxyStateValues p ∧
    ((multiAttrGet p 33).2 = false → proxyStateValues p = []) := by
  have hv := multiAttrGetLoop_values 33 p.Attributes 0 []
  simp only [List.map_nil, List.nil_append] at hv
  refine ⟨by simpa [multiAttrGet, proxyStateValues] using hv, ?_⟩
  intro hf
  simp only [multiAttrGet, gt_iff_lt, decide_eq_false_iff_not, not_lt, Nat.le_zero,
    List.length_eq_zero] at hf
  rw [hf] at hv
  simpa [proxyStateValues] using hv.symm

theorem mapRange_nil {α : Type} (seed : Nat) : mapRange seed ([] : List α) = [] := rfl


/-! ## The session table -/

theorem Table.Load_Store_self (t : Table) (key : Nat) (value : GoString) :
    (t.Store key value).Load key = some value := by
  simp [Table.Store, Table.Load]

theorem Table.Load_Delete_self (t : Table) (key : Nat) : (t.Delete key).Load key = none := by
  simp [Table.Delete, Table.Load, List.find?_eq_none]

theorem Table.Load_Delete_other (t : Table) (key other : Nat) (h : other ≠ key) :
    (t.Delete key).Load other = t.Load other := by
  induction t with
  | nil => rfl
  | cons kv rest ih =>
    simp only [Table.Delete, Table.Load, List.filter_cons] at ih ⊢
    by_cases hk : kv.1 = key
    · have h1 : (kv.1 != key) = false := by simp [hk]
      have h2 : (kv.1 == other) = false := by simp [hk, Ne.symm h]
      simp only [h1, List.find?_cons, h2]
      exact ih
    · have h1 : (kv.1 != key) = true := by simp [hk]
      simp only [h1, if_true, List.find?_cons]
      cases (kv.1 == other)
      · exact ih
      · rfl

theorem Table.Load_Store_other (t : Table) (key other : Nat) (value : GoString)
    (h : other ≠ key) : (t.Store key value).Load other = t.Load other := by
  have h2 : (key == other) = false := by simp [Ne.symm h]
  have := Table.Load_Delete_other t key other h
  simp only [Table.Load] at this
  simp only [Table.Store, Table.Load, List.find?_cons, h2]
  exact this

theorem Table.Delete_Delete (t : Table) (key : Nat) :
    (t.Delete key).Delete key = t.Delete key := by
  simp [Table.Delete, List.filter_filter]

theorem eapIdTableLoad_eq (t : Table) (eapid : Nat) :
    eapIdTableLoad t eapid = ((t.Load eapid).getD [], (t.Load eapid).isSome) := by
  unfold eapIdTableLoad
  cases t.Load eapid <;> rfl

/-! ## `strings.Cut` at the first slash -/

theorem Index_of_no_sep (a rest : GoString) (c : Nat) (h : ∀ x ∈ a, x ≠ c) :
    Index (a ++ c :: rest) [c] = some a.length := by
  induction a with
  | nil => simp [Index]
  | cons x a ih =>
    have hx : x ≠ c := h x (by simp)
    have ih' := ih (fun y hy => h y (by simp [hy]))
    unfold Index
    simp [hx, Ne.symm hx, ih']

theorem Cut_of_no_sep (a rest : GoString) (c : Nat) (h : ∀ x ∈ a, x ≠ c) :
    Cut (a ++ c :: rest) [c] = (a, rest, true) := by
  simp [Cut, Index_of_no_sep a rest c h]

theorem multiAttrGetLoop_enum (t : Nat) (a : List AVP) (num : Nat) (acc : List (Nat × Bytes)) :
    multiAttrGetLoop t a num acc
      = acc ++ List.enumFrom num
          ((a.filter (fun avp => avp.AttrType == t)).map (fun avp => avp.Attribute)) := by
  induction a generalizing num acc with
  | nil => simp [multiAttrGetLoop]
  | cons avp rest ih =>
    by_cases h : avp.AttrType = t
    · simp [multiAttrGetLoop, h, ih, List.enumFrom]
    · simp [multiAttrGetLoop, h, ih]

theorem lookup_enumFrom (l : List Bytes) (n i : Nat) :
    (List.enumFrom n l).lookup i = if n ≤ i then l[i - n]? else none := by
  induction l generalizing n with
  | nil => simp [List.enumFrom]
  | cons x rest ih =>
    simp only [List.enumFrom, List.lookup_cons]
    by_cases h : i = n
    · subst h
      simp
    · have hb : (i == n) = false := by simp [h]
      rw [hb, ih]
      by_cases hle : n ≤ i
      · have h1 : n + 1 ≤ i := by omega
        have h2 : i - n = (i - (n + 1)) + 1 := by omega
        simp [hle, h1, h2]
      · have h1 : ¬ n + 1 ≤ i := by omega
        simp [hle, h1]

theorem decodeExchangeFields_ok (f r : GoString) (p : Bytes) (id : Byte) (s : GoString)
    (h : decodeExchangeFields f r = .ret (p, id, s, none)) : s = r := by
  unfold decodeExchangeFields at h
  rw [Run.bind_eq_ret] at h
  obtain ⟨⟨a, b, e⟩, -, h2⟩ := h
  cases e with
  | none =>
    simp only [pure, Run.ret.injEq, Prod.mk.injEq] at h2
    exact h2.2.2.1.symm
  | some e => simp [pure] at h2

/-! ## The handler: a rejected Message-Authenticator -/

theorem mac_discard_always (env : Env) (rp : Packet) (s : Bytes) :
    (messageAuthenticatorCalc env rp s).1.2.2.discardFlag = true := by
  cases hm : MarshalBinary
      { rp with Attributes := AttributesSet rp.Attributes 80 msgAuthOverwriteZero }
    <;> cases hl : AttributesLookup rp.Attributes 80
    <;> simp only [messageAuthenticatorCalc, MessageAuthenticator_Lookup, hm, hl]
    <;> simp
  rename_i e
  by_cases he : e = GoError.noAttribute <;> simp [he]

theorem mac_flag_false (env : Env) (rp : Packet) (s chBytes : Bytes)
    (hm : MarshalBinary
      { rp with Attributes := AttributesSet rp.Attributes 80 msgAuthOverwriteZero } = .ok chBytes)
    (hlen : (env.hmacMD5 s chBytes).length = 16)
    (hbad : AttributesLookup rp.Attributes 80 ≠ some (env.hmacMD5 s chBytes)) :
    (messageAuthenticatorCalc env rp s).1.2.1 = false := by
  cases hl : AttributesLookup rp.Attributes 80 with
  | none =>
    simp only [messageAuthenticatorCalc, MessageAuthenticator_Lookup, hm, hl]
    simp only [decide_eq_false_iff_not]
    intro h0
    rw [h0] at hlen
    simp at hlen
  | some stored =>
    rw [hl] at hbad
    simp only [messageAuthenticatorCalc, MessageAuthenticator_Lookup, hm, hl]
    simp only [decide_eq_false_iff_not]
    intro h0
    exact hbad (by rw [h0])

theorem isEAPMessageIncluded_rejected (env : Env) (cfg : Config) (r : Request)
    (hres : (messageAuthenticatorCalc env r.Packet cfg.sharedSecret).1.2.1 = false) :
    ∃ ps err pkt, isEAPMessageIncluded env cfg r = .ret ((ps, EAP.zero, err), pkt)
      ∧ ps.discardFlag = true := by
  unfold isEAPMessageIncluded
  by_cases h79 : (AttributesLookup r.Packet.Attributes 79).getD [] ≠ []
  · rw [if_pos h79]
    simp only [hres, Bool.false_eq_true, if_false]
    exact ⟨_, _, _, rfl, mac_discard_always env r.Packet cfg.sharedSecret⟩
  · rw [if_neg h79]
    exact ⟨_, _, _, rfl, rfl⟩

theorem eapExtract_rejected (env : Env) (cfg : Config) (r : Request) (h : HandlerState)
    (hres : (messageAuthenticatorCalc env h.packet cfg.sharedSecret).1.2.1 = false)
    (hz : h.eapPacket = EAP.zero) :
    ∃ h', eapExtract env cfg r h = .ret h' ∧ h'.reqReceivedStatus.discardFlag = true
      ∧ h'.responsePacket = h.responsePacket ∧ h'.n12 = h.n12 ∧ h'.table = h.table
      ∧ h'.eapPacket = EAP.zero := by
  unfold eapExtract
  cases hd : h.reqReceivedStatus.discardFlag with
  | true => exact ⟨h, by simp, hd, rfl, rfl, rfl, hz⟩
  | false =>
    obtain ⟨ps, err, pkt, hinc, hps⟩ :=
      isEAPMessageIncluded_rejected env cfg { r with Packet := h.packet } hres
    simp only [Bool.not_false, if_true, hinc, bind, Run.bind]
    cases err with
    | none => exact ⟨_, rfl, hps, rfl, rfl, rfl, rfl⟩
    | some e => exact ⟨_, rfl, hps, rfl, rfl, rfl, hz⟩

theorem preamble_fields (cfg : Config) (t : Table) (r : Request) :
    (proxyStateCapture (sourceCheck cfg r (HandlerState.init t r))).packet = r.Packet ∧
    (proxyStateCapture (sourceCheck cfg r (HandlerState.init t r))).eapPacket = EAP.zero ∧
    (proxyStateCapture (sourceCheck cfg r (HandlerState.init t r))).responsePacket = none ∧
    (proxyStateCapture (sourceCheck cfg r (HandlerState.init t r))).n12 = [] ∧
    (proxyStateCapture (sourceCheck cfg r (HandlerState.init t r))).table = t := by
  by_cases hs : (Cut r.RemoteAddr (ascii ":")).1 = cfg.allowedClientAddr
  · simp [proxyStateCapture, sourceCheck, HandlerState.init, hs]
  · simp [proxyStateCapture, sourceCheck, HandlerState.init, hs]

/-! ## The handler on a verified request -/

theorem AttributesLookup_eq_filter (a : List AVP) (k : Nat) :
    AttributesLookup a k
      = ((a.filter (fun avp => avp.AttrType == k)).head?).map (fun avp => avp.Attribute) := by
  unfold AttributesLookup
  induction a with
  | nil => rfl
  | cons x rest ih =>
    by_cases hx : (x.AttrType == k) = true
    · simp [List.find?_cons, List.filter_cons, hx]
    · simp only [List.find?_cons, List.filter_cons, hx]
      exact ih

theorem AttributesLookup_Set_other (a : List AVP) (k key : Nat) (v : Bytes) (h : k ≠ key) :
    AttributesLookup (AttributesSet a key v) k = AttributesLookup a k := by
  rw [AttributesLookup_eq_filter, AttributesLookup_eq_filter, filter_AttributesSet _ _ _ _ h]

theorem AttributesLookup_append_other (a b : List AVP) (k : Nat)
    (hb : ∀ avp ∈ b, avp.AttrType ≠ k) :
    AttributesLookup (a ++ b) k = AttributesLookup a k := by
  rw [AttributesLookup_eq_filter, AttributesLookup_eq_filter, List.filter_append]
  have : b.filter (fun avp => avp.AttrType == k) = [] := by
    rw [List.filter_eq_nil_iff]
    intro avp havp
    simpa using hb avp havp
  rw [this, List.append_nil]

theorem AttributesLookup_appendProxyState (env : Env) (h : HandlerState) (rp : Packet) (k : Nat)
    (h33 : k ≠ 33) (h80 : k ≠ 80) :
    AttributesLookup (appendProxyStateAndZeroMAC env h rp).Attributes k
      = AttributesLookup rp.Attributes k := by
  unfold appendProxyStateAndZeroMAC
  show AttributesLookup (_ ++ [(⟨80, msgAuthOverwriteZero⟩ : AVP)]) k = _
  rw [AttributesLookup_append_other _ _ _ (by simpa using Ne.symm h80)]
  split
  · rw [foldl_AttributesAdd, AttributesLookup_append_other]
    intro avp havp
    simp only [List.mem_map] at havp
    obtain ⟨kv, _, rfl⟩ := havp
    exact Ne.symm h33
  · rfl

theorem mac_errString (env : Env) (rp : Packet) (s stored : Bytes)
    (h80 : AttributesLookup rp.Attributes 80 = some stored) :
    (messageAuthenticatorCalc env rp s).1.2.2.errString
      = match MarshalBinary
          { rp with Attributes := AttributesSet rp.Attributes 80 msgAuthOverwriteZero } with
        | .ok _ => none
        | .error e => some e := by
  cases hm : MarshalBinary
      { rp with Attributes := AttributesSet rp.Attributes 80 msgAuthOverwriteZero } with
  | error e => simp [messageAuthenticatorCalc, MessageAuthenticator_Lookup, h80, hm]
  | ok b => simp [messageAuthenticatorCalc, MessageAuthenticator_Lookup, h80, hm]
theorem finalize_cases (env : Env) (cfg : Config) (h : HandlerState) (rp : Packet)
    (hrp : h.responsePacket = some rp) :
    ∃ p, p.Code = rp.Code
      ∧ (∀ k, k ≠ 33 → k ≠ 80 →
          AttributesLookup p.Attributes k = AttributesLookup rp.Attributes k)
      ∧ ((Serializes p ∧ finalizeReply env cfg h = { h with responsePacket := some p })
        ∨ (¬ Serializes p ∧ ∃ ps, ps.discardFlag = true
            ∧ finalizeReply env cfg h
              = { h with reqReceivedStatus := ps, responsePacket := some p })) := by
  unfold finalizeReply
  simp only [hrp]
  have hk : ∀ k, k ≠ 33 → k ≠ 80 →
      AttributesLookup (AttributesSet (appendProxyStateAndZeroMAC env h rp).Attributes 80
        msgAuthOverwriteZero) k = AttributesLookup rp.Attributes k := by
    intro k h33 h80
    rw [AttributesLookup_Set_other _ _ _ _ h80, AttributesLookup_appendProxyState _ _ _ _ h33 h80]
  have hc : (appendProxyStateAndZeroMAC env h rp).Code = rp.Code := rfl
  have hq80 : ∃ stored, AttributesLookup (appendProxyStateAndZeroMAC env h rp).Attributes 80
      = some stored := Option.isSome_iff_exists.mp (AttributesLookup_Add_self _ _ _)
  obtain ⟨stored, hq80⟩ := hq80
  generalize appendProxyStateAndZeroMAC env h rp = q at hk hc hq80 ⊢
  have he := mac_errString env q cfg.sharedSecret stored hq80
  cases hm : MarshalBinary
      { q with Attributes := AttributesSet q.Attributes 80 msgAuthOverwriteZero } with
  | error e =>
    simp only [hm] at he
    have hdis := mac_err_discard env q cfg.sharedSecret (by rw [he]; simp)
    simp only [he, ne_eq, reduceCtorEq, not_false_eq_true, if_true, mac_packet]
    refine ⟨{ q with Attributes := AttributesSet q.Attributes 80 msgAuthOverwriteZero }, hc, hk,
      Or.inr ⟨?_, _, hdis, rfl⟩⟩
    rintro ⟨b, hb⟩
    simp only [AttributesSet_Set] at hb
    rw [hm] at hb
    cases hb
  | ok b =>
    simp only [hm] at he
    simp only [he, ne_eq, not_true_eq_false, if_false, mac_packet]
    generalize (messageAuthenticatorCalc env q cfg.sharedSecret).1.1 = mac
    let z := AttributesSet q.Attributes 80 msgAuthOverwriteZero
    refine ⟨{ q with Attributes := AttributesSet z 80 mac }, hc, ?_, Or.inl ⟨⟨b, ?_⟩, rfl⟩⟩
    · intro k h33 h80
      rw [AttributesLookup_Set_other _ _ _ _ h80]
      exact hk k h33 h80
    · show MarshalBinary { q with Attributes := AttributesSet (AttributesSet
        (AttributesSet q.Attributes 80 msgAuthOverwriteZero) 80 mac) 80 msgAuthOverwriteZero } = _
      simp only [AttributesSet_Set]
      exact hm

theorem reply_outcome (env : Env) (cfg : Config) (h : HandlerState) (rp : Packet)
    (hd : h.reqReceivedStatus.discardFlag = false) (hrp : h.responsePacket = some rp) :
    ∃ res p, writeAndCommit env cfg (finalizeReply env cfg h) = .ret res
      ∧ res.responsePacket = some p ∧ p.Code = rp.Code
      ∧ (∀ k, k ≠ 33 → k ≠ 80 →
          AttributesLookup p.Attributes k = AttributesLookup rp.Attributes k)
      ∧ res.n12 = h.n12 ∧ res.eapSessionInfoId = h.eapSessionInfoId
      ∧ res.eapSessionInfoURI = h.eapSessionInfoURI ∧ res.eapPacket = h.eapPacket
      ∧ ((Serializes p ∧ res.written = some p ∧ res.reqReceivedStatus.discardFlag = false
            ∧ res.sent = decide (env.writeErr p = none)
            ∧ res.table = if env.writeErr p = none ∧ h.eapSessionInfoURI ≠ [] then
                (eapIdTableStore cfg h.table h.eapSessionInfoId (.str h.eapSessionInfoURI)).1
              else h.table)
         ∨ (¬ Serializes p ∧ res.written = none ∧ res.sent = false
            ∧ res.reqReceivedStatus.discardFlag = true ∧ res.table = h.table)) := by
  obtain ⟨p, hc, hk, hcase⟩ := finalize_cases env cfg h rp hrp
  rcases hcase with ⟨hser, hfin⟩ | ⟨hser, ps, hps, hfin⟩
  · rw [hfin]
    unfold writeAndCommit
    simp only [hd, Bool.not_false, if_true]
    cases hw : env.writeErr p with
    | some e =>
      exact ⟨_, p, rfl, rfl, hc, hk, rfl, rfl, rfl, rfl, Or.inl ⟨hser, rfl, hd, by simp [hw],
        by simp [hw]⟩⟩
    | none =>
      by_cases hu : h.eapSessionInfoURI = []
      · simp only [hu, ne_eq, not_true_eq_false, if_false]
        exact ⟨_, p, rfl, rfl, hc, hk, rfl, rfl, hu.symm ▸ rfl, rfl,
          Or.inl ⟨hser, rfl, hd, by simp [hw], by simp [hw]⟩⟩
      · simp only [hu, ne_eq, not_false_eq_true, if_true]
        exact ⟨_, p, rfl, rfl, hc, hk, rfl, rfl, rfl, rfl,
          Or.inl ⟨hser, rfl, hd, by simp [hw], by simp [hw, hu]⟩⟩
  · rw [hfin]
    unfold writeAndCommit
    simp only [hps, Bool.not_true, Bool.false_eq_true, if_false]
    exact ⟨_, p, rfl, rfl, hc, hk, rfl, rfl, rfl, rfl, Or.inr ⟨hser, rfl, rfl, hps, rfl⟩⟩
theorem discard_outcome (env : Env) (cfg : Config) (h : HandlerState)
    (hd : h.reqReceivedStatus.discardFlag = true) :
    ∃ res, writeAndCommit env cfg (finalizeReply env cfg h) = .ret res
      ∧ res.written = none ∧ res.sent = false ∧ res.table = h.table ∧ res.n12 = h.n12
      ∧ res.reqReceivedStatus.discardFlag = true
      ∧ res.eapSessionInfoId = h.eapSessionInfoId
      ∧ res.eapSessionInfoURI = h.eapSessionInfoURI := by
  cases hrp : h.responsePacket with
  | none =>
    refine ⟨{ h with written := none, sent := false }, ?_, rfl, rfl, rfl, rfl, hd, rfl, rfl⟩
    simp [finalizeReply, hrp, writeAndCommit, hd]
  | some rp =>
    obtain ⟨p, -, -, hcase⟩ := finalize_cases env cfg h rp hrp
    rcases hcase with ⟨-, hfin⟩ | ⟨-, ps, hps, hfin⟩
    · rw [hfin]
      unfold writeAndCommit
      simp only [hd, Bool.not_true, Bool.false_eq_true, if_false]
      exact ⟨_, rfl, rfl, rfl, rfl, rfl, hd, rfl, rfl⟩
    · rw [hfin]
      unfold writeAndCommit
      simp only [hps, Bool.not_true, Bool.false_eq_true, if_false]
      exact ⟨_, rfl, rfl, rfl, rfl, rfl, hps, rfl, rfl⟩

theorem preamble_session (cfg : Config) (t : Table) (r : Request) :
    (proxyStateCapture (sourceCheck cfg r (HandlerState.init t r))).eapSessionInfoURI = [] ∧
    (proxyStateCapture (sourceCheck cfg r (HandlerState.init t r))).eapSessionInfoId = 0 := by
  by_cases hs : (Cut r.RemoteAddr (ascii ":")).1 = cfg.allowedClientAddr
  · simp [proxyStateCapture, sourceCheck, HandlerState.init, hs]
  · simp [proxyStateCapture, sourceCheck, HandlerState.init, hs]

theorem eapExtract_session (env : Env) (cfg : Config) (r : Request) (h : HandlerState) :
    Run.Sat (fun h' => h'.responsePacket = h.responsePacket ∧ h'.n12 = h.n12 ∧ h'.table = h.table
      ∧ h'.eapSessionInfoURI = h.eapSessionInfoURI ∧ h'.eapSessionInfoId = h.eapSessionInfoId)
      (eapExtract env cfg r h) := by
  unfold eapExtract
  split
  · apply Run.sat_bind; intro _ _
    split
    split <;> (apply Run.sat_pure; simp)
  · apply Run.sat_ret
    simp

theorem verified_fields (env : Env) (cfg : Config) (t : Table) (r : Request) (h : HandlerState)
    (hv : Verified env cfg t r h) :
    h.responsePacket = none ∧ h.n12 = [] ∧ h.table = t ∧ h.eapSessionInfoURI = []
      ∧ h.eapSessionInfoId = 0 := by
  obtain ⟨-, -, e3, e4, e5⟩ := preamble_fields cfg t r
  obtain ⟨e6, e7⟩ := preamble_session cfg t r
  obtain ⟨a1, a2, a3, a4, a5⟩ := (Run.sat_iff _ _).mp (eapExtract_session env cfg r _) h hv.1
  exact ⟨a1.trans e3, a2.trans e4, a3.trans e5, a4.trans e6, a5.trans e7⟩

theorem handler_of_verified (env : Env) (cfg : Config) (fuel : Nat) (t : Table) (r : Request)
    (h : HandlerState) (hv : Verified env cfg t r h) :
    handler env cfg fuel t r
      = (dispatch env cfg fuel h >>= fun h' => writeAndCommit env cfg (finalizeReply env cfg h')) := by
  rw [handler_eq, hv.1]
  rfl
/-! ## Every dispatch path sets the reply or the discard flag -/

theorem akaChallenge_settled (env : Env) (h : HandlerState) :
    Run.Sat (fun h' => h'.reqReceivedStatus.discardFlag = false → ∃ rp, h'.responsePacket = some rp)
      (akaChallenge env h) := by
  unfold akaChallenge
  repeat' (first
    | (apply Run.sat_pure; simp [HandlerState.discard])
    | (apply Run.sat_bind; intro _ _)
    | split)

theorem akaAuthenticationReject_settled (env : Env) (h : HandlerState) :
    Run.Sat (fun h' => h'.reqReceivedStatus.discardFlag = false → ∃ rp, h'.responsePacket = some rp)
      (akaAuthenticationReject env h) := by
  unfold akaAuthenticationReject
  repeat' (first
    | (apply Run.sat_pure; simp [HandlerState.discard])
    | (apply Run.sat_bind; intro _ _)
    | split)

theorem akaSynchronizationFailure_settled (env : Env) (h : HandlerState) :
    Run.Sat (fun h' => h'.reqReceivedStatus.discardFlag = false → ∃ rp, h'.responsePacket = some rp)
      (akaSynchronizationFailure env h) := by
  unfold akaSynchronizationFailure
  repeat' (first
    | (apply Run.sat_pure; simp [HandlerState.discard])
    | (apply Run.sat_bind; intro _ _)
    | split)

theorem akaIdentity_settled (env : Env) (cfg : Config) (h : HandlerState) :
    Run.Sat (fun h' => h'.reqReceivedStatus.discardFlag = false → ∃ rp, h'.responsePacket = some rp)
      (akaIdentity env cfg h) := by
  unfold akaIdentity
  repeat' (first
    | (apply Run.sat_pure; simp [HandlerState.discard])
    | (apply Run.sat_bind; intro _ _)
    | split
    | dsimp only)

theorem identityPermanent_settled (env : Env) (cfg : Config) (s : eapIdentiySet)
    (h : HandlerState) :
    Run.Sat (fun h' => h'.reqReceivedStatus.discardFlag = false → ∃ rp, h'.responsePacket = some rp)
      (identityPermanent env cfg s h) := by
  unfold identityPermanent
  repeat' (first
    | (apply Run.sat_pure; simp [HandlerState.discard])
    | (apply Run.sat_bind; intro _ _)
    | split
    | dsimp only)

theorem dispatch_settled (env : Env) (cfg : Config) (fuel : Nat) (h : HandlerState) :
    Run.Sat (fun h' => h'.reqReceivedStatus.discardFlag = false → ∃ rp, h'.responsePacket = some rp)
      (dispatch env cfg fuel h) := by
  unfold dispatch
  split
  · split
    · unfold dispatchIdentity
      dsimp only
      split
      · exact identityPermanent_settled env cfg _ h
      split
      · apply Run.sat_bind; intro _ _
        apply Run.sat_pure
        simp
      split
      · apply Run.sat_ret; simp [HandlerState.discard]
      · apply Run.sat_ret; simp
    split
    · unfold dispatchAka
      apply Run.sat_bind; intro _ _
      split
      · exact akaChallenge_settled env h
      split
      · exact akaAuthenticationReject_settled env h
      split
      · exact akaSynchronizationFailure_settled env h
      split
      · exact akaIdentity_settled env cfg h
      dsimp only
      split
      · apply Run.sat_pure; simp [HandlerState.discard]
      · apply Run.sat_pure; simp
    dsimp only
    split
    · apply Run.sat_ret; simp [HandlerState.discard]
    · apply Run.sat_ret; simp
  · rename_i hd
    apply Run.sat_ret
    intro hf
    simp [hf] at hd
theorem handler_reply (env : Env) (cfg : Config) (fuel : Nat) (t : Table) (r : Request)
    (h h' : HandlerState) (rp : Packet) (hv : Verified env cfg t r h)
    (hdp : dispatch env cfg fuel h = .ret h')
    (hd : h'.reqReceivedStatus.discardFlag = false) (hrp : h'.responsePacket = some rp) :
    ∃ res p, handler env cfg fuel t r = .ret res
      ∧ res.responsePacket = some p ∧ p.Code = rp.Code
      ∧ (∀ k, k ≠ 33 → k ≠ 80 →
          AttributesLookup p.Attributes k = AttributesLookup rp.Attributes k)
      ∧ res.n12 = h'.n12 ∧ res.eapSessionInfoId = h'.eapSessionInfoId
      ∧ res.eapSessionInfoURI = h'.eapSessionInfoURI ∧ res.eapPacket = h'.eapPacket
      ∧ ((Serializes p ∧ res.written = some p ∧ res.reqReceivedStatus.discardFlag = false
            ∧ res.sent = decide (env.writeErr p = none)
            ∧ res.table = if env.writeErr p = none ∧ h'.eapSessionInfoURI ≠ [] then
                (eapIdTableStore cfg h'.table h'.eapSessionInfoId (.str h'.eapSessionInfoURI)).1
              else h'.table)
         ∨ (¬ Serializes p ∧ res.written = none ∧ res.sent = false
            ∧ res.reqReceivedStatus.discardFlag = true ∧ res.table = h'.table)) := by
  rw [handler_of_verified env cfg fuel t r h hv, hdp]
  exact reply_outcome env cfg h' rp hd hrp

theorem handler_discard (env : Env) (cfg : Config) (fuel : Nat) (t : Table) (r : Request)
    (h h' : HandlerState) (hv : Verified env cfg t r h)
    (hdp : dispatch env cfg fuel h = .ret h')
    (hd : h'.reqReceivedStatus.discardFlag = true) :
    ∃ res, handler env cfg fuel t r = .ret res
      ∧ res.written = none ∧ res.sent = false ∧ res.table = h'.table ∧ res.n12 = h'.n12
      ∧ res.reqReceivedStatus.discardFlag = true
      ∧ res.eapSessionInfoId = h'.eapSessionInfoId
      ∧ res.eapSessionInfoURI = h'.eapSessionInfoURI := by
  rw [handler_of_verified env cfg fuel t r h hv, hdp]
  exact discard_outcome env cfg h' hd
theorem dispatch_unknown_identity (env : Env) (cfg : Config) (fuel : Nat) (h : HandlerState)
    (hd : h.reqReceivedStatus.discardFlag = false) (hty : h.eapPacket.EapType = 1)
    (h6 : (eapIdentityByteToString h.eapPacket).identityPrefix ≠ ascii "6")
    (h7 : (eapIdentityByteToString h.eapPacket).identityPrefix ≠ ascii "7")
    (h8 : (eapIdentityByteToString h.eapPacket).identityPrefix ≠ ascii "8") :
    dispatch env cfg fuel h
      = if (eapIdentityByteToString h.eapPacket).identityPrefix.length ≤ 234 then
          .ret { h with
            responsePacket := some ⟨CodeAccessReject, h.packet.Identifier, h.packet.Authenticator,
              h.packet.Secret, [⟨18, ascii "Unknown identity : "
                ++ (eapIdentityByteToString h.eapPacket).identityPrefix⟩]⟩ }
        else .ret (h.discard "Failed to add Reply-Message." (some .stringTooLong)) := by
  have hl : (ascii "Unknown identity : ").length = 19 := by decide
  unfold dispatch dispatchIdentity
  simp only [hd, hty, h6, h7, h8, Bool.not_false, if_true, if_false, or_self, ReplyMessage_AddString,
    List.length_append, hl]
  by_cases hlen : (eapIdentityByteToString h.eapPacket).identityPrefix.length ≤ 234
  · have : ¬ (19 + (eapIdentityByteToString h.eapPacket).identityPrefix.length > 253) := by omega
    simp [hlen, this, Response, AttributesAdd]
  · have : 19 + (eapIdentityByteToString h.eapPacket).identityPrefix.length > 253 := by omega
    simp [hlen, this]

theorem dispatch_aka (env : Env) (cfg : Config) (fuel : Nat) (h : HandlerState)
    (hd : h.reqReceivedStatus.discardFlag = false) (hty : h.eapPacket.EapType = 50) :
    dispatch env cfg fuel h = dispatchAka env cfg h := by
  unfold dispatch
  simp [hd, hty]

theorem dispatchAka_subtype1 (env : Env) (cfg : Config) (h : HandlerState)
    (hsub : h.eapPacket.TypeData[0]? = some 1) : dispatchAka env cfg h = akaChallenge env h := by
  unfold dispatchAka index
  simp only [hsub, bind, Run.bind, if_true]

theorem dispatchAka_subtype2 (env : Env) (cfg : Config) (h : HandlerState)
    (hsub : h.eapPacket.TypeData[0]? = some 2) :
    dispatchAka env cfg h = akaAuthenticationReject env h := by
  unfold dispatchAka index
  simp only [hsub, bind, Run.bind]
  simp

theorem dispatchAka_subtype4 (env : Env) (cfg : Config) (h : HandlerState)
    (hsub : h.eapPacket.TypeData[0]? = some 4) :
    dispatchAka env cfg h = akaSynchronizationFailure env h := by
  unfold dispatchAka index
  simp only [hsub, bind, Run.bind]
  simp

theorem dispatchAka_subtype5 (env : Env) (cfg : Config) (h : HandlerState)
    (hsub : h.eapPacket.TypeData[0]? = some 5) : dispatchAka env cfg h = akaIdentity env cfg h := by
  unfold dispatchAka index
  simp only [hsub, bind, Run.bind]
  simp

theorem akaChallenge_short_kSeaf (env : Env) (h : HandlerState) (st : Nat) (body : GoString)
    (calls : List N12Request) (payload : Bytes) (id : Byte) (kSeaf : GoString)
    (hreq : authReqExchange env h.table h.eapPacket.Contents = .ret ((st, body, none), calls))
    (hdec : authRespBodyDecode env st body = .ret (payload, id, kSeaf, none))
    (h0 : payload[0]? = some 3)
    (hshort : kSeaf.length + env.byteSliceSpare 1 kSeaf.length < 64) :
    akaChallenge env h = .panic "slice bounds out of range" := by
  have h2 : sliceOfConversion env 1 kSeaf 32 64 = .panic "slice bounds out of range" := by
    unfold sliceOfConversion
    rw [if_neg]
    omega
  unfold akaChallenge
  simp only [hreq, hdec, bind, Run.bind, index, h0]
  simp only [show (3 : Nat) ≠ 1 by decide, if_false, if_true, h2]
  have h1 : (∃ b, sliceOfConversion env 0 kSeaf 0 32 = .ret b)
      ∨ sliceOfConversion env 0 kSeaf 0 32 = .panic "slice bounds out of range" := by
    unfold sliceOfConversion
    dsimp only
    split
    · exact Or.inl ⟨_, rfl⟩
    · exact Or.inr rfl
  rcases h1 with ⟨b, hb⟩ | hb <;> rw [hb]
theorem authRespBodyDecode_error_status (env : Env) (st : Nat) (body : GoString)
    (h200 : st ≠ 200) (h201 : st ≠ 201) :
    authRespBodyDecode env st body = .ret ([], 0, body, none) := by
  simp [authRespBodyDecode, h200, h201]

theorem akaChallenge_error_status (env : Env) (h : HandlerState) (st : Nat) (body : GoString)
    (calls : List N12Request)
    (hreq : authReqExchange env h.table h.eapPacket.Contents = .ret ((st, body, none), calls))
    (h200 : st ≠ 200) (h201 : st ≠ 201) :
    akaChallenge env h = .panic "index out of range" := by
  unfold akaChallenge
  simp only [hreq, authRespBodyDecode_error_status env st body h200 h201, bind, Run.bind, index]
  rfl

theorem akaSynchronizationFailure_error_status (env : Env) (h : HandlerState) (st : Nat)
    (body : GoString) (calls : List N12Request)
    (hreq : authReqExchange env h.table h.eapPacket.Contents = .ret ((st, body, none), calls))
    (h200 : st ≠ 200) (h201 : st ≠ 201) :
    akaSynchronizationFailure env h = .panic "index out of range" := by
  unfold akaSynchronizationFailure
  simp only [hreq, authRespBodyDecode_error_status env st body h200 h201, bind, Run.bind, index]
  rfl
theorem dispatchAka_empty (env : Env) (cfg : Config) (h : HandlerState)
    (he : h.eapPacket.TypeData = []) : dispatchAka env cfg h = .panic "index out of range" := by
  unfold dispatchAka index
  simp only [he, List.getElem?_nil]
  rfl

theorem akaIdentity_short (env : Env) (cfg : Config) (h : HandlerState)
    (hlen : h.eapPacket.TypeData.length < 23) :
    akaIdentity env cfg h
      = if h.eapPacket.TypeData.length ≤ 7 then .panic "index out of range"
        else .panic "slice bounds out of range" := by
  unfold akaIdentity index slice
  by_cases h7 : h.eapPacket.TypeData.length ≤ 7
  · rw [if_pos h7, List.getElem?_eq_none h7]
    rfl
  · rw [if_neg h7]
    have h7' : 7 < h.eapPacket.TypeData.length := by omega
    rw [List.getElem?_eq_getElem h7']
    have : ¬ (8 ≤ 23 ∧ 23 ≤ h.eapPacket.TypeData.length) := by omega
    simp only [this, if_false, bind, Run.bind]
theorem generateEAPIdLoop_spec (env : Env) (t : Table) (fuel k : Nat) (id : Byte)
    (h : generateEAPIdLoop env t fuel k = .ret id) :
    id < 255 ∧ (eapIdTableLoad t id).2 = false := by
  induction fuel generalizing k with
  | zero => simp [generateEAPIdLoop] at h
  | succ n ih =>
    unfold generateEAPIdLoop at h
    dsimp only at h
    split at h
    · exact ih (k + 1) h
    · rename_i hfree
      injection h with h
      subst h
      exact ⟨Nat.mod_lt _ (by decide), by simpa using hfree⟩

theorem generateEAPIdLoop_returns (env : Env) (t : Table) (fuel k j : Nat)
    (hk : k ≤ j) (hj : j < k + fuel)
    (hfree : (eapIdTableLoad t (env.randIntn j % 255)).2 = false) :
    ∃ id, generateEAPIdLoop env t fuel k = .ret id := by
  induction fuel generalizing k with
  | zero => omega
  | succ n ih =>
    unfold generateEAPIdLoop
    dsimp only
    split
    · rename_i hbound
      have hne : k ≠ j := by
        rintro rfl
        rw [hfree] at hbound
        cases hbound
      exact ih (k + 1) (by omega) (by omega)
    · exact ⟨_, rfl⟩

theorem generateEAPIdLoop_spins (env : Env) (t : Table) (fuel k : Nat)
    (hfull : ∀ i, i < 255 → (eapIdTableLoad t i).2 = true) :
    generateEAPIdLoop env t fuel k = .spin := by
  induction fuel generalizing k with
  | zero => rfl
  | succ n ih =>
    unfold generateEAPIdLoop
    dsimp only
    rw [if_pos (hfull _ (Nat.mod_lt _ (by decide)))]
    exact ih (k + 1)

theorem dispatch_pseudonym (env : Env) (cfg : Config) (fuel : Nat) (h : HandlerState)
    (hd : h.reqReceivedStatus.discardFlag = false) (hty : h.eapPacket.EapType = 1)
    (h78 : (eapIdentityByteToString h.eapPacket).identityPrefix = ascii "7"
      ∨ (eapIdentityByteToString h.eapPacket).identityPrefix = ascii "8")
    (id : Byte) (hgen : generateEAPId env h.table fuel = .ret id) :
    dispatch env cfg fuel h
      = .ret { h with
          responsePacket :=
            some (eapReply h CodeAccessChallenge [1, id, 0, 12, 50, 5, 0, 0, 17, 1, 0, 0]) } := by
  have h6 : (eapIdentityByteToString h.eapPacket).identityPrefix ≠ ascii "6" := by
    rcases h78 with h7 | h8
    · rw [h7]; decide
    · rw [h8]; decide
  unfold dispatch dispatchIdentity
  simp only [hd, hty, h6, h78, Bool.not_false, if_true, if_false, hgen, bind, Run.bind]
  rfl
theorem dispatch_permanent (env : Env) (cfg : Config) (fuel : Nat) (h : HandlerState)
    (nwName body link : GoString) (st : Nat) (calls : List N12Request) (payload : Bytes) (id : Byte)
    (hd : h.reqReceivedStatus.discardFlag = false) (hty : h.eapPacket.EapType = 1)
    (h6 : (eapIdentityByteToString h.eapPacket).identityPrefix = ascii "6")
    (hnw : toNWNameForN12 (eapIdentityByteToString h.eapPacket).networkName = (nwName, none))
    (hreq : authReqFirst env cfg (ascii "imsi-" ++ (eapIdentityByteToString h.eapPacket).imsi)
      nwName = ((st, body, none), calls))
    (hdec : authRespBodyDecode env st body = .ret (payload, id, link, none)) :
    dispatch env cfg fuel h
      = if st = 201 then
          .ret { h with
            n12 := h.n12 ++ calls
            responsePacket := some (eapReply h CodeAccessChallenge payload)
            eapSessionInfoId := id
            eapSessionInfoURI := link }
        else
          .ret { h with
            n12 := h.n12 ++ calls
            responsePacket := some (Response h.packet CodeAccessReject) } := by
  unfold dispatch dispatchIdentity identityPermanent
  simp only [hd, hty, h6, hnw, hreq, hdec, Bool.not_false, if_true, bind, Run.bind]
  by_cases h201 : st = 201
  · simp only [h201, if_true]
    rfl
  · simp only [h201, if_false]
    split <;> rfl
/-! ## The subtype 1, 2 and 4 paths delete the binding of the request -/

theorem akaChallenge_deletes (env : Env) (h : HandlerState) :
    Run.Sat (fun h' => h'.table = eapIdTableDelete h.table h.eapPacket.Id ∧
        (h'.eapSessionInfoURI = h.eapSessionInfoURI
          ∨ ∃ rp, h'.responsePacket = some rp ∧ rp.Code = CodeAccessChallenge))
      (akaChallenge env h) := by
  unfold akaChallenge
  repeat' (first
    | (apply Run.sat_pure; simp [HandlerState.discard, eapReply, Response])
    | (apply Run.sat_bind; intro _ _)
    | split)

theorem akaAuthenticationReject_deletes (env : Env) (h : HandlerState) :
    Run.Sat (fun h' => h'.table = eapIdTableDelete h.table h.eapPacket.Id ∧
        (h'.eapSessionInfoURI = h.eapSessionInfoURI
          ∨ ∃ rp, h'.responsePacket = some rp ∧ rp.Code = CodeAccessChallenge))
      (akaAuthenticationReject env h) := by
  unfold akaAuthenticationReject
  repeat' (first
    | (apply Run.sat_pure; simp [HandlerState.discard, eapReply, Response])
    | (apply Run.sat_bind; intro _ _)
    | split)

theorem akaSynchronizationFailure_deletes (env : Env) (h : HandlerState) :
    Run.Sat (fun h' => h'.table = eapIdTableDelete h.table h.eapPacket.Id ∧
        (h'.eapSessionInfoURI = h.eapSessionInfoURI
          ∨ ∃ rp, h'.responsePacket = some rp ∧ rp.Code = CodeAccessChallenge))
      (akaSynchronizationFailure env h) := by
  unfold akaSynchronizationFailure
  repeat' (first
    | (apply Run.sat_pure; simp [HandlerState.discard, eapReply, Response])
    | (apply Run.sat_bind; intro _ _)
    | split)

theorem eapIdTableStore_str (cfg : Config) (t : Table) (eapid : Nat) (uri : GoString) :
    ∃ v, (eapIdTableStore cfg t eapid (.str uri)).1 = t.Store eapid v := by
  unfold eapIdTableStore
  exact ⟨_, rfl⟩

theorem eapIdTableLoad_not_found (t : Table) (eapid : Nat) :
    (eapIdTableLoad t eapid).2 = false ↔ t.Load eapid = none := by
  rw [eapIdTableLoad_eq]
  cases t.Load eapid <;> simp
/-! ## The EAP-Id and the binding of a challenge -/

theorem index_eq_ret (xs : Bytes) (i : Nat) (b : Byte) (h : index xs i = .ret b) :
    xs[i]? = some b := by
  unfold index at h
  cases hx : xs[i]? with
  | none => simp [hx] at h
  | some c =>
    simp only [hx] at h
    injection h with h
    rw [h]

theorem base64AndHexDecode_id (str : GoString) (p : Bytes) (id : Byte)
    (h : base64AndHexDecode str = .ret (p, id, none)) : p[1]? = some id := by
  unfold base64AndHexDecode at h
  split at h
  · simp at h
  · split at h
    · simp at h
    · rw [Run.bind_eq_ret] at h
      obtain ⟨b, hb, h2⟩ := h
      simp only [pure, Run.ret.injEq, Prod.mk.injEq, and_true] at h2
      obtain ⟨rfl, rfl⟩ := h2
      exact index_eq_ret _ _ _ hb

theorem decodeExchangeFields_id (f r : GoString) (p : Bytes) (id : Byte) (s : GoString)
    (h : decodeExchangeFields f r = .ret (p, id, s, none)) : p[1]? = some id := by
  unfold decodeExchangeFields at h
  rw [Run.bind_eq_ret] at h
  obtain ⟨⟨a, b, e⟩, h1, h2⟩ := h
  cases e with
  | none =>
    simp only [pure, Run.ret.injEq, Prod.mk.injEq, and_true] at h2
    obtain ⟨rfl, rfl, -⟩ := h2
    exact base64AndHexDecode_id _ _ _ h1
  | some e => simp [pure] at h2

theorem authRespBodyDecode_id (env : Env) (st : Nat) (body : GoString) (p : Bytes) (id : Byte)
    (s : GoString) (h : authRespBodyDecode env st body = .ret (p, id, s, none))
    (hst : st = 200 ∨ st = 201 ∨ p ≠ []) :
    p[1]? = some id := by
  unfold authRespBodyDecode at h
  split at h
  · split at h
    · split at h
      · simp at h
      · exact decodeExchangeFields_id _ _ _ _ _ h
    · split at h
      · split at h
        · simp at h
        · exact decodeExchangeFields_id _ _ _ _ _ h
      · split at h
        · split at h
          · simp at h
          · exact decodeExchangeFields_id _ _ _ _ _ h
        · simp at h
  · split at h
    · split at h
      · simp at h
      · split at h
        · simp at h
        · rw [Run.bind_eq_ret] at h
          obtain ⟨b, hb, h2⟩ := h
          simp only [pure, Run.ret.injEq, Prod.mk.injEq, and_true] at h2
          obtain ⟨rfl, rfl, -⟩ := h2
          exact index_eq_ret _ _ _ hb
    · rename_i h200 h201
      simp only [Run.ret.injEq, Prod.mk.injEq, and_true] at h
      rcases hst with hst | hst | hst
      · exact absurd hst h200
      · exact absurd hst h201
      · exact absurd h.1.symm hst

theorem akaChallenge_request (env : Env) (h : HandlerState) (st : Nat) (body : GoString)
    (calls : List N12Request) (payload : Bytes) (id : Byte) (link : GoString)
    (hreq : authReqExchange env h.table h.eapPacket.Contents = .ret ((st, body, none), calls))
    (hdec : authRespBodyDecode env st body = .ret (payload, id, link, none))
    (h0 : payload[0]? = some 1) :
    akaChallenge env h
      = .ret { h with
          n12 := h.n12 ++ calls
          table := eapIdTableDelete h.table h.eapPacket.Id
          responsePacket := some (eapReply h CodeAccessChallenge payload)
          eapSessionInfoId := id
          eapSessionInfoURI := link } := by
  unfold akaChallenge
  simp only [hreq, hdec, bind, Run.bind, index, h0, if_true]
  rfl

theorem akaSynchronizationFailure_request (env : Env) (h : HandlerState) (st : Nat)
    (body : GoString) (calls : List N12Request) (payload : Bytes) (id : Byte) (link : GoString)
    (hreq : authReqExchange env h.table h.eapPacket.Contents = .ret ((st, body, none), calls))
    (hdec : authRespBodyDecode env st body = .ret (payload, id, link, none))
    (h0 : payload[0]? = some 1) :
    akaSynchronizationFailure env h
      = .ret { h with
          n12 := h.n12 ++ calls
          table := eapIdTableDelete h.table h.eapPacket.Id
          responsePacket := some (eapReply h CodeAccessChallenge payload)
          eapSessionInfoId := id
          eapSessionInfoURI := link } := by
  unfold akaSynchronizationFailure
  simp only [hreq, hdec, bind, Run.bind, index, h0, if_true]
  rfl

theorem eapIdTableLoad_Store (cfg : Config) (t : Table) (eapid : Nat) (uri : GoString) :
    eapIdTableLoad (eapIdTableStore cfg t eapid (.str uri)).1 eapid
      = (if cfg.overwriteLinkString then
          ascii "http://" ++ cfg.n12AUSFaddress ++ ascii "/"
            ++ (Cut (CutPrefix uri (ascii "http://")).1 (ascii "/")).2.1
        else uri, true) := by
  rw [eapIdTableLoad_eq]
  unfold eapIdTableStore
  simp only [Table.Load_Store_self, Option.getD_some, Option.isSome_some]

theorem commit_after_challenge (env : Env) (cfg : Config) (fuel : Nat) (t : Table) (r : Request)
    (h h' : HandlerState) (res : HandlerResult) (payload : Bytes)
    (hv : Verified env cfg t r h) (hdp : dispatch env cfg fuel h = .ret h')
    (hd : h'.reqReceivedStatus.discardFlag = false)
    (hrp : h'.responsePacket = some (eapReply h CodeAccessChallenge payload))
    (hrun : handler env cfg fuel t r = .ret res) (hsent : res.sent = true) :
    ∃ p, res.written = some p ∧ p.Code = CodeAccessChallenge ∧
      AttributesLookup p.Attributes 79 = some payload ∧
      res.table = if h'.eapSessionInfoURI ≠ [] then
          (eapIdTableStore cfg h'.table h'.eapSessionInfoId (.str h'.eapSessionInfoURI)).1
        else h'.table := by
  obtain ⟨res', p, hres', -, hc, hk, -, -, -, -, hcase⟩ :=
    handler_reply env cfg fuel t r h h' _ hv hdp hd hrp
  rw [hres'] at hrun
  injection hrun with hrun
  subst hrun
  rcases hcase with ⟨-, hw, -, hs, ht⟩ | ⟨-, -, hs, -⟩
  · rw [hsent] at hs
    have hwe : env.writeErr p = none := by simpa using hs.symm
    refine ⟨p, hw, hc, ?_, ?_⟩
    · rw [hk 79 (by decide) (by decide)]
      rfl
    · rw [ht]
      simp [hwe]
  · rw [hsent] at hs
    cases hs

/-! ## The subtype 5 path and the link rewrite -/

theorem akaIdentity_error_status (env : Env) (cfg : Config) (h : HandlerState) (st : Nat)
    (body nwName : GoString) (calls : List N12Request)
    (hlen : 23 ≤ h.eapPacket.TypeData.length)
    (hnw : toNWNameForN12 (h.eapPacket.TypeData.drop 23) = (nwName, none))
    (hreq : authReqFirst env cfg ((h.eapPacket.TypeData.take 23).drop 8) nwName
      = ((st, body, none), calls))
    (h200 : st ≠ 200) (h201 : st ≠ 201) :
    akaIdentity env cfg h
      = .ret { h with
          n12 := h.n12 ++ calls
          responsePacket := some (eapReply h CodeAccessChallenge [])
          eapSessionInfoId := 0
          eapSessionInfoURI := body } := by
  have h7 : 7 < h.eapPacket.TypeData.length := by omega
  have hs : (8 ≤ 23 ∧ 23 ≤ h.eapPacket.TypeData.length) := ⟨by decide, hlen⟩
  unfold akaIdentity index slice sliceFrom
  rw [List.getElem?_eq_getElem h7]
  simp only [hs, and_self, if_true, hlen, bind, Run.bind, hnw, hreq,
    authRespBodyDecode_error_status env st body h200 h201]
  rfl

theorem rewrite_of_rewritten (ausf rest : GoString) (hausf : ∀ c ∈ ausf, c ≠ 47) :
    (Cut (CutPrefix (ascii "http://" ++ ausf ++ ascii "/" ++ rest) (ascii "http://")).1
      (ascii "/")).2.1 = rest := by
  have e : ascii "http://" ++ ausf ++ ascii "/" ++ rest
      = ascii "http://" ++ (ausf ++ 47 :: rest) := by
    have : ascii "/" = [47] := by decide
    rw [this]
    simp
  have e2 : ascii "/" = [47] := by decide
  rw [e, CutPrefix_append, e2, Cut_of_no_sep ausf rest 47 hausf]

/-! ## Helper facts for the claims -/

theorem split_at_one_and_sixteen (td : Bytes) (h : td.length = 51) :
    [td.getD 0 0] ++ (td.take 16).drop 1 ++ td.drop 16 = td ∧
    ((td.take 16).drop 1).length = 15 ∧ (td.drop 16).length = 35 := by
  match td, h with
  | x :: rest, h =>
    simp at h
    have : List.take 15 rest ++ List.drop 15 rest = rest := List.take_append_drop 15 rest
    simp [h, this]

/-- For a 51-byte Identity whose first byte is below 0x80 the three parts are one
byte, 15 bytes and 35 bytes, and put together they are the Identity. -/
theorem eapIdentityByteToString_ascii (p : EAP) (h : p.TypeData.length = 51)
    (h0 : p.TypeData.getD 0 0 < 128) :
    (eapIdentityByteToString p).identityPrefix ++ (eapIdentityByteToString p).imsi
        ++ (eapIdentityByteToString p).networkName = p.TypeData ∧
    (eapIdentityByteToString p).identityPrefix.length = 1 ∧
    (eapIdentityByteToString p).imsi.length = 15 ∧
    (eapIdentityByteToString p).networkName.length = 35 := by
  unfold eapIdentityByteToString
  rw [if_pos h]
  simp only [stringOfByte, if_pos h0]
  have := split_at_one_and_sixteen p.TypeData h
  exact ⟨this.1, rfl, this.2.1, this.2.2⟩

theorem exampleRun :
    handler exampleEnv exampleConfig 0 [] exampleRequest = .ret exampleResult := by
  decide

theorem exampleWritten : exampleResult.written = some exampleReply := by
  decide

/-! ## The claims -/

/-- C1 (fails on the code): the EAP-Success message `03 01 00 04` is put on N12 as
`MDMwMTAwMDQ=`, and `base64AndHexDecode` of that string returns the error
`hex.InvalidByteError(0)` and no payload. The Base64 text is padded, so the
buffer of `DecodedLen` bytes keeps a zero byte after the eight hex digits, and
the hex decoder is given that byte too. -/
theorem base64AndHexDecode_rejects_padded_payload :
    encodeEapPayload [3, 1, 0, 4] = ascii "MDMwMTAwMDQ=" ∧
    base64AndHexDecode (encodeEapPayload [3, 1, 0, 4])
      = .ret ([], 0, some (.invalidByte 0)) := by
  decide

/-- C2 (fails on the code): on status 201, for a body whose `5gAuthData` is the
Base64 text of `03 01 00 04` (`AwEABA==`), `authRespBodyDecode` returns the
payload `03 01 00 04 00 00`: the four bytes followed by the two bytes of the
`DecodedLen` buffer that the decoder did not write. -/
theorem authRespBodyDecode_201_keeps_buffer_tail (env : Env) (respBodyStr : GoString)
    (decodedArg : authRespFirst)
    (hjson : env.jsonAuthRespFirst respBodyStr = .ok decodedArg)
    (hdata : decodedArg.FiveGAuthData = base64Encode [3, 1, 0, 4]) :
    authRespBodyDecode env 201 respBodyStr
      = .ret ([3, 1, 0, 4, 0, 0], 1, decodedArg.Href, none) := by
  have hb : base64DecodeBuffer (base64Encode [3, 1, 0, 4]) = .ok [3, 1, 0, 4, 0, 0] := by
    decide
  simp [authRespBodyDecode, hjson, hdata, hb]
  rfl

/-- Witness of C2: the example AUSF body carries `AwEABA==`, and the decoded
payload is not `03 01 00 04`. -/
theorem authRespBodyDecode_201_keeps_buffer_tail_witness :
    base64Encode [3, 1, 0, 4] = ascii "AwEABA==" ∧
    authRespBodyDecode exampleEnv 201 []
      = .ret ([3, 1, 0, 4, 0, 0], 1,
          ascii "http://1.2.3.4:9/nausf-auth/v1/ue-authentications/abc/eap-session", none) :=
  ⟨by decide,
   authRespBodyDecode_201_keeps_buffer_tail exampleEnv []
    ⟨ascii "EAP_AKA_PRIME", ascii "AwEABA==",
      ascii "http://1.2.3.4:9/nausf-auth/v1/ue-authentications/abc/eap-session", []⟩
    (by rfl) (by decide)⟩

/-- C3 as stated is false: for `@wlan.mnc012.mcc345.3gppnetwork.org` the result of
`toNWNameForN12` is not `5G:wlan.mnc012.mcc345.3gppnetwork.org`. -/
theorem toNWNameForN12_example_is_not_5G_wlan :
    toNWNameForN12 (ascii "@wlan.mnc012.mcc345.3gppnetwork.org")
      ≠ (ascii "5G:wlan.mnc012.mcc345.3gppnetwork.org", none) := by
  decide

/-- C3 as amended: for every accepted NAI `@wlan.` ++ d the returned serving
network name is `5G:` ++ d, the whole `@wlan.` being removed. -/
theorem toNWNameForN12_accepted (d : GoString)
    (h : (toNWNameForN12 (ascii "@wlan." ++ d)).2 = none) :
    toNWNameForN12 (ascii "@wlan." ++ d) = (ascii "5G:" ++ d, none) := by
  unfold toNWNameForN12 at h ⊢
  split
  · simp [CutPrefix_append]
  · rename_i hc
    simp [hc] at h

/-- Witness of C3 as amended: `@wlan.mnc012.mcc345.3gppnetwork.org` is accepted and
gives `5G:mnc012.mcc345.3gppnetwork.org`. -/
theorem toNWNameForN12_accepted_witness :
    ascii "@wlan." ++ ascii "mnc012.mcc345.3gppnetwork.org"
      = ascii "@wlan.mnc012.mcc345.3gppnetwork.org" ∧
    ascii "5G:" ++ ascii "mnc012.mcc345.3gppnetwork.org"
      = ascii "5G:mnc012.mcc345.3gppnetwork.org" ∧
    toNWNameForN12 (ascii "@wlan." ++ ascii "mnc012.mcc345.3gppnetwork.org")
      = (ascii "5G:" ++ ascii "mnc012.mcc345.3gppnetwork.org", none) :=
  ⟨by decide, by decide,
   toNWNameForN12_accepted (ascii "mnc012.mcc345.3gppnetwork.org") (by decide)⟩

/-- C4: `toNWNameForN12 s` returns the error "invalid network name" exactly when
`s` does not both begin with `@wlan.` and end with `.3gppnetwork.org`; it returns
no other error; and when it returns no error, `s` is `@wlan.` ++ d for some d and
the result is `5G:` ++ d. -/
theorem toNWNameForN12_spec (s : GoString) :
    ((toNWNameForN12 s).2 = some (.msg "invalid network name")
        ↔ ¬ (ascii "@wlan." <+: s ∧ ascii ".3gppnetwork.org" <:+ s)) ∧
    ((toNWNameForN12 s).2 = none ∨ (toNWNameForN12 s).2 = some (.msg "invalid network name")) ∧
    ((toNWNameForN12 s).2 = none →
        ∃ d, s = ascii "@wlan." ++ d ∧ (toNWNameForN12 s).1 = ascii "5G:" ++ d) := by
  unfold toNWNameForN12
  by_cases hc : (HasPrefix s (ascii "@wlan.") && HasSuffix s (ascii ".3gppnetwork.org")) = true
  · rw [if_pos hc]
    have hc' := hc
    rw [Bool.and_eq_true, HasPrefix_iff, HasSuffix_iff] at hc'
    refine ⟨by simp [hc'], by simp, fun _ => ?_⟩
    obtain ⟨d, hd⟩ := hc'.1
    exact ⟨d, hd.symm, by rw [← hd, CutPrefix_append]⟩
  · rw [if_neg hc]
    rw [Bool.and_eq_true, HasPrefix_iff, HasSuffix_iff] at hc
    exact ⟨by simp [hc], by simp, by simp⟩

/-- C5 (fails on the code): for the 51-byte Identity that starts with the byte
0xff, `eapIdentityByteToString` returns the two-byte prefix `c3 bf` (Go's
`string(b)` of a byte is the UTF-8 text of the code point), so prefix, IMSI and
NAI together are 52 bytes and differ from the Identity. -/
theorem eapIdentityByteToString_two_byte_prefix :
    exampleIdentity.length = 51 ∧
    (eapIdentityByteToString ⟨2, 7, 56, 1, exampleIdentity, []⟩).identityPrefix = [195, 191] ∧
    ((eapIdentityByteToString ⟨2, 7, 56, 1, exampleIdentity, []⟩).identityPrefix
      ++ (eapIdentityByteToString ⟨2, 7, 56, 1, exampleIdentity, []⟩).imsi
      ++ (eapIdentityByteToString ⟨2, 7, 56, 1, exampleIdentity, []⟩).networkName).length = 52 ∧
    (eapIdentityByteToString ⟨2, 7, 56, 1, exampleIdentity, []⟩).identityPrefix
      ++ (eapIdentityByteToString ⟨2, 7, 56, 1, exampleIdentity, []⟩).imsi
      ++ (eapIdentityByteToString ⟨2, 7, 56, 1, exampleIdentity, []⟩).networkName
      ≠ exampleIdentity := by
  decide

/-- C6: for a packet that holds a Message-Authenticator `stored` and whose form
with attribute 80 set to sixteen zero bytes serializes to `chBytes`,
`messageAuthenticatorCalc` returns the expected MAC `hmacMD5 secret chBytes`, and
its match flag is true exactly when that MAC equals `stored`. -/
theorem messageAuthenticatorCalc_expectedMAC (env : Env) (rp : Packet)
    (sharedSecret stored chBytes : Bytes)
    (h80 : AttributesLookup rp.Attributes 80 = some stored)
    (hm : MarshalBinary { rp with Attributes := AttributesSet rp.Attributes 80 msgAuthOverwriteZero }
        = .ok chBytes) :
    (messageAuthenticatorCalc env rp sharedSecret).1.1 = env.hmacMD5 sharedSecret chBytes ∧
    ((messageAuthenticatorCalc env rp sharedSecret).1.2.1 = true
        ↔ env.hmacMD5 sharedSecret chBytes = stored) := by
  simp [messageAuthenticatorCalc, MessageAuthenticator_Lookup, h80, hm]

/-- Witness of C6: the example request holds the MAC that is computed for it, and
the match flag is true. -/
theorem messageAuthenticatorCalc_expectedMAC_witness :
    AttributesLookup (examplePacket exampleMAC).Attributes 80 = some exampleMAC ∧
    (messageAuthenticatorCalc exampleEnv (examplePacket exampleMAC) (ascii "secret")).1.1
      = exampleEnv.hmacMD5 (ascii "secret") exampleBytes ∧
    ((messageAuthenticatorCalc exampleEnv (examplePacket exampleMAC) (ascii "secret")).1.2.1 = true
      ↔ exampleEnv.hmacMD5 (ascii "secret") exampleBytes = exampleMAC) :=
  ⟨by decide,
   messageAuthenticatorCalc_expectedMAC exampleEnv (examplePacket exampleMAC) (ascii "secret")
    exampleMAC exampleBytes (by decide) (by decide)⟩

/-- C7 (fails on the code): for a packet that holds a Message-Authenticator and
serializes, and whose stored MAC differs from the computed one, the match flag
is false and the returned status is the one of the first `case` of the switch,
reason "AVP Message-Authenticator not found." with a nil error: `resultErrStrings`
and `msgAuthNotFoundErr` are both nil, so they compare equal. -/
theorem messageAuthenticatorCalc_mismatch_status (env : Env) (rp : Packet)
    (sharedSecret stored chBytes : Bytes)
    (h80 : AttributesLookup rp.Attributes 80 = some stored)
    (hm : MarshalBinary { rp with Attributes := AttributesSet rp.Attributes 80 msgAuthOverwriteZero }
        = .ok chBytes)
    (hne : env.hmacMD5 sharedSecret chBytes ≠ stored) :
    (messageAuthenticatorCalc env rp sharedSecret).1.2.1 = false ∧
    (messageAuthenticatorCalc env rp sharedSecret).1.2.2
      = ⟨true, ascii "AVP Message-Authenticator not found.", none⟩ := by
  simp [messageAuthenticatorCalc, MessageAuthenticator_Lookup, h80, hm, hne]

/-- Witness of C7: the example packet with sixteen bytes 0x01 as its
Message-Authenticator, and the status differs from the mismatch status. -/
theorem messageAuthenticatorCalc_mismatch_status_witness :
    ((messageAuthenticatorCalc exampleEnv (examplePacket (List.replicate 16 1))
        (ascii "secret")).1.2.1 = false ∧
      (messageAuthenticatorCalc exampleEnv (examplePacket (List.replicate 16 1))
        (ascii "secret")).1.2.2
        = ⟨true, ascii "AVP Message-Authenticator not found.", none⟩) ∧
    (messageAuthenticatorCalc exampleEnv (examplePacket (List.replicate 16 1))
        (ascii "secret")).1.2.2
      ≠ ⟨true, ascii "Message-Authenticator not matched.",
          some (.msg "invalid message authenticator")⟩ :=
  ⟨messageAuthenticatorCalc_mismatch_status exampleEnv (examplePacket (List.replicate 16 1))
    (ascii "secret") (List.replicate 16 1) exampleBytes (by decide) (by decide) (by decide),
   by decide⟩

/-- C8: whenever the handler returns having called `w.Write` with a packet `p`,
the packet `p` with attribute 80 set to sixteen zero bytes serializes, to
`chBytes` say, and the Message-Authenticator of `p` is
`hmacMD5 sharedSecret chBytes`. -/
theorem handler_reply_message_authenticator (env : Env) (cfg : Config) (fuel : Nat) (t : Table)
    (r : Request) (res : HandlerResult) (p : Packet)
    (hrun : handler env cfg fuel t r = .ret res) (hw : res.written = some p) :
    ∃ chBytes,
      MarshalBinary { p with Attributes := AttributesSet p.Attributes 80 msgAuthOverwriteZero }
        = .ok chBytes ∧
      AttributesLookup p.Attributes 80 = some (env.hmacMD5 cfg.sharedSecret chBytes) := by
  unfold handler at hrun
  simp only [Run.bind_eq_ret] at hrun
  obtain ⟨h3, -, h4, -, hwc⟩ := hrun
  obtain ⟨hd, hp⟩ := write_inv env cfg _ res p hwc hw
  exact finalize_signed env cfg h4 p hd hp

/-- Witness of C8: the reply to the example request. -/
theorem handler_reply_message_authenticator_witness :
    handler exampleEnv exampleConfig 0 [] exampleRequest = .ret exampleResult ∧
    exampleResult.written = some exampleReply ∧
    ∃ chBytes,
      MarshalBinary { exampleReply with
          Attributes := AttributesSet exampleReply.Attributes 80 msgAuthOverwriteZero }
        = .ok chBytes ∧
      AttributesLookup exampleReply.Attributes 80
        = some (exampleEnv.hmacMD5 exampleConfig.sharedSecret chBytes) :=
  ⟨by decide, by decide,
   handler_reply_message_authenticator exampleEnv exampleConfig 0 [] exampleRequest
    exampleResult exampleReply (by decide) (by decide)⟩

/-- C9 (fails on the code): whenever the handler returns having called `w.Write`
with a packet `p`, the Proxy-State values of `p` are those of the request in the
order in which Go ranges over the map `attr33`, which is not the order of the
request in general. -/
theorem handler_reply_proxy_state (env : Env) (cfg : Config) (fuel : Nat) (t : Table)
    (r : Request) (res : HandlerResult) (p : Packet)
    (hrun : handler env cfg fuel t r = .ret res) (hw : res.written = some p) :
    proxyStateValues p = mapRange env.mapSeed (proxyStateValues r.Packet) := by
  rw [handler_eq] at hrun
  simp only [Run.bind_eq_ret] at hrun
  obtain ⟨h3, hx, h4, hdp, hwc⟩ := hrun
  obtain ⟨hd, hp⟩ := write_inv env cfg _ res p hwc hw
  obtain ⟨rp, hrp, hval⟩ := finalize_proxyState env cfg h4 p hd hp
  have hx' := (Run.sat_iff _ _).mp (eapExtract_kept env cfg r _) h3 hx
  obtain ⟨h33, h33e, hnone, hdisc⟩ := hx'
  by_cases hs : (Cut r.RemoteAddr (ascii ":")).1 ≠ cfg.allowedClientAddr
  · -- the request is discarded at the source check: nothing is written
    have hs1 : (proxyStateCapture (sourceCheck cfg r
        (HandlerState.init t r))).reqReceivedStatus.discardFlag = true := by
      simp [proxyStateCapture, sourceCheck, HandlerState.init, hs]
    have hs2 : (proxyStateCapture (sourceCheck cfg r
        (HandlerState.init t r))).responsePacket = none := by
      simp [proxyStateCapture, sourceCheck, HandlerState.init, hs]
    have e3 := hdisc hs1
    rw [e3, dispatch_discarded _ _ _ _ hs1] at hdp
    cases hdp
    rw [hs2] at hrp
    cases hrp
  · have hs' : (Cut r.RemoteAddr (ascii ":")).1 = cfg.allowedClientAddr := not_not.mp hs
    have e2 : proxyStateCapture (sourceCheck cfg r (HandlerState.init t r))
        = { HandlerState.init t r with
            attr33 := (multiAttrGet r.Packet 33).1
            attr33Exist := (multiAttrGet r.Packet 33).2 } := by
      simp [proxyStateCapture, sourceCheck, HandlerState.init, hs']
    rw [e2] at h33 h33e hnone
    simp only [HandlerState.init] at h33 h33e hnone
    have hk := (Run.sat_iff _ _).mp (dispatch_kept env cfg fuel h3 hnone) h4 hdp
    obtain ⟨k33, k33e, knone⟩ := hk
    rw [hval, knone rp hrp, k33, k33e, h33, h33e, List.nil_append]
    obtain ⟨mv, mf⟩ := multiAttrGet_values r.Packet
    cases hex : (multiAttrGet r.Packet 33).2 with
    | true => simp [mapRange_map, mv]
    | false => simp [mf hex, mapRange_nil]

/-- Witness of C9: the example request carries the Proxy-State values "a", "b";
when the `range` starts at the second entry of the map the reply carries
"b", "a". -/
theorem handler_reply_proxy_state_witness :
    handler exampleEnv exampleConfig 0 [] exampleRequest = .ret exampleResult ∧
    exampleResult.written = some exampleReply ∧
    proxyStateValues exampleRequest.Packet = [[97], [98]] ∧
    proxyStateValues exampleReply = [[98], [97]] :=
  ⟨by decide, by decide, by decide,
   (handler_reply_proxy_state exampleEnv exampleConfig 0 [] exampleRequest exampleResult
      exampleReply (by decide) (by decide)).trans (by decide)⟩

/-- C10: for a request whose source host, the text of the remote address before
its first colon, differs from `allowedClientAddr`, the handler returns without a
call of `w.Write` and without a POST on N12, and leaves the session table as it
was, whatever the packet holds. -/
theorem handler_discards_other_source (env : Env) (cfg : Config) (fuel : Nat) (t : Table)
    (r : Request)
    (hsrc : (Cut r.RemoteAddr (ascii ":")).1 ≠ cfg.allowedClientAddr) :
    ∃ h, handler env cfg fuel t r = .ret h ∧ h.written = none ∧ h.sent = false ∧ h.n12 = []
      ∧ h.table = t ∧ h.reqReceivedStatus.discardFlag = true := by
  have h1 : (sourceCheck cfg r (HandlerState.init t r)).reqReceivedStatus.discardFlag = true := by
    simp [sourceCheck, HandlerState.init, hsrc]
  have h2 : (sourceCheck cfg r (HandlerState.init t r)).responsePacket = none := by
    simp [sourceCheck, HandlerState.init, hsrc]
  have h3 : (sourceCheck cfg r (HandlerState.init t r)).n12 = [] := by
    simp [sourceCheck, HandlerState.init, hsrc]
  have h4 : (sourceCheck cfg r (HandlerState.init t r)).table = t := by
    simp [sourceCheck, HandlerState.init, hsrc]
  rw [handler_eq]
  generalize sourceCheck cfg r (HandlerState.init t r) = s at h1 h2 h3 h4
  refine ⟨{ s with written := none, sent := false }, ?_, rfl, rfl, h3, h4, h1⟩
  simp [proxyStateCapture, eapExtract, h1, dispatch, finalizeReply, h2, writeAndCommit, bind, Run.bind]

/-- Witness of C10: the example request sent from 10.0.0.2. -/
theorem handler_discards_other_source_witness :
    (Cut exampleRequestOtherSource.RemoteAddr (ascii ":")).1 = ascii "10.0.0.2" ∧
    ∃ h, handler exampleEnv exampleConfig 0 [] exampleRequestOtherSource = .ret h
      ∧ h.written = none ∧ h.sent = false ∧ h.n12 = [] ∧ h.table = []
      ∧ h.reqReceivedStatus.discardFlag = true :=
  ⟨by decide,
   handler_discards_other_source exampleEnv exampleConfig 0 [] exampleRequestOtherSource
    (by decide)⟩

/-- C11: for a request whose packet with attribute 80 zeroed serializes to `chBytes`
and whose Message-Authenticator is absent or is not `hmacMD5 sharedSecret chBytes`
(a MAC of 16 bytes), the handler returns without a call of `w.Write` and without a
POST on N12, the EAP packet of the handler is still the empty `new(layers.EAP)`
(the decoder was not run), the discard flag is set and the session table is as it
was; this holds whatever EAP-Message the request carries and whatever its source. -/
theorem handler_discards_bad_message_authenticator (env : Env) (cfg : Config) (fuel : Nat)
    (t : Table) (r : Request) (chBytes : Bytes)
    (hm : MarshalBinary
      { r.Packet with Attributes := AttributesSet r.Packet.Attributes 80 msgAuthOverwriteZero }
        = .ok chBytes)
    (hlen : (env.hmacMD5 cfg.sharedSecret chBytes).length = 16)
    (hbad : AttributesLookup r.Packet.Attributes 80
      ≠ some (env.hmacMD5 cfg.sharedSecret chBytes)) :
    ∃ res, handler env cfg fuel t r = .ret res ∧ res.written = none ∧ res.sent = false
      ∧ res.n12 = [] ∧ res.eapPacket = EAP.zero ∧ res.reqReceivedStatus.discardFlag = true
      ∧ res.table = t := by
  rw [handler_eq]
  have hres := mac_flag_false env r.Packet cfg.sharedSecret chBytes hm hlen hbad
  obtain ⟨e1, e2, e3, e4, e5⟩ := preamble_fields cfg t r
  generalize proxyStateCapture (sourceCheck cfg r (HandlerState.init t r)) = s at e1 e2 e3 e4 e5
  rw [← e1] at hres
  obtain ⟨h', hx, hd, hrp, hn, ht, hz⟩ := eapExtract_rejected env cfg r s hres e2
  refine ⟨{ h' with written := none, sent := false }, ?_, rfl, rfl, by rw [← e4, ← hn],
    hz, hd, by rw [← e5, ← ht]⟩
  rw [hx]
  simp [dispatch, hd, finalizeReply, hrp, e3, writeAndCommit, bind, Run.bind]

/-- Witness of C11: the example request from the allowed client, with its
EAP-Message and sixteen bytes 0x01 as Message-Authenticator. -/
theorem handler_discards_bad_message_authenticator_witness :
    AttributesLookup exampleRequestBadMAC.Packet.Attributes 79 = some [2, 7, 0, 6, 1, 57] ∧
    (Cut exampleRequestBadMAC.RemoteAddr (ascii ":")).1 = exampleConfig.allowedClientAddr ∧
    ∃ res, handler exampleEnv exampleConfig 0 [] exampleRequestBadMAC = .ret res
      ∧ res.written = none ∧ res.sent = false
      ∧ res.n12 = [] ∧ res.eapPacket = EAP.zero ∧ res.reqReceivedStatus.discardFlag = true
      ∧ res.table = [] :=
  ⟨by decide, by decide,
   handler_discards_bad_message_authenticator exampleEnv exampleConfig 0 []
    exampleRequestBadMAC exampleBytes (by decide) (by decide) (by decide)⟩

/-- C12: on status 200 the shape is chosen by the substring tests in the order
`kSeaf`, `authResult`, `_links`. Whenever `authRespBodyDecode` returns without
error, the result string is the `kSeaf` field of the body decoded as EAP-Success
if the body contains `kSeaf` (whatever else it contains); else the `authResult`
field of the body decoded as EAP-Failure if it contains `authResult`; else the
`href` of the body decoded as continuation if it contains `_links`. A body with
none of the three gives the error "unknown response body". -/
theorem authRespBodyDecode_200_shape_order (env : Env) (respBodyStr : GoString) :
    (∀ eapPayload eapId resultStr,
      authRespBodyDecode env 200 respBodyStr = .ret (eapPayload, eapId, resultStr, none) →
      (Contains respBodyStr (ascii "kSeaf") = true →
        ∃ d, env.jsonEapSuccess respBodyStr = .ok d ∧ resultStr = d.KSeaf) ∧
      (Contains respBodyStr (ascii "kSeaf") = false →
        Contains respBodyStr (ascii "authResult") = true →
        ∃ d, env.jsonEapFailure respBodyStr = .ok d ∧ resultStr = d.AuthResult) ∧
      (Contains respBodyStr (ascii "kSeaf") = false →
        Contains respBodyStr (ascii "authResult") = false →
        Contains respBodyStr (ascii "_links") = true →
        ∃ d, env.jsonEapExchange respBodyStr = .ok d ∧ resultStr = d.Href)) ∧
    (Contains respBodyStr (ascii "kSeaf") = false →
      Contains respBodyStr (ascii "authResult") = false →
      Contains respBodyStr (ascii "_links") = false →
      authRespBodyDecode env 200 respBodyStr
        = .ret ([], 0, [], some (.msg "unknown response body"))) := by
  refine ⟨?_, ?_⟩
  · intro p id s hret
    refine ⟨?_, ?_, ?_⟩
    · intro hk
      simp only [authRespBodyDecode, if_true, hk] at hret
      cases hj : env.jsonEapSuccess respBodyStr with
      | error e => simp [hj] at hret
      | ok d =>
        simp only [hj] at hret
        exact ⟨d, rfl, decodeExchangeFields_ok _ _ _ _ _ hret⟩
    · intro hk ha
      simp only [authRespBodyDecode, if_true, hk, ha, Bool.false_eq_true, if_false] at hret
      cases hj : env.jsonEapFailure respBodyStr with
      | error e => simp [hj] at hret
      | ok d =>
        simp only [hj] at hret
        exact ⟨d, rfl, decodeExchangeFields_ok _ _ _ _ _ hret⟩
    · intro hk ha hl
      simp only [authRespBodyDecode, if_true, hk, ha, hl, Bool.false_eq_true, if_false] at hret
      cases hj : env.jsonEapExchange respBodyStr with
      | error e => simp [hj] at hret
      | ok d =>
        simp only [hj] at hret
        exact ⟨d, rfl, decodeExchangeFields_ok _ _ _ _ _ hret⟩
  · intro hk ha hl
    simp [authRespBodyDecode, hk, ha, hl]

/-- Witness of C12: a body that contains all three words is decoded as EAP-Success
and the result string is its `kSeaf`. -/
theorem authRespBodyDecode_200_shape_order_witness :
    Contains (ascii "kSeaf authResult _links") (ascii "authResult") = true ∧
    Contains (ascii "kSeaf authResult _links") (ascii "_links") = true ∧
    authRespBodyDecode exampleEnvExchange 200 (ascii "kSeaf authResult _links")
      = .ret ([1, 9, 0, 6, 50, 1], 9, ascii "kseaf-value", none) ∧
    ∃ d, exampleEnvExchange.jsonEapSuccess (ascii "kSeaf authResult _links") = .ok d ∧
      ascii "kseaf-value" = d.KSeaf :=
  ⟨by decide, by decide, by decide,
   ((authRespBodyDecode_200_shape_order exampleEnvExchange (ascii "kSeaf authResult _links")).1
      [1, 9, 0, 6, 50, 1] 9 (ascii "kseaf-value") (by decide)).1 (by decide)⟩

/-- C13: for every status code other than 200 and 201 and every body,
`authRespBodyDecode` returns the body as the result string, with an empty payload,
the EAP-Id 0 and no error. -/
theorem authRespBodyDecode_other_status (env : Env) (stCode : Nat) (respBodyStr : GoString)
    (h200 : stCode ≠ 200) (h201 : stCode ≠ 201) :
    authRespBodyDecode env stCode respBodyStr = .ret ([], 0, respBodyStr, none) := by
  simp [authRespBodyDecode, h200, h201]

/-- Witness of C13: status 404. -/
theorem authRespBodyDecode_other_status_witness :
    authRespBodyDecode exampleEnv 404 (ascii "not found")
      = .ret ([], 0, ascii "not found", none) :=
  authRespBodyDecode_other_status exampleEnv 404 (ascii "not found") (by decide) (by decide)

/-- C14 (fails on the code): on status 200, for a body with `kSeaf` whose
`eapPayload` field is empty or missing, and on status 201 for a body whose
`5gAuthData` is empty or missing, `authRespBodyDecode` neither returns an error nor
a payload: the read of byte 1 of the empty decoded payload panics. -/
theorem authRespBodyDecode_panics_on_empty_payload (env : Env) (respBodyStr : GoString) :
    (∀ d, Contains respBodyStr (ascii "kSeaf") = true →
      env.jsonEapSuccess respBodyStr = .ok d → d.EapPayload = [] →
      authRespBodyDecode env 200 respBodyStr = .panic "index out of range") ∧
    (∀ d, env.jsonAuthRespFirst respBodyStr = .ok d → d.FiveGAuthData = [] →
      authRespBodyDecode env 201 respBodyStr = .panic "index out of range") := by
  refine ⟨?_, ?_⟩
  · intro d hk hj he
    simp only [authRespBodyDecode, if_true, hk, hj, he]
    rfl
  · intro d hj he
    simp only [authRespBodyDecode, hj, he]
    rfl

/-- Witness of C14: the AUSF of `exampleEnvEmptyPayload`. -/
theorem authRespBodyDecode_panics_on_empty_payload_witness :
    authRespBodyDecode exampleEnvEmptyPayload 200 (ascii "kSeaf") = .panic "index out of range" ∧
    authRespBodyDecode exampleEnvEmptyPayload 201 [] = .panic "index out of range" :=
  ⟨(authRespBodyDecode_panics_on_empty_payload exampleEnvEmptyPayload (ascii "kSeaf")).1
      ⟨[], ascii "kseaf-value"⟩ (by decide) (by rfl) (by rfl),
   (authRespBodyDecode_panics_on_empty_payload exampleEnvEmptyPayload []).2
      ⟨ascii "EAP_AKA_PRIME", [], ascii "http://1.2.3.4:9/x", []⟩ (by rfl) (by rfl)⟩

/-- C15: with `overwriteLinkString` on, for every URI `http://` ++ authority ++ `/`
++ path whose authority holds no `/`, `eapIdTableStore` stores
`http://` ++ ausfAddress ++ `/` ++ path under the id, without error, and a load of
the id returns it. -/
theorem eapIdTableStore_rewrites_authority (cfg : Config) (t : Table) (eapid : Nat)
    (authority path : GoString)
    (hflag : cfg.overwriteLinkString = true)
    (hauth : ∀ c ∈ authority, c ≠ 47) :
    eapIdTableStore cfg t eapid (.str (ascii "http://" ++ authority ++ ascii "/" ++ path))
      = (t.Store eapid (ascii "http://" ++ cfg.n12AUSFaddress ++ ascii "/" ++ path), none) ∧
    eapIdTableLoad
      (eapIdTableStore cfg t eapid (.str (ascii "http://" ++ authority ++ ascii "/" ++ path))).1
      eapid
      = (ascii "http://" ++ cfg.n12AUSFaddress ++ ascii "/" ++ path, true) := by
  have hs : ascii "/" = [47] := by decide
  have h1 : eapIdTableStore cfg t eapid
      (.str (ascii "http://" ++ authority ++ ascii "/" ++ path))
      = (t.Store eapid (ascii "http://" ++ cfg.n12AUSFaddress ++ ascii "/" ++ path), none) := by
    simp only [eapIdTableStore, hflag, if_true, List.append_assoc, CutPrefix_append]
    rw [hs]
    simp only [List.singleton_append, Cut_of_no_sep authority path 47 hauth]
  refine ⟨h1, ?_⟩
  rw [h1, eapIdTableLoad_eq, Table.Load_Store_self]
  rfl

/-- Witness of C15: with the AUSF 10.0.0.1:8080 the URI
`http://1.2.3.4:9/nausf-auth/v1/ue-authentications/abc/eap-session` is bound as
`http://10.0.0.1:8080/nausf-auth/v1/ue-authentications/abc/eap-session`. -/
theorem eapIdTableStore_rewrites_authority_witness :
    ascii "http://" ++ ascii "1.2.3.4:9" ++ ascii "/"
        ++ ascii "nausf-auth/v1/ue-authentications/abc/eap-session"
      = ascii "http://1.2.3.4:9/nausf-auth/v1/ue-authentications/abc/eap-session" ∧
    ascii "http://" ++ exampleConfigRewrite.n12AUSFaddress ++ ascii "/"
        ++ ascii "nausf-auth/v1/ue-authentications/abc/eap-session"
      = ascii "http://10.0.0.1:8080/nausf-auth/v1/ue-authentications/abc/eap-session" ∧
    eapIdTableLoad
      (eapIdTableStore exampleConfigRewrite exampleTable 7
        (.str (ascii "http://" ++ ascii "1.2.3.4:9" ++ ascii "/"
          ++ ascii "nausf-auth/v1/ue-authentications/abc/eap-session"))).1 7
      = (ascii "http://" ++ exampleConfigRewrite.n12AUSFaddress ++ ascii "/"
          ++ ascii "nausf-auth/v1/ue-authentications/abc/eap-session", true) :=
  ⟨by decide, by decide,
   (eapIdTableStore_rewrites_authority exampleConfigRewrite exampleTable 7 (ascii "1.2.3.4:9")
      (ascii "nausf-auth/v1/ue-authentications/abc/eap-session") (by rfl) (by decide)).2⟩

/-- C16 (fails on the code): with `overwriteLinkString` on and the AUSF address
`10.0.0.1:8080`, `eapIdTableStore` of the URI `https://1.2.3.4:9/abc`, which does
not begin with `http://`, returns no error and binds the id to
`http://10.0.0.1:8080//1.2.3.4:9/abc`, not to the URI unchanged: the found flag of
`strings.CutPrefix` is dropped, `strings.Cut` splits at the first slash of
`https://`, and the old authority stays in the path. -/
theorem eapIdTableStore_https_not_verbatim :
    HasPrefix (ascii "https://1.2.3.4:9/abc") (ascii "http://") = false ∧
    eapIdTableStore exampleConfigRewrite [] 7 (.str (ascii "https://1.2.3.4:9/abc"))
      = ([(7, ascii "http://10.0.0.1:8080//1.2.3.4:9/abc")], none) ∧
    eapIdTableLoad
      (eapIdTableStore exampleConfigRewrite [] 7 (.str (ascii "https://1.2.3.4:9/abc"))).1 7
      = (ascii "http://10.0.0.1:8080//1.2.3.4:9/abc", true) ∧
    eapIdTableLoad
      (eapIdTableStore exampleConfigRewrite [] 7 (.str (ascii "https://1.2.3.4:9/abc"))).1 7
      ≠ (ascii "https://1.2.3.4:9/abc", true) := by
  decide

/-- The defect of C16 for every string: with `overwriteLinkString` on, the code
rewrites a string that does not begin with `http://` as well. The id is bound to
`http://` ++ ausfAddress ++ `/` ++ rest, where rest is what follows the first `/` of
the string (nothing when it has none), and that value is never the string
itself, so no such URI is stored unchanged. -/
theorem eapIdTableStore_rewrites_any_uri (cfg : Config) (t : Table) (eapid : Nat)
    (uri : GoString)
    (hflag : cfg.overwriteLinkString = true)
    (hnot : HasPrefix uri (ascii "http://") = false) :
    eapIdTableLoad (eapIdTableStore cfg t eapid (.str uri)).1 eapid
      = (ascii "http://" ++ cfg.n12AUSFaddress ++ ascii "/" ++ (Cut uri (ascii "/")).2.1, true) ∧
    (eapIdTableLoad (eapIdTableStore cfg t eapid (.str uri)).1 eapid).1 ≠ uri := by
  have h1 : eapIdTableLoad (eapIdTableStore cfg t eapid (.str uri)).1 eapid
      = (ascii "http://" ++ cfg.n12AUSFaddress ++ ascii "/" ++ (Cut uri (ascii "/")).2.1, true) := by
    simp only [eapIdTableStore, hflag, if_true, CutPrefix, hnot, Bool.false_eq_true, if_false]
    rw [eapIdTableLoad_eq, Table.Load_Store_self]
    rfl
  refine ⟨h1, ?_⟩
  rw [h1]
  intro heq
  have : HasPrefix uri (ascii "http://") = true := by
    rw [HasPrefix_iff]
    exact ⟨cfg.n12AUSFaddress ++ ascii "/" ++ (Cut uri (ascii "/")).2.1, by
      simpa [List.append_assoc] using heq⟩
  rw [hnot] at this
  exact absurd this (by simp)

/-- The general form of the defect of C16 at `https://1.2.3.4:9/abc`, which is bound
as `http://10.0.0.1:8080//1.2.3.4:9/abc`. -/
theorem eapIdTableStore_rewrites_any_uri_witness :
    ascii "http://" ++ exampleConfigRewrite.n12AUSFaddress ++ ascii "/"
        ++ (Cut (ascii "https://1.2.3.4:9/abc") (ascii "/")).2.1
      = ascii "http://10.0.0.1:8080//1.2.3.4:9/abc" ∧
    eapIdTableLoad
      (eapIdTableStore exampleConfigRewrite [] 7 (.str (ascii "https://1.2.3.4:9/abc"))).1 7
      = (ascii "http://" ++ exampleConfigRewrite.n12AUSFaddress ++ ascii "/"
          ++ (Cut (ascii "https://1.2.3.4:9/abc") (ascii "/")).2.1, true) :=
  ⟨by decide,
   (eapIdTableStore_rewrites_any_uri exampleConfigRewrite [] 7 (ascii "https://1.2.3.4:9/abc")
      (by rfl) (by decide)).1⟩

/-- C17: with `overwriteLinkString` off, for every table, id and string,
`eapIdTableStore` returns no error, a following `eapIdTableLoad` of the id returns
the string and found, whatever the id was bound to, and the loads of every other
id are as before. -/
theorem eapIdTableStore_verbatim_load (cfg : Config) (t : Table) (eapid : Nat) (uri : GoString)
    (hflag : cfg.overwriteLinkString = false) :
    (eapIdTableStore cfg t eapid (.str uri)).2 = none ∧
    eapIdTableLoad (eapIdTableStore cfg t eapid (.str uri)).1 eapid = (uri, true) ∧
    ∀ other, other ≠ eapid →
      eapIdTableLoad (eapIdTableStore cfg t eapid (.str uri)).1 other = eapIdTableLoad t other := by
  have hs : eapIdTableStore cfg t eapid (.str uri) = (t.Store eapid uri, none) := by
    simp [eapIdTableStore, hflag]
  rw [hs]
  refine ⟨rfl, ?_, ?_⟩
  · rw [eapIdTableLoad_eq, Table.Load_Store_self]
    rfl
  · intro other ho
    rw [eapIdTableLoad_eq, eapIdTableLoad_eq, Table.Load_Store_other _ _ _ _ ho]

/-- Witness of C17: the id 7 of the example table is bound anew. -/
theorem eapIdTableStore_verbatim_load_witness :
    eapIdTableLoad exampleTable 7 = (ascii "http://old/7", true) ∧
    (eapIdTableStore exampleConfigVerbatim exampleTable 7 (.str (ascii "https://new/7"))).2 = none ∧
    eapIdTableLoad
      (eapIdTableStore exampleConfigVerbatim exampleTable 7 (.str (ascii "https://new/7"))).1 7
      = (ascii "https://new/7", true) :=
  ⟨by decide,
   (eapIdTableStore_verbatim_load exampleConfigVerbatim exampleTable 7 (ascii "https://new/7")
      (by rfl)).1,
   (eapIdTableStore_verbatim_load exampleConfigVerbatim exampleTable 7 (ascii "https://new/7")
      (by rfl)).2.1⟩

/-- C18: `eapIdTableDelete` is idempotent: deleting an id twice gives the table of
deleting it once; after the delete a load of the id reports not found; and the
load of every other id is as before the delete. -/
theorem eapIdTableDelete_idempotent (t : Table) (eapid : Nat) :
    eapIdTableDelete (eapIdTableDelete t eapid) eapid = eapIdTableDelete t eapid ∧
    eapIdTableLoad (eapIdTableDelete t eapid) eapid = ([], false) ∧
    ∀ other, other ≠ eapid →
      eapIdTableLoad (eapIdTableDelete t eapid) other = eapIdTableLoad t other := by
  refine ⟨Table.Delete_Delete t eapid, ?_, ?_⟩
  · rw [eapIdTableLoad_eq]
    simp [eapIdTableDelete, Table.Load_Delete_self]
  · intro other ho
    rw [eapIdTableLoad_eq, eapIdTableLoad_eq]
    simp [eapIdTableDelete, Table.Load_Delete_other _ _ _ ho]

/-- C19: the map `multiAttrGet` returns has exactly the entries (0, v0), (1, v1),
..., where v0, v1, ... are the values of the attributes of type `t` in the order
of the packet; so key `i` holds the value of the i-th such attribute and no other
key is bound; and the flag is true exactly when the packet has an attribute of
type `t`. -/
theorem multiAttrGet_spec (rp : Packet) (t : Nat) :
    (multiAttrGet rp t).1
      = List.enum ((rp.Attributes.filter (fun avp => avp.AttrType == t)).map
          (fun avp => avp.Attribute)) ∧
    (∀ i, ((multiAttrGet rp t).1.lookup i)
      = ((rp.Attributes.filter (fun avp => avp.AttrType == t)).map
          (fun avp => avp.Attribute))[i]?) ∧
    ((multiAttrGet rp t).2 = true ↔ ∃ avp ∈ rp.Attributes, avp.AttrType = t) := by
  have h1 : (multiAttrGet rp t).1
      = List.enum ((rp.Attributes.filter (fun avp => avp.AttrType == t)).map
          (fun avp => avp.Attribute)) := by
    simp [multiAttrGet, multiAttrGetLoop_enum, List.enum]
  refine ⟨h1, ?_, ?_⟩
  · intro i
    rw [h1, List.enum, lookup_enumFrom]
    simp
  · simp only [multiAttrGet, multiAttrGetLoop_enum, List.nil_append, List.enumFrom_length,
      List.length_map, gt_iff_lt, decide_eq_true_eq, List.length_pos]
    constructor
    · intro hne
      obtain ⟨avp, hmem⟩ := List.exists_mem_of_ne_nil _ hne
      rw [List.mem_filter] at hmem
      exact ⟨avp, hmem.1, by simpa using hmem.2⟩
    · rintro ⟨avp, hmem, ht⟩
      exact List.ne_nil_of_mem (List.mem_filter.mpr ⟨hmem, by simpa using ht⟩)

/-- C20: for an EAP message whose byte 1 is an EAP-Id without binding in the
session table, `authReqExchange` returns the error "eap id not found" with status 0
and an empty body, and hands no POST to `client.Do`; `http.NewRequestWithContext`
accepts the empty URL, which is what the failed load leaves as the URL. -/
theorem authReqExchange_unknown_id (env : Env) (t : Table) (eapContents : Bytes) (eapId : Nat)
    (hid : eapContents[1]? = some eapId)
    (hnone : (eapIdTableLoad t eapId).2 = false)
    (hurl : env.newRequestErr [] = none) :
    authReqExchange env t eapContents
      = .ret ((0, [], some (.msg "eap id not found")), []) := by
  have hl : eapIdTableLoad t eapId = ([], false) := by
    rw [eapIdTableLoad_eq] at hnone ⊢
    cases h : t.Load eapId with
    | none => rfl
    | some v => simp [h] at hnone
  simp [authReqExchange, index, hid, hl, hurl, bind, Run.bind, pure]

/-- Witness of C20: an AKA-Challenge response with the EAP-Id 8, which the example
table does not bind. -/
theorem authReqExchange_unknown_id_witness :
    eapIdTableLoad exampleTable 8 = ([], false) ∧
    authReqExchange exampleEnv exampleTable [2, 8, 0, 6, 50, 1]
      = .ret ((0, [], some (.msg "eap id not found")), []) :=
  ⟨by decide,
   authReqExchange_unknown_id exampleEnv exampleTable [2, 8, 0, 6, 50, 1] 8
    (by rfl) (by decide) (by rfl)⟩

/-- C21 as stated is false: a verified EAP-Identity request whose parsed identity
prefix is 235 bytes "9" (none of "6", "7", "8") is discarded by the handler, which
writes no reply; the reason is "Failed to add Reply-Message.". -/
theorem handler_discards_long_unknown_identity :
    Verified exampleEnv exampleConfig [] (exampleRequestEap exampleLongIdentity)
      (exampleVerified [] exampleLongIdentity) ∧
    (exampleVerified [] exampleLongIdentity).eapPacket.EapType = 1 ∧
    (eapIdentityByteToString (exampleVerified [] exampleLongIdentity).eapPacket).identityPrefix
      = List.replicate 235 57 ∧
    handler exampleEnv exampleConfig 300 [] (exampleRequestEap exampleLongIdentity)
      = .ret (exampleOutcome exampleEnv [] exampleLongIdentity) ∧
    (exampleOutcome exampleEnv [] exampleLongIdentity).written = none ∧
    (exampleOutcome exampleEnv [] exampleLongIdentity).reqReceivedStatus
      = ⟨true, ascii "Failed to add Reply-Message.", some .stringTooLong⟩ := by
  decide
/-- C21 as amended: for a verified EAP-Identity request whose parsed identity prefix
is none of "6", "7", "8" the handler makes no N12 call and leaves the session
table as it was. With a prefix of at most 234 bytes it builds an Access-Reject whose
Reply-Message is "Unknown identity : " followed by the prefix, and writes it
(unless the reply with the echoed Proxy-State values does not serialize). With a
longer prefix the Reply-Message would exceed 253 bytes, `ReplyMessage_AddString`
fails, and the request is discarded without a reply. -/
theorem handler_rejects_unknown_identity (env : Env) (cfg : Config) (fuel : Nat) (t : Table)
    (r : Request) (h : HandlerState) (hv : Verified env cfg t r h)
    (hty : h.eapPacket.EapType = 1)
    (h6 : (eapIdentityByteToString h.eapPacket).identityPrefix ≠ ascii "6")
    (h7 : (eapIdentityByteToString h.eapPacket).identityPrefix ≠ ascii "7")
    (h8 : (eapIdentityByteToString h.eapPacket).identityPrefix ≠ ascii "8") :
    ∃ res, handler env cfg fuel t r = .ret res ∧ res.n12 = [] ∧ res.table = t ∧
      ((eapIdentityByteToString h.eapPacket).identityPrefix.length ≤ 234 →
        ∃ p, res.responsePacket = some p ∧ p.Code = CodeAccessReject ∧
          AttributesLookup p.Attributes 18
            = some (ascii "Unknown identity : "
                ++ (eapIdentityByteToString h.eapPacket).identityPrefix) ∧
          ((Serializes p ∧ res.written = some p) ∨ (¬ Serializes p ∧ res.written = none))) ∧
      (234 < (eapIdentityByteToString h.eapPacket).identityPrefix.length →
        res.written = none ∧ res.reqReceivedStatus.discardFlag = true) := by
  obtain ⟨f1, f2, f3, f4, f5⟩ := verified_fields env cfg t r h hv
  have hdp := dispatch_unknown_identity env cfg fuel h hv.2 hty h6 h7 h8
  by_cases hlen : (eapIdentityByteToString h.eapPacket).identityPrefix.length ≤ 234
  · rw [if_pos hlen] at hdp
    obtain ⟨res, p, hres, hp, hc, hk, hn, -, -, -, hcase⟩ :=
      handler_reply env cfg fuel t r h _ _ hv hdp hv.2 rfl
    refine ⟨res, hres, hn.trans f2, ?_, fun _ => ⟨p, hp, hc, ?_, ?_⟩, fun hgt => by omega⟩
    · rcases hcase with ⟨-, -, -, -, ht⟩ | ⟨-, -, -, -, ht⟩
      · rw [ht]
        simp [f4, f3]
      · exact ht.trans f3
    · rw [hk 18 (by decide) (by decide)]
      rfl
    · rcases hcase with ⟨hs, hw, -⟩ | ⟨hs, hw, -⟩
      · exact Or.inl ⟨hs, hw⟩
      · exact Or.inr ⟨hs, hw⟩
  · rw [if_neg hlen] at hdp
    obtain ⟨res, hres, hw, -, ht, hn, hdis, -⟩ := handler_discard env cfg fuel t r h _ hv hdp rfl
    exact ⟨res, hres, hn.trans f2, ht.trans f3, fun hle => absurd hle hlen, fun _ => ⟨hw, hdis⟩⟩

/-- Witness of C21 as amended: the example request with the identity "9" is
answered with an Access-Reject whose Reply-Message is "Unknown identity : 9". -/
theorem handler_rejects_unknown_identity_witness :
    (exampleOutcome exampleEnv [] [2, 7, 0, 6, 1, 57]).written
      = (exampleOutcome exampleEnv [] [2, 7, 0, 6, 1, 57]).responsePacket ∧
    (((exampleOutcome exampleEnv [] [2, 7, 0, 6, 1, 57]).written.map
        (fun p => (p.Code, AttributesLookup p.Attributes 18)))
      = some (CodeAccessReject, some (ascii "Unknown identity : 9"))) ∧
    ∃ res, handler exampleEnv exampleConfig 300 [] (exampleRequestEap [2, 7, 0, 6, 1, 57]) = .ret res
      ∧ res.n12 = [] ∧ res.table = [] ∧
      ((eapIdentityByteToString
          (exampleVerified [] [2, 7, 0, 6, 1, 57]).eapPacket).identityPrefix.length ≤ 234 →
        ∃ p, res.responsePacket = some p ∧ p.Code = CodeAccessReject ∧
          AttributesLookup p.Attributes 18
            = some (ascii "Unknown identity : "
                ++ (eapIdentityByteToString
                  (exampleVerified [] [2, 7, 0, 6, 1, 57]).eapPacket).identityPrefix) ∧
          ((Serializes p ∧ res.written = some p) ∨ (¬ Serializes p ∧ res.written = none))) ∧
      (234 < (eapIdentityByteToString
          (exampleVerified [] [2, 7, 0, 6, 1, 57]).eapPacket).identityPrefix.length →
        res.written = none ∧ res.reqReceivedStatus.discardFlag = true) :=
  ⟨by decide, by decide,
   handler_rejects_unknown_identity exampleEnv exampleConfig 300 []
    (exampleRequestEap [2, 7, 0, 6, 1, 57]) (exampleVerified [] [2, 7, 0, 6, 1, 57])
    (by decide) (by decide) (by decide) (by decide) (by decide)⟩

/-- C22 (fails on the code): for a verified request with EAP Type 50 and subtype 1
whose exchange the AUSF answers with status 200 and a body that decodes without
error to a payload with EAP code 3 (Success) and a `kSeaf` string shorter than 64
bytes (the spare capacity of `[]byte(kSeaf)` included), the handler does not write
an Access-Accept: the slice expression `[]byte(exchResultStr)[32:64]` of line 238
panics. -/
theorem handler_panics_on_short_kSeaf (env : Env) (cfg : Config) (fuel : Nat) (t : Table)
    (r : Request) (h : HandlerState) (body : GoString) (calls : List N12Request)
    (payload : Bytes) (id : Byte) (kSeaf : GoString)
    (hv : Verified env cfg t r h) (hty : h.eapPacket.EapType = 50)
    (hsub : h.eapPacket.TypeData[0]? = some 1)
    (hreq : authReqExchange env t h.eapPacket.Contents = .ret ((200, body, none), calls))
    (hdec : authRespBodyDecode env 200 body = .ret (payload, id, kSeaf, none))
    (h0 : payload[0]? = some 3)
    (hshort : kSeaf.length + env.byteSliceSpare 1 kSeaf.length < 64) :
    handler env cfg fuel t r = .panic "slice bounds out of range" := by
  obtain ⟨-, -, f3, -, -⟩ := verified_fields env cfg t r h hv
  rw [← f3] at hreq
  rw [handler_of_verified env cfg fuel t r h hv, dispatch_aka env cfg fuel h hv.2 hty,
    dispatchAka_subtype1 env cfg h hsub,
    akaChallenge_short_kSeaf env h 200 body calls payload id kSeaf hreq hdec h0 hshort]
  rfl

/-- Witness of C22: the AKA'-Challenge response with EAP-Id 7, bound in the table;
the AUSF answers 200 with the payload `03 07 00 06 00 00` and the `kSeaf`
"kseaf-value" of 11 bytes. -/
theorem handler_panics_on_short_kSeaf_witness :
    encodeEapPayload [3, 7, 0, 6, 0, 0] = ascii "MDMwNzAwMDYwMDAw" ∧
    handler (exampleEnvSuccess (ascii "kseaf-value")) exampleConfig 300 exampleTable
        (exampleRequestEap exampleAkaChallengeResponse)
      = .panic "slice bounds out of range" :=
  ⟨by decide,
   handler_panics_on_short_kSeaf (exampleEnvSuccess (ascii "kseaf-value")) exampleConfig 300
    exampleTable (exampleRequestEap exampleAkaChallengeResponse)
    (exampleVerified exampleTable exampleAkaChallengeResponse)
    (ascii "\x7b\"eapPayload\":\"MDMwNzAwMDYwMDAw\",\"kSeaf\":\"kseaf-value\"\x7d")
    [⟨ascii "http://old/7", ascii "\x7b\"eapPayload\":\"MDIwNzAwMDgzMjAxMDAwMA==\"\x7d"⟩]
    [3, 7, 0, 6, 0, 0] 7 (ascii "kseaf-value")
    (by decide) (by decide) (by decide) (by decide) (by decide) (by decide) (by decide)⟩

/-- C23: for a verified request with EAP Type 50 and subtype 1, 2 or 4, whenever
the handler returns, the session table has no binding for the EAP-Id of the request,
unless the handler has written, without error, an Access-Challenge and has then
stored the captured URI under that same Id, in the table from which the old
binding was deleted. This covers the returns after an N12 error and after a
decoding error, where nothing is written. -/
theorem handler_deletes_request_binding (env : Env) (cfg : Config) (fuel : Nat) (t : Table)
    (r : Request) (h : HandlerState) (res : HandlerResult)
    (hv : Verified env cfg t r h) (hty : h.eapPacket.EapType = 50)
    (hsub : h.eapPacket.TypeData[0]? = some 1 ∨ h.eapPacket.TypeData[0]? = some 2
      ∨ h.eapPacket.TypeData[0]? = some 4)
    (hrun : handler env cfg fuel t r = .ret res) :
    (eapIdTableLoad res.table h.eapPacket.Id).2 = false ∨
    ∃ p, res.written = some p ∧ res.sent = true ∧ p.Code = CodeAccessChallenge ∧
      res.eapSessionInfoId = h.eapPacket.Id ∧ res.eapSessionInfoURI ≠ [] ∧
      res.table = (eapIdTableStore cfg (eapIdTableDelete t h.eapPacket.Id) h.eapPacket.Id
        (.str res.eapSessionInfoURI)).1 := by
  obtain ⟨f1, f2, f3, f4, f5⟩ := verified_fields env cfg t r h hv
  rw [handler_of_verified env cfg fuel t r h hv] at hrun
  obtain ⟨h', hdp, hwc⟩ := (Run.bind_eq_ret _ _ _).mp hrun
  have hset := (Run.sat_iff _ _).mp (dispatch_settled env cfg fuel h) h' hdp
  have hinv : h'.table = eapIdTableDelete h.table h.eapPacket.Id ∧
      (h'.eapSessionInfoURI = h.eapSessionInfoURI
        ∨ ∃ rp, h'.responsePacket = some rp ∧ rp.Code = CodeAccessChallenge) := by
    have hdp' := hdp
    rw [dispatch_aka env cfg fuel h hv.2 hty] at hdp'
    rcases hsub with hsub | hsub | hsub
    · rw [dispatchAka_subtype1 env cfg h hsub] at hdp'
      exact (Run.sat_iff _ _).mp (akaChallenge_deletes env h) h' hdp'
    · rw [dispatchAka_subtype2 env cfg h hsub] at hdp'
      exact (Run.sat_iff _ _).mp (akaAuthenticationReject_deletes env h) h' hdp'
    · rw [dispatchAka_subtype4 env cfg h hsub] at hdp'
      exact (Run.sat_iff _ _).mp (akaSynchronizationFailure_deletes env h) h' hdp'
  obtain ⟨htab, huri⟩ := hinv
  rw [f3] at htab
  rw [f4] at huri
  have hgone : (eapIdTableLoad h'.table h.eapPacket.Id).2 = false := by
    rw [eapIdTableLoad_not_found, htab]
    exact Table.Load_Delete_self t _
  cases hd : h'.reqReceivedStatus.discardFlag with
  | true =>
    obtain ⟨res', hres', -, -, ht, -⟩ := discard_outcome env cfg h' hd
    rw [hres'] at hwc
    injection hwc with hwc
    subst hwc
    rw [ht]
    exact Or.inl hgone
  | false =>
    obtain ⟨rp, hrp⟩ := hset hd
    obtain ⟨res', p, hres', -, hc, -, -, hid, hu, -, hcase⟩ := reply_outcome env cfg h' rp hd hrp
    rw [hres'] at hwc
    injection hwc with hwc
    subst hwc
    rcases hcase with ⟨-, hw, -, hsent, ht⟩ | ⟨-, -, -, -, ht⟩
    · by_cases hst : env.writeErr p = none ∧ h'.eapSessionInfoURI ≠ []
      · rw [if_pos hst] at ht
        by_cases hsame : h'.eapSessionInfoId = h.eapPacket.Id
        · refine Or.inr ⟨p, hw, by simp [hsent, hst.1], ?_, hid.trans hsame, by rw [hu]; exact hst.2,
            ?_⟩
          · rcases huri with hnil | ⟨rp', hrp', hc'⟩
            · exact absurd hnil hst.2
            · rw [hrp] at hrp'
              injection hrp' with hrp'
              subst hrp'
              exact hc.trans hc'
          · rw [ht, hsame, htab, hu]
        · left
          obtain ⟨v, hv'⟩ := eapIdTableStore_str cfg h'.table h'.eapSessionInfoId
            h'.eapSessionInfoURI
          rw [ht, hv', eapIdTableLoad_not_found,
            Table.Load_Store_other _ _ _ _ (Ne.symm hsame), htab]
          exact Table.Load_Delete_self t _
      · rw [if_neg hst] at ht
        rw [ht]
        exact Or.inl hgone
    · rw [ht]
      exact Or.inl hgone

/-- Witness of C23: the AKA'-Challenge response with EAP-Id 7 when the table binds
7 and 9 and the AUSF answers 200 with a continuation whose EAP-Id is 9: afterwards
the table binds 9 only, to the rewritten link. When the AUSF does not answer, the
request is discarded and the table binds 9 only, to the old link. -/
theorem handler_deletes_request_binding_witness :
    (exampleOutcome exampleEnvContinuation exampleTable exampleAkaChallengeResponse).table
      = [(9, ascii "http://10.0.0.9:8080/next")] ∧
    (exampleOutcome exampleEnvDown exampleTable exampleAkaChallengeResponse).written = none ∧
    (exampleOutcome exampleEnvDown exampleTable exampleAkaChallengeResponse).table
      = [(9, ascii "http://old/9")] ∧
    ((eapIdTableLoad
        (exampleOutcome exampleEnvContinuation exampleTable exampleAkaChallengeResponse).table
        (exampleVerified exampleTable exampleAkaChallengeResponse).eapPacket.Id).2 = false ∨
      ∃ p, (exampleOutcome exampleEnvContinuation exampleTable
          exampleAkaChallengeResponse).written = some p ∧
        (exampleOutcome exampleEnvContinuation exampleTable exampleAkaChallengeResponse).sent
          = true ∧
        p.Code = CodeAccessChallenge ∧
        (exampleOutcome exampleEnvContinuation exampleTable
          exampleAkaChallengeResponse).eapSessionInfoId
          = (exampleVerified exampleTable exampleAkaChallengeResponse).eapPacket.Id ∧
        (exampleOutcome exampleEnvContinuation exampleTable
          exampleAkaChallengeResponse).eapSessionInfoURI ≠ [] ∧
        (exampleOutcome exampleEnvContinuation exampleTable exampleAkaChallengeResponse).table
          = (eapIdTableStore exampleConfig
              (eapIdTableDelete exampleTable
                (exampleVerified exampleTable exampleAkaChallengeResponse).eapPacket.Id)
              (exampleVerified exampleTable exampleAkaChallengeResponse).eapPacket.Id
              (.str (exampleOutcome exampleEnvContinuation exampleTable
                exampleAkaChallengeResponse).eapSessionInfoURI)).1) :=
  ⟨by decide, by decide, by decide,
   handler_deletes_request_binding exampleEnvContinuation exampleConfig 300 exampleTable
    (exampleRequestEap exampleAkaChallengeResponse)
    (exampleVerified exampleTable exampleAkaChallengeResponse)
    (exampleOutcome exampleEnvContinuation exampleTable exampleAkaChallengeResponse)
    (by decide) (by decide) (by decide) (by decide)⟩

/-- C24 as stated is false: the AUSF answers the permanent identity with 201 and a
body without link; the handler writes the Access-Challenge with the payload
`01 02 00 06 32 01` without error, and afterwards `eapIdTableLoad` of the EAP-Id 2
of that payload returns not-found. -/
theorem handler_commits_nothing_for_empty_href :
    handler exampleEnvNoLink exampleConfig 300 []
        (exampleRequestEap (eapIdentityResponse examplePermanentIdentity))
      = .ret (exampleOutcome exampleEnvNoLink [] (eapIdentityResponse examplePermanentIdentity)) ∧
    (exampleOutcome exampleEnvNoLink [] (eapIdentityResponse examplePermanentIdentity)).sent
      = true ∧
    (((exampleOutcome exampleEnvNoLink [] (eapIdentityResponse examplePermanentIdentity)).written.map
        (fun p => (p.Code, AttributesLookup p.Attributes 79)))
      = some (CodeAccessChallenge, some [1, 2, 0, 6, 50, 1])) ∧
    eapIdTableLoad
        (exampleOutcome exampleEnvNoLink [] (eapIdentityResponse examplePermanentIdentity)).table 2
      = ([], false) := by
  decide

/-- C24 as amended: take a verified request on the 201 path (EAP-Identity with the
prefix "6", `authReqFirst` answered 201) or on a continuation path (EAP Type 50,
subtype 1 or 4, `authReqExchange` answered, decoded payload with EAP code 1), where
`authRespBodyDecode` returns the payload, its EAP-Id `id` and the link `href` of
the answer. Whenever the handler returns having written its reply without error,
the reply is an Access-Challenge whose EAP-Message is the payload, `id` is byte 1
of the payload, and, if `href` is not empty, `eapIdTableLoad id` returns found
with `href`, or with `href` rewritten by the store rule when `overwriteLinkString`
is on. With an empty `href` nothing is stored. -/
theorem handler_commits_href (env : Env) (cfg : Config) (fuel : Nat) (t : Table)
    (r : Request) (h : HandlerState) (res : HandlerResult) (st : Nat) (body : GoString)
    (calls : List N12Request) (payload : Bytes) (id : Byte) (href : GoString)
    (hv : Verified env cfg t r h)
    (hpath :
      (h.eapPacket.EapType = 1 ∧ (eapIdentityByteToString h.eapPacket).identityPrefix = ascii "6"
        ∧ st = 201 ∧ ∃ nwName,
          toNWNameForN12 (eapIdentityByteToString h.eapPacket).networkName = (nwName, none)
          ∧ authReqFirst env cfg (ascii "imsi-" ++ (eapIdentityByteToString h.eapPacket).imsi)
              nwName = ((st, body, none), calls))
      ∨ (h.eapPacket.EapType = 50
        ∧ (h.eapPacket.TypeData[0]? = some 1 ∨ h.eapPacket.TypeData[0]? = some 4)
        ∧ authReqExchange env t h.eapPacket.Contents = .ret ((st, body, none), calls)
        ∧ payload[0]? = some 1))
    (hdec : authRespBodyDecode env st body = .ret (payload, id, href, none))
    (hrun : handler env cfg fuel t r = .ret res) (hsent : res.sent = true) :
    ∃ p, res.written = some p ∧ p.Code = CodeAccessChallenge ∧
      AttributesLookup p.Attributes 79 = some payload ∧ payload[1]? = some id ∧
      (href ≠ [] →
        eapIdTableLoad res.table id
          = (if cfg.overwriteLinkString then
              ascii "http://" ++ cfg.n12AUSFaddress ++ ascii "/"
                ++ (Cut (CutPrefix href (ascii "http://")).1 (ascii "/")).2.1
            else href, true)) ∧
      (href = [] →
        res.table = if h.eapPacket.EapType = 1 then t else eapIdTableDelete t h.eapPacket.Id) := by
  obtain ⟨f1, f2, f3, f4, f5⟩ := verified_fields env cfg t r h hv
  rcases hpath with ⟨hty, h6, h201, nwName, hnw, hreq⟩ | ⟨hty, hsub, hreq, h0⟩
  · have hdp := dispatch_permanent env cfg fuel h nwName body href st calls payload id hv.2 hty h6
      hnw hreq hdec
    rw [if_pos h201] at hdp
    obtain ⟨p, hw, hc, h79, ht⟩ :=
      commit_after_challenge env cfg fuel t r h _ res payload hv hdp hv.2 rfl hrun hsent
    have hid := authRespBodyDecode_id env st body payload id href hdec (Or.inr (Or.inl h201))
    refine ⟨p, hw, hc, h79, hid, fun hne => ?_, fun he => ?_⟩
    · rw [ht]
      simp only [ne_eq, hne, not_false_eq_true, if_true]
      exact eapIdTableLoad_Store cfg _ id href
    · rw [ht]
      simp [he, hty, f3]
  · have hne : payload ≠ [] := by
      rintro rfl
      simp at h0
    have hid := authRespBodyDecode_id env st body payload id href hdec (Or.inr (Or.inr hne))
    rw [← f3] at hreq
    have hdp : dispatch env cfg fuel h
        = .ret { h with
            n12 := h.n12 ++ calls
            table := eapIdTableDelete h.table h.eapPacket.Id
            responsePacket := some (eapReply h CodeAccessChallenge payload)
            eapSessionInfoId := id
            eapSessionInfoURI := href } := by
      rw [dispatch_aka env cfg fuel h hv.2 hty]
      rcases hsub with hsub | hsub
      · rw [dispatchAka_subtype1 env cfg h hsub]
        exact akaChallenge_request env h st body calls payload id href hreq hdec h0
      · rw [dispatchAka_subtype4 env cfg h hsub]
        exact akaSynchronizationFailure_request env h st body calls payload id href hreq hdec h0
    obtain ⟨p, hw, hc, h79, ht⟩ :=
      commit_after_challenge env cfg fuel t r h _ res payload hv hdp hv.2 rfl hrun hsent
    refine ⟨p, hw, hc, h79, hid, fun hne' => ?_, fun he => ?_⟩
    · rw [ht]
      simp only [ne_eq, hne', not_false_eq_true, if_true]
      exact eapIdTableLoad_Store cfg _ id href
    · rw [ht]
      simp [he, hty, f3]

/-- Witness of C24 as amended: the AKA'-Challenge response with EAP-Id 7 when the
AUSF answers 200 with the continuation `01 09 00 06 32 01` and the link
`http://1.2.3.4:9/next`: the EAP-Id 9 is then bound to the rewritten link. On the
201 path of the worked example the EAP-Id 1 is bound to the rewritten link. -/
theorem handler_commits_href_witness :
    eapIdTableLoad
        (exampleOutcome exampleEnv [] (eapIdentityResponse examplePermanentIdentity)).table 1
      = (ascii "http://10.0.0.9:8080/nausf-auth/v1/ue-authentications/abc/eap-session", true) ∧
    eapIdTableLoad
        (exampleOutcome exampleEnvContinuation exampleTable exampleAkaChallengeResponse).table 9
      = (ascii "http://10.0.0.9:8080/next", true) ∧
    ∃ p, (exampleOutcome exampleEnvContinuation exampleTable exampleAkaChallengeResponse).written
        = some p ∧ p.Code = CodeAccessChallenge ∧
      AttributesLookup p.Attributes 79 = some [1, 9, 0, 6, 50, 1] ∧
      [1, 9, 0, 6, 50, 1][1]? = some 9 ∧
      (ascii "http://1.2.3.4:9/next" ≠ [] →
        eapIdTableLoad
            (exampleOutcome exampleEnvContinuation exampleTable exampleAkaChallengeResponse).table 9
          = (if exampleConfig.overwriteLinkString then
              ascii "http://" ++ exampleConfig.n12AUSFaddress ++ ascii "/"
                ++ (Cut (CutPrefix (ascii "http://1.2.3.4:9/next") (ascii "http://")).1
                    (ascii "/")).2.1
            else ascii "http://1.2.3.4:9/next", true)) ∧
      (ascii "http://1.2.3.4:9/next" = [] →
        (exampleOutcome exampleEnvContinuation exampleTable exampleAkaChallengeResponse).table
          = if (exampleVerified exampleTable exampleAkaChallengeResponse).eapPacket.EapType = 1
            then exampleTable
            else eapIdTableDelete exampleTable
              (exampleVerified exampleTable exampleAkaChallengeResponse).eapPacket.Id) :=
  ⟨by decide, by decide,
   handler_commits_href exampleEnvContinuation exampleConfig 300 exampleTable
    (exampleRequestEap exampleAkaChallengeResponse)
    (exampleVerified exampleTable exampleAkaChallengeResponse)
    (exampleOutcome exampleEnvContinuation exampleTable exampleAkaChallengeResponse) 200
    (ascii ("\x7b\"eapPayload\":\"MDEwOTAwMDYzMjAx\","
        ++ "\"_links\":\x7b\"href\":\"http://1.2.3.4:9/next\"\x7d\x7d"))
    [⟨ascii "http://old/7", ascii "\x7b\"eapPayload\":\"MDIwNzAwMDgzMjAxMDAwMA==\"\x7d"⟩]
    [1, 9, 0, 6, 50, 1] 9 (ascii "http://1.2.3.4:9/next")
    (by decide) (Or.inr ⟨by decide, Or.inl (by decide), by decide, by decide⟩)
    (by decide) (by decide) (by decide)⟩

/-- C25: for a verified EAP-Identity request whose parsed prefix is "7" or "8", if
one of the first `fuel` samples of `Intn(255)` has no binding in the session table
(sample number `j`), the handler returns; it has built an Access-Challenge whose
EAP-Message is `01 id 00 0c 32 05 00 00 11 01 00 00` with an `id` below 255 that has
no binding in the table, and has written it (unless the reply with the echoed
Proxy-State values does not serialize); it has made no N12 call and the session
table is as it was. -/
theorem handler_challenges_pseudonym (env : Env) (cfg : Config) (fuel : Nat) (t : Table)
    (r : Request) (h : HandlerState) (j : Nat) (hv : Verified env cfg t r h)
    (hty : h.eapPacket.EapType = 1)
    (h78 : (eapIdentityByteToString h.eapPacket).identityPrefix = ascii "7"
      ∨ (eapIdentityByteToString h.eapPacket).identityPrefix = ascii "8")
    (hj : j < fuel) (hfree : (eapIdTableLoad t (env.randIntn j % 255)).2 = false) :
    ∃ res p id, handler env cfg fuel t r = .ret res ∧
      id < 255 ∧ (eapIdTableLoad t id).2 = false ∧
      res.responsePacket = some p ∧ p.Code = CodeAccessChallenge ∧
      AttributesLookup p.Attributes 79 = some [1, id, 0, 12, 50, 5, 0, 0, 17, 1, 0, 0] ∧
      ((Serializes p ∧ res.written = some p) ∨ (¬ Serializes p ∧ res.written = none)) ∧
      res.n12 = [] ∧ res.table = t := by
  obtain ⟨f1, f2, f3, f4, f5⟩ := verified_fields env cfg t r h hv
  obtain ⟨id, hgen⟩ := generateEAPIdLoop_returns env t fuel 0 j (Nat.zero_le j) (by omega) hfree
  obtain ⟨hlt, hfr⟩ := generateEAPIdLoop_spec env t fuel 0 id hgen
  have hgen' : generateEAPId env h.table fuel = .ret id := by
    rw [f3]
    exact hgen
  have hdp := dispatch_pseudonym env cfg fuel h hv.2 hty h78 id hgen'
  obtain ⟨res, p, hres, hp, hc, hk, hn, -, -, -, hcase⟩ :=
    handler_reply env cfg fuel t r h _ _ hv hdp hv.2 rfl
  refine ⟨res, p, id, hres, hlt, hfr, hp, hc, ?_, ?_, hn.trans f2, ?_⟩
  · rw [hk 79 (by decide) (by decide)]
    rfl
  · rcases hcase with ⟨hs, hw, -⟩ | ⟨hs, hw, -⟩
    · exact Or.inl ⟨hs, hw⟩
    · exact Or.inr ⟨hs, hw⟩
  · rcases hcase with ⟨-, -, -, -, ht⟩ | ⟨-, -, -, -, ht⟩
    · rw [ht]
      simp [f4, f3]
    · exact ht.trans f3

/-- Witness of C25: the identity "7" when the table binds the EAP-Ids 7 and 9 and
the samples are 7, 9, 11: the reply is written, an Access-Challenge with the
EAP-Message `01 0b 00 0c 32 05 00 00 11 01 00 00`. -/
theorem handler_challenges_pseudonym_witness :
    (exampleOutcome exampleEnvRand exampleTable [2, 7, 0, 6, 1, 55]).written
      = (exampleOutcome exampleEnvRand exampleTable [2, 7, 0, 6, 1, 55]).responsePacket ∧
    (((exampleOutcome exampleEnvRand exampleTable [2, 7, 0, 6, 1, 55]).written.map
        (fun p => (p.Code, AttributesLookup p.Attributes 79)))
      = some (CodeAccessChallenge, some [1, 11, 0, 12, 50, 5, 0, 0, 17, 1, 0, 0])) ∧
    ∃ res p id, handler exampleEnvRand exampleConfig 300 exampleTable
        (exampleRequestEap [2, 7, 0, 6, 1, 55]) = .ret res ∧
      id < 255 ∧ (eapIdTableLoad exampleTable id).2 = false ∧
      res.responsePacket = some p ∧ p.Code = CodeAccessChallenge ∧
      AttributesLookup p.Attributes 79 = some [1, id, 0, 12, 50, 5, 0, 0, 17, 1, 0, 0] ∧
      ((Serializes p ∧ res.written = some p) ∨ (¬ Serializes p ∧ res.written = none)) ∧
      res.n12 = [] ∧ res.table = exampleTable :=
  ⟨by decide, by decide,
   handler_challenges_pseudonym exampleEnvRand exampleConfig 300 exampleTable
    (exampleRequestEap [2, 7, 0, 6, 1, 55]) (exampleVerified exampleTable [2, 7, 0, 6, 1, 55]) 2
    (by decide) (by decide) (by decide) (by decide) (by decide)⟩

/-- C26 (fails on the code): `getRad5gcConfig` returns no error exactly when the file
was read and decoded without error, the shared secret has 1 to 258 bytes, the
allowed client address parses as an IP, the AUSF address has a colon, the text
before its first colon parses as an IP, and the value `strconv.Atoi` gives for the
text after it lies in 0..65535; every failed check is reported whatever the later
checks find. The error of `Atoi` is dropped, so a port that is no number counts as
0: the configuration with the AUSF address `10.0.0.1:abc` is accepted. -/
theorem getRad5gcConfig_accepts_non_numeric_port :
    (∀ cenv : ConfigEnv,
      (getRad5gcConfig cenv).2 = none ↔
        (cenv.readFile.2 = none ∧ (cenv.yamlUnmarshal cenv.readFile.1).2 = none ∧
          1 ≤ (getRad5gcConfig cenv).1.ConfSharedSecret.length ∧
          (getRad5gcConfig cenv).1.ConfSharedSecret.length ≤ 258 ∧
          cenv.ParseIP (getRad5gcConfig cenv).1.ConfAllowedClientAddress = true ∧
          cenv.ParseIP (Cut (getRad5gcConfig cenv).1.ConfAUSFaddress (ascii ":")).1 = true ∧
          (Cut (getRad5gcConfig cenv).1.ConfAUSFaddress (ascii ":")).2.2 = true ∧
          0 ≤ (Atoi (Cut (getRad5gcConfig cenv).1.ConfAUSFaddress (ascii ":")).2.1).1 ∧
          (Atoi (Cut (getRad5gcConfig cenv).1.ConfAUSFaddress (ascii ":")).2.1).1 ≤ 65535)) ∧
    (getRad5gcConfig exampleConfigEnv).2 = none ∧
    (getRad5gcConfig exampleConfigEnv).1.ConfAUSFaddress = ascii "10.0.0.1:abc" ∧
    Atoi (ascii "abc") = (0, some (.lib "strconv.Atoi: invalid syntax")) := by
  refine ⟨fun cenv => ?_, by decide, by decide, by decide⟩
  unfold getRad5gcConfig
  dsimp only
  generalize (cenv.yamlUnmarshal cenv.readFile.1).1 = configSet
  generalize (cenv.yamlUnmarshal cenv.readFile.1).2 = unmarshalErr
  generalize cenv.readFile.2 = filereadErr
  generalize Cut configSet.ConfAUSFaddress (ascii ":") = c
  generalize (Atoi c.2.1).1 = port
  cases hp1 : cenv.ParseIP configSet.ConfAllowedClientAddress <;>
    cases hp2 : cenv.ParseIP c.1 <;>
    cases hs : c.2.2 <;>
    cases unmarshalErr <;> cases filereadErr <;>
    by_cases h1 : configSet.ConfSharedSecret.length > 258 <;>
    by_cases h2 : configSet.ConfSharedSecret.length < 1 <;>
    by_cases h3 : port > 65535 <;>
    by_cases h4 : port < 0 <;>
    simp [h1, h2, h3, h4]
  all_goals omega

/-- C27: for a verified EAP-Identity request with the prefix "6" whose network name
is accepted, whose `authReqFirst` returns the status `st` and a body without error,
and whose body `authRespBodyDecode` decodes without error to `(payload, id, link)`,
the handler returns having made the one N12 call of `authReqFirst`. When `st` is 201
the reply it built is an Access-Challenge whose EAP-Message is `payload`, and
`(id, link)` is captured in `eapSessionInfoId` and `eapSessionInfoURI`. For every
other status the reply is an Access-Reject without EAP-Message, nothing is
captured and the session table is as it was. The reply is written unless, with the
echoed Proxy-State values, it does not serialize. -/
theorem handler_permanent_identity_by_status (env : Env) (cfg : Config) (fuel : Nat) (t : Table)
    (r : Request) (h : HandlerState) (nwName body link : GoString) (st : Nat)
    (calls : List N12Request) (payload : Bytes) (id : Byte)
    (hv : Verified env cfg t r h) (hty : h.eapPacket.EapType = 1)
    (h6 : (eapIdentityByteToString h.eapPacket).identityPrefix = ascii "6")
    (hnw : toNWNameForN12 (eapIdentityByteToString h.eapPacket).networkName = (nwName, none))
    (hreq : authReqFirst env cfg (ascii "imsi-" ++ (eapIdentityByteToString h.eapPacket).imsi)
      nwName = ((st, body, none), calls))
    (hdec : authRespBodyDecode env st body = .ret (payload, id, link, none)) :
    ∃ res p, handler env cfg fuel t r = .ret res ∧ res.responsePacket = some p ∧
      res.n12 = calls ∧
      ((Serializes p ∧ res.written = some p) ∨ (¬ Serializes p ∧ res.written = none)) ∧
      (st = 201 →
        p.Code = CodeAccessChallenge ∧ AttributesLookup p.Attributes 79 = some payload ∧
        res.eapSessionInfoId = id ∧ res.eapSessionInfoURI = link) ∧
      (st ≠ 201 →
        p.Code = CodeAccessReject ∧ AttributesLookup p.Attributes 79 = none ∧
        res.eapSessionInfoURI = [] ∧ res.table = t) := by
  obtain ⟨f1, f2, f3, f4, f5⟩ := verified_fields env cfg t r h hv
  have hdp := dispatch_permanent env cfg fuel h nwName body link st calls payload id hv.2 hty h6
    hnw hreq hdec
  by_cases h201 : st = 201
  · rw [if_pos h201] at hdp
    obtain ⟨res, p, hres, hp, hc, hk, hn, hid, huri, -, hcase⟩ :=
      handler_reply env cfg fuel t r h _ _ hv hdp hv.2 rfl
    refine ⟨res, p, hres, hp, by rw [hn]; simp [f2], ?_, fun _ => ⟨hc, ?_, hid, huri⟩,
      fun hne => absurd h201 hne⟩
    · rcases hcase with ⟨hs, hw, -⟩ | ⟨hs, hw, -⟩
      · exact Or.inl ⟨hs, hw⟩
      · exact Or.inr ⟨hs, hw⟩
    · rw [hk 79 (by decide) (by decide)]
      rfl
  · rw [if_neg h201] at hdp
    obtain ⟨res, p, hres, hp, hc, hk, hn, hid, huri, -, hcase⟩ :=
      handler_reply env cfg fuel t r h _ _ hv hdp hv.2 rfl
    refine ⟨res, p, hres, hp, by rw [hn]; simp [f2], ?_, fun he => absurd he h201,
      fun _ => ⟨hc, ?_, huri.trans f4, ?_⟩⟩
    · rcases hcase with ⟨hs, hw, -⟩ | ⟨hs, hw, -⟩
      · exact Or.inl ⟨hs, hw⟩
      · exact Or.inr ⟨hs, hw⟩
    · rw [hk 79 (by decide) (by decide)]
      rfl
    · rcases hcase with ⟨-, -, -, -, ht⟩ | ⟨-, -, -, -, ht⟩
      · rw [ht]
        simp [f4, f3]
      · exact ht.trans f3

/-- Witness of C27: the permanent identity `6123456789012345@wlan.mnc012...` when
the AUSF answers 201 with the `5gAuthData` `AwEABA==`; and the written replies for
the answers 201 and 404. -/
theorem handler_permanent_identity_by_status_witness :
    (((exampleOutcome exampleEnv [] (eapIdentityResponse examplePermanentIdentity)).written.map
        (fun p => (p.Code, AttributesLookup p.Attributes 79)))
      = some (CodeAccessChallenge, some [3, 1, 0, 4, 0, 0])) ∧
    (((exampleOutcome (exampleEnvStatus 404) []
        (eapIdentityResponse examplePermanentIdentity)).written.map
        (fun p => (p.Code, AttributesLookup p.Attributes 79)))
      = some (CodeAccessReject, none)) ∧
    ∃ res p, handler exampleEnv exampleConfig 300 []
        (exampleRequestEap (eapIdentityResponse examplePermanentIdentity)) = .ret res ∧
      res.responsePacket = some p ∧
      res.n12 = [⟨ascii "http://10.0.0.9:8080/nausf-auth/v1/ue-authentications",
        ascii "imsi-1234567890123455G:mnc012.mcc345.3gppnetwork.org"⟩] ∧
      ((Serializes p ∧ res.written = some p) ∨ (¬ Serializes p ∧ res.written = none)) ∧
      (201 = 201 →
        p.Code = CodeAccessChallenge ∧ AttributesLookup p.Attributes 79 = some [3, 1, 0, 4, 0, 0] ∧
        res.eapSessionInfoId = 1 ∧
        res.eapSessionInfoURI
          = ascii "http://1.2.3.4:9/nausf-auth/v1/ue-authentications/abc/eap-session") ∧
      (201 ≠ 201 →
        p.Code = CodeAccessReject ∧ AttributesLookup p.Attributes 79 = none ∧
        res.eapSessionInfoURI = [] ∧ res.table = []) :=
  ⟨by decide, by decide,
   handler_permanent_identity_by_status exampleEnv exampleConfig 300 []
    (exampleRequestEap (eapIdentityResponse examplePermanentIdentity))
    (exampleVerified [] (eapIdentityResponse examplePermanentIdentity))
    (ascii "5G:mnc012.mcc345.3gppnetwork.org") []
    (ascii "http://1.2.3.4:9/nausf-auth/v1/ue-authentications/abc/eap-session") 201
    [⟨ascii "http://10.0.0.9:8080/nausf-auth/v1/ue-authentications",
        ascii "imsi-1234567890123455G:mnc012.mcc345.3gppnetwork.org"⟩]
    [3, 1, 0, 4, 0, 0] 1
    (by decide) (by decide) (by decide) (by decide) (by decide) (by decide)⟩

/-- C28: for every request, once the checks of lines 91-119 and the dispatch have
returned (states `h3` and `h4`), the dispatch has set the reply packet or the
discard flag; the state at the write step, after the finalization, has a reply
packet whenever its discard flag is false; so the handler returns, without the
nil dereference of `w.Write(nil)`, and with the discard flag false it has called
`w.Write` with a packet. -/
theorem handler_never_writes_nil (env : Env) (cfg : Config) (fuel : Nat) (t : Table)
    (r : Request) (h3 h4 : HandlerState)
    (hx : eapExtract env cfg r (proxyStateCapture (sourceCheck cfg r (HandlerState.init t r)))
      = .ret h3)
    (hdp : dispatch env cfg fuel h3 = .ret h4) :
    (h4.reqReceivedStatus.discardFlag = false → ∃ rp, h4.responsePacket = some rp) ∧
    ((finalizeReply env cfg h4).reqReceivedStatus.discardFlag = false →
        ∃ p, (finalizeReply env cfg h4).responsePacket = some p) ∧
    ∃ res, handler env cfg fuel t r = .ret res ∧
      (res.reqReceivedStatus.discardFlag = false → ∃ p, res.written = some p) := by
  have hset := (Run.sat_iff _ _).mp (dispatch_settled env cfg fuel h3) h4 hdp
  have hh : handler env cfg fuel t r = writeAndCommit env cfg (finalizeReply env cfg h4) := by
    rw [handler_eq, hx]
    show (dispatch env cfg fuel h3 >>= _) = _
    rw [hdp]
    rfl
  rw [hh]
  refine ⟨hset, ?_⟩
  cases hd : h4.reqReceivedStatus.discardFlag with
  | true =>
    obtain ⟨res, hres, hw, -, -, -, hdis, -⟩ := discard_outcome env cfg h4 hd
    refine ⟨?_, res, hres, ?_⟩
    · intro hf
      cases hrp : h4.responsePacket with
      | none => simp [finalizeReply, hrp, hd] at hf
      | some rp =>
        obtain ⟨p, -, -, hcase⟩ := finalize_cases env cfg h4 rp hrp
        rcases hcase with ⟨-, hfin⟩ | ⟨-, ps, hps, hfin⟩ <;> exact ⟨p, by rw [hfin]⟩
    · intro hf
      rw [hdis] at hf
      cases hf
  | false =>
    obtain ⟨rp, hrp⟩ := hset hd
    obtain ⟨p, -, -, hcase⟩ := finalize_cases env cfg h4 rp hrp
    obtain ⟨res, p', hres, hp', -, -, -, -, -, -, hcase'⟩ := reply_outcome env cfg h4 rp hd hrp
    refine ⟨fun _ => ?_, res, hres, fun hf => ?_⟩
    · rcases hcase with ⟨-, hfin⟩ | ⟨-, ps, hps, hfin⟩ <;> exact ⟨p, by rw [hfin]⟩
    · rcases hcase' with ⟨-, hw, -⟩ | ⟨-, -, -, hdis, -⟩
      · exact ⟨p', hw⟩
      · rw [hdis] at hf
        cases hf

/-- Witness of C28: the example request with the identity "9" is answered; the
write step is reached with the discard flag false and a reply is written. -/
theorem handler_never_writes_nil_witness :
    (exampleOutcome exampleEnv [] [2, 7, 0, 6, 1, 57]).reqReceivedStatus.discardFlag = false ∧
    (((exampleDispatched exampleEnv [] [2, 7, 0, 6, 1, 57]).reqReceivedStatus.discardFlag = false →
      ∃ rp, (exampleDispatched exampleEnv [] [2, 7, 0, 6, 1, 57]).responsePacket = some rp) ∧
    ((finalizeReply exampleEnv exampleConfig
        (exampleDispatched exampleEnv [] [2, 7, 0, 6, 1, 57])).reqReceivedStatus.discardFlag = false →
      ∃ p, (finalizeReply exampleEnv exampleConfig
        (exampleDispatched exampleEnv [] [2, 7, 0, 6, 1, 57])).responsePacket = some p) ∧
    ∃ res, handler exampleEnv exampleConfig 300 [] (exampleRequestEap [2, 7, 0, 6, 1, 57])
        = .ret res ∧
      (res.reqReceivedStatus.discardFlag = false → ∃ p, res.written = some p)) :=
  ⟨by decide,
   handler_never_writes_nil exampleEnv exampleConfig 300 [] (exampleRequestEap [2, 7, 0, 6, 1, 57])
    (exampleVerified [] [2, 7, 0, 6, 1, 57])
    (exampleDispatched exampleEnv [] [2, 7, 0, 6, 1, 57]) (by decide) (by decide)⟩

/-- C29 (fails on the code): for a verified request with EAP Type 50 and subtype 1
or 4 whose exchange the AUSF answers with a status other than 200 and 201 (so
400, 403, 404, 500, ...), `authRespBodyDecode` returns no error and an empty
payload, and the handler panics at the read `exchEapPayload[0]` of line 218 or 303;
it neither discards nor rejects. -/
theorem handler_panics_on_error_status (env : Env) (cfg : Config) (fuel : Nat) (t : Table)
    (r : Request) (h : HandlerState) (st : Nat) (body : GoString) (calls : List N12Request)
    (hv : Verified env cfg t r h) (hty : h.eapPacket.EapType = 50)
    (hsub : h.eapPacket.TypeData[0]? = some 1 ∨ h.eapPacket.TypeData[0]? = some 4)
    (hreq : authReqExchange env t h.eapPacket.Contents = .ret ((st, body, none), calls))
    (h200 : st ≠ 200) (h201 : st ≠ 201) :
    authRespBodyDecode env st body = .ret ([], 0, body, none) ∧
    handler env cfg fuel t r = .panic "index out of range" := by
  refine ⟨authRespBodyDecode_error_status env st body h200 h201, ?_⟩
  obtain ⟨-, -, f3, -, -⟩ := verified_fields env cfg t r h hv
  rw [← f3] at hreq
  rw [handler_of_verified env cfg fuel t r h hv, dispatch_aka env cfg fuel h hv.2 hty]
  rcases hsub with hsub | hsub
  · rw [dispatchAka_subtype1 env cfg h hsub,
      akaChallenge_error_status env h st body calls hreq h200 h201]
    rfl
  · rw [dispatchAka_subtype4 env cfg h hsub,
      akaSynchronizationFailure_error_status env h st body calls hreq h200 h201]
    rfl

/-- Witness of C29: the AKA'-Challenge response with EAP-Id 7, bound in the table,
and an AUSF that answers 404. The same happens to the AKA'-Synchronization-Failure
response. -/
theorem handler_panics_on_error_status_witness :
    handler (exampleEnvStatus 404) exampleConfig 300 exampleTable
        (exampleRequestEap exampleAkaSyncFailureResponse) = .panic "index out of range" ∧
    authRespBodyDecode (exampleEnvStatus 404) 404
        (ascii "\x7b\"cause\":\"USER_NOT_FOUND\"\x7d")
      = .ret ([], 0, ascii "\x7b\"cause\":\"USER_NOT_FOUND\"\x7d", none) ∧
    handler (exampleEnvStatus 404) exampleConfig 300 exampleTable
        (exampleRequestEap exampleAkaChallengeResponse) = .panic "index out of range" :=
  ⟨by decide,
   handler_panics_on_error_status (exampleEnvStatus 404) exampleConfig 300 exampleTable
    (exampleRequestEap exampleAkaChallengeResponse)
    (exampleVerified exampleTable exampleAkaChallengeResponse) 404
    (ascii "\x7b\"cause\":\"USER_NOT_FOUND\"\x7d")
    [⟨ascii "http://old/7", ascii "\x7b\"eapPayload\":\"MDIwNzAwMDgzMjAxMDAwMA==\"\x7d"⟩]
    (by decide) (by decide) (by decide) (by decide) (by decide) (by decide)⟩

/-- C30 (fails on the code): for a verified request whose decoded EAP-Message has
Type 50, the handler panics at the read `TypeData[0]` of line 201 when TypeData is
empty, and with subtype 5 it panics at `TypeData[7]` (line 331) when TypeData has
at most 7 bytes and at the slice expressions of lines 332-333 when it has 8 to 22
bytes. -/
theorem handler_panics_on_short_TypeData (env : Env) (cfg : Config) (fuel : Nat) (t : Table)
    (r : Request) (h : HandlerState) (hv : Verified env cfg t r h)
    (hty : h.eapPacket.EapType = 50) :
    (h.eapPacket.TypeData = [] → handler env cfg fuel t r = .panic "index out of range") ∧
    (h.eapPacket.TypeData[0]? = some 5 → h.eapPacket.TypeData.length ≤ 7 →
      handler env cfg fuel t r = .panic "index out of range") ∧
    (h.eapPacket.TypeData[0]? = some 5 → 7 < h.eapPacket.TypeData.length →
      h.eapPacket.TypeData.length < 23 →
      handler env cfg fuel t r = .panic "slice bounds out of range") := by
  rw [handler_of_verified env cfg fuel t r h hv, dispatch_aka env cfg fuel h hv.2 hty]
  refine ⟨fun he => ?_, fun h5 h7 => ?_, fun h5 h7 h23 => ?_⟩
  · rw [dispatchAka_empty env cfg h he]
    rfl
  · rw [dispatchAka_subtype5 env cfg h h5, akaIdentity_short env cfg h (by omega), if_pos h7]
    rfl
  · rw [dispatchAka_subtype5 env cfg h h5, akaIdentity_short env cfg h h23, if_neg (by omega)]
    rfl

/-- Witness of C30: the request whose EAP-Message is `02 07 00 05 32` passes the
Message-Authenticator check and the EAP decoding, with Type 50 and no TypeData,
and the handler panics; so it does for the AKA'-Identity response with three
bytes of TypeData. -/
theorem handler_panics_on_short_TypeData_witness :
    (exampleVerified [] exampleAkaNoTypeData).eapPacket.TypeData = [] ∧
    handler exampleEnv exampleConfig 300 [] (exampleRequestEap exampleAkaNoTypeData)
      = .panic "index out of range" ∧
    handler exampleEnv exampleConfig 300 [] (exampleRequestEap exampleAkaIdentityShort)
      = .panic "index out of range" :=
  ⟨by decide,
   (handler_panics_on_short_TypeData exampleEnv exampleConfig 300 []
      (exampleRequestEap exampleAkaNoTypeData) (exampleVerified [] exampleAkaNoTypeData)
      (by decide) (by decide)).1 (by decide),
   (handler_panics_on_short_TypeData exampleEnv exampleConfig 300 []
      (exampleRequestEap exampleAkaIdentityShort) (exampleVerified [] exampleAkaIdentityShort)
      (by decide) (by decide)).2.1 (by decide) (by decide)⟩

/-- C31 (fails on the code): for a verified request with EAP Type 50 and subtype 5
whose TypeData has at least 23 bytes and an accepted network name, when the AUSF
answers `authReqFirst` with a status other than 200 and 201 and a body that is not
empty, the handler returns having built an Access-Challenge with an empty
EAP-Message; unless that reply does not serialize it is written, and after a write
without error the session table is the one `eapIdTableStore` makes for the EAP-Id 0
and the body: `eapIdTableLoad 0` returns found with the raw body of the answer (or
with its rewrite when `overwriteLinkString` is on). -/
theorem handler_commits_error_body (env : Env) (cfg : Config) (fuel : Nat) (t : Table)
    (r : Request) (h : HandlerState) (st : Nat) (body nwName : GoString)
    (calls : List N12Request)
    (hv : Verified env cfg t r h) (hty : h.eapPacket.EapType = 50)
    (hsub : h.eapPacket.TypeData[0]? = some 5) (hlen : 23 ≤ h.eapPacket.TypeData.length)
    (hnw : toNWNameForN12 (h.eapPacket.TypeData.drop 23) = (nwName, none))
    (hreq : authReqFirst env cfg ((h.eapPacket.TypeData.take 23).drop 8) nwName
      = ((st, body, none), calls))
    (h200 : st ≠ 200) (h201 : st ≠ 201) (hbody : body ≠ []) :
    ∃ res p, handler env cfg fuel t r = .ret res ∧ res.responsePacket = some p ∧
      p.Code = CodeAccessChallenge ∧ AttributesLookup p.Attributes 79 = some [] ∧
      ((Serializes p ∧ res.written = some p ∧
          (env.writeErr p = none →
            res.sent = true ∧
            res.table = (eapIdTableStore cfg t 0 (.str body)).1 ∧
            eapIdTableLoad res.table 0
              = (if cfg.overwriteLinkString then
                  ascii "http://" ++ cfg.n12AUSFaddress ++ ascii "/"
                    ++ (Cut (CutPrefix body (ascii "http://")).1 (ascii "/")).2.1
                else body, true)))
        ∨ (¬ Serializes p ∧ res.written = none)) := by
  obtain ⟨f1, f2, f3, f4, f5⟩ := verified_fields env cfg t r h hv
  have hdp : dispatch env cfg fuel h
      = .ret { h with
          n12 := h.n12 ++ calls
          responsePacket := some (eapReply h CodeAccessChallenge [])
          eapSessionInfoId := 0
          eapSessionInfoURI := body } := by
    rw [dispatch_aka env cfg fuel h hv.2 hty, dispatchAka_subtype5 env cfg h hsub]
    exact akaIdentity_error_status env cfg h st body nwName calls hlen hnw hreq h200 h201
  obtain ⟨res, p, hres, hp, hc, hk, -, -, -, -, hcase⟩ :=
    handler_reply env cfg fuel t r h _ _ hv hdp hv.2 rfl
  refine ⟨res, p, hres, hp, hc, ?_, ?_⟩
  · rw [hk 79 (by decide) (by decide)]
    rfl
  · rcases hcase with ⟨hs, hw, -, hsent, ht⟩ | ⟨hs, hw, -⟩
    · refine Or.inl ⟨hs, hw, fun hwe => ?_⟩
      have ht' : res.table = (eapIdTableStore cfg t 0 (.str body)).1 := by
        rw [ht]
        simp [hwe, hbody, f3]
      refine ⟨by simp [hsent, hwe], ht', ?_⟩
      rw [ht']
      exact eapIdTableLoad_Store cfg t 0 body
    · exact Or.inr ⟨hs, hw⟩

/-- Witness of C31: the AKA'-Identity response of the permanent identity when the
AUSF answers 404 with a problem-details body: with the link rewrite off the handler
writes an Access-Challenge with an empty EAP-Message and binds the EAP-Id 0 to the
body of the 404 answer. -/
theorem handler_commits_error_body_witness :
    (((exampleOutcomeVerbatim (exampleEnvStatus 404) [] exampleAkaIdentityResponse).written.map
        (fun p => (p.Code, AttributesLookup p.Attributes 79)))
      = some (CodeAccessChallenge, some [])) ∧
    (exampleOutcomeVerbatim (exampleEnvStatus 404) [] exampleAkaIdentityResponse).table
      = [(0, ascii "\x7b\"cause\":\"USER_NOT_FOUND\"\x7d")] ∧
    ∃ res p, handler (exampleEnvStatus 404) exampleConfigVerbatim 300 []
        (exampleRequestEap exampleAkaIdentityResponse) = .ret res ∧
      res.responsePacket = some p ∧
      p.Code = CodeAccessChallenge ∧ AttributesLookup p.Attributes 79 = some [] ∧
      ((Serializes p ∧ res.written = some p ∧
          ((exampleEnvStatus 404).writeErr p = none →
            res.sent = true ∧
            res.table = (eapIdTableStore exampleConfigVerbatim [] 0
              (.str (ascii "\x7b\"cause\":\"USER_NOT_FOUND\"\x7d"))).1 ∧
            eapIdTableLoad res.table 0
              = (if exampleConfigVerbatim.overwriteLinkString then
                  ascii "http://" ++ exampleConfigVerbatim.n12AUSFaddress ++ ascii "/"
                    ++ (Cut (CutPrefix (ascii "\x7b\"cause\":\"USER_NOT_FOUND\"\x7d")
                          (ascii "http://")).1 (ascii "/")).2.1
                else ascii "\x7b\"cause\":\"USER_NOT_FOUND\"\x7d", true)))
        ∨ (¬ Serializes p ∧ res.written = none)) :=
  ⟨by decide, by decide,
   handler_commits_error_body (exampleEnvStatus 404) exampleConfigVerbatim 300 []
    (exampleRequestEap exampleAkaIdentityResponse)
    (exampleVerified [] exampleAkaIdentityResponse) 404
    (ascii "\x7b\"cause\":\"USER_NOT_FOUND\"\x7d") (ascii "5G:mnc012.mcc345.3gppnetwork.org")
    [⟨ascii "http://10.0.0.1:8080/nausf-auth/v1/ue-authentications",
      ascii "1234567890123455G:mnc012.mcc345.3gppnetwork.org"⟩]
    (by decide) (by decide) (by decide) (by decide) (by decide) (by decide) (by decide)
    (by decide) (by decide)⟩

/-- C32: with `overwriteLinkString` on and an AUSF address without "/", let `w` be
the value `eapIdTableStore` binds for the string `uri` (what `eapIdTableLoad`
returns after the store). Storing `w` binds `w` again, for every table and EAP-Id:
the rewrite of a rewritten URI is that URI. Hence storing the value read back
under the same EAP-Id leaves the session table as it is. -/
theorem eapIdTableStore_rewrite_idempotent (cfg : Config) (t : Table) (eapid : Nat)
    (uri : GoString) (hflag : cfg.overwriteLinkString = true)
    (hausf : ∀ c ∈ cfg.n12AUSFaddress, c ≠ 47) :
    ∃ w, eapIdTableLoad (eapIdTableStore cfg t eapid (.str uri)).1 eapid = (w, true) ∧
      (∀ (t' : Table) (id' : Nat),
        eapIdTableLoad (eapIdTableStore cfg t' id' (.str w)).1 id' = (w, true)) ∧
      (eapIdTableStore cfg (eapIdTableStore cfg t eapid (.str uri)).1 eapid (.str w)).1
        = (eapIdTableStore cfg t eapid (.str uri)).1 := by
  have hw : ∀ (t' : Table) (id' : Nat) (rest : GoString),
      (eapIdTableStore cfg t' id'
          (.str (ascii "http://" ++ cfg.n12AUSFaddress ++ ascii "/" ++ rest))).1
        = t'.Store id' (ascii "http://" ++ cfg.n12AUSFaddress ++ ascii "/" ++ rest) := by
    intro t' id' rest
    unfold eapIdTableStore
    simp only [hflag, if_true, rewrite_of_rewritten cfg.n12AUSFaddress rest hausf]
  refine ⟨ascii "http://" ++ cfg.n12AUSFaddress ++ ascii "/"
    ++ (Cut (CutPrefix uri (ascii "http://")).1 (ascii "/")).2.1, ?_, ?_, ?_⟩
  · rw [eapIdTableLoad_Store, if_pos hflag]
  · intro t' id'
    rw [hw, eapIdTableLoad_eq, Table.Load_Store_self]
    rfl
  · rw [hw]
    unfold eapIdTableStore
    simp only [hflag, if_true]
    simp only [Table.Store, Table.Delete, List.filter_cons, bne_self_eq_false,
      Bool.false_eq_true, if_false, List.filter_filter, Bool.and_self]

/-- Witness of C32: the AUSF address `10.0.0.1:8080`, the table of the worked
examples and the string `https://1.2.3.4:9/abc`, whose stored form is
`http://10.0.0.1:8080//1.2.3.4:9/abc`; storing that value again leaves it and
the table unchanged. -/
theorem eapIdTableStore_rewrite_idempotent_witness :
    eapIdTableLoad (eapIdTableStore exampleConfigRewrite exampleTable 7
        (.str (ascii "https://1.2.3.4:9/abc"))).1 7
      = (ascii "http://10.0.0.1:8080//1.2.3.4:9/abc", true) ∧
    ∃ w, eapIdTableLoad (eapIdTableStore exampleConfigRewrite exampleTable 7
        (.str (ascii "https://1.2.3.4:9/abc"))).1 7 = (w, true) ∧
      (∀ (t' : Table) (id' : Nat),
        eapIdTableLoad (eapIdTableStore exampleConfigRewrite t' id' (.str w)).1 id' = (w, true)) ∧
      (eapIdTableStore exampleConfigRewrite
          (eapIdTableStore exampleConfigRewrite exampleTable 7
            (.str (ascii "https://1.2.3.4:9/abc"))).1 7 (.str w)).1
        = (eapIdTableStore exampleConfigRewrite exampleTable 7
            (.str (ascii "https://1.2.3.4:9/abc"))).1 :=
  ⟨by decide,
   eapIdTableStore_rewrite_idempotent exampleConfigRewrite exampleTable 7
    (ascii "https://1.2.3.4:9/abc") (by decide) (by decide)⟩

end Rad5GC
